import Mathlib

/-!
# sailjaild: application records and the per-user settings store

A shallow embedding of `src/daemon/appinfo.c` and `src/daemon/settings.c`.

* C structs become Lean structures with the field names of the source.
* Functions that mutate `self` become functions returning the new record; a C function that
  also returns a value returns a pair `(value, new record)`.
* Calls that leave the settings store (`control_on_settings_change`) or that touch state owned
  by the store rather than by the record (`settings_save_later`) are recorded as a list of
  effects returned next to the new record, oldest first.
* Everything the code obtains from its collaborators (`control_appinfo`,
  `control_available_permissions`, `stat`, `access`, `keyfile_load`) is an explicit argument.
-/

namespace Sailjail

/-! ## String sets (`stringset.h`) -/

/-- Modelled from the spec: `stringset.c` is not among the sources. The spec (4.1) describes an
ordered set of short strings with duplicate suppression whose equality ignores order; values are
taken up to that equality, i.e. as finite sets of strings. -/
abbrev stringset_t := Finset String

/-- Modelled from the spec: `stringset_create` of the absent `stringset.c`, a new empty set. -/
def stringset_create : stringset_t := ∅

/-- Modelled from the spec: `stringset_filter_in` of the absent `stringset.c`;
"`filter_in(S, M)` returns `S ∩ M`". -/
def stringset_filter_in (self mask : stringset_t) : stringset_t := self ∩ mask

/-- Modelled from the spec: `stringset_assign` of the absent `stringset.c`; "a change-detecting
`assign` that returns true iff the target differed". The pair is (returned flag, new target). -/
def stringset_assign (self that : stringset_t) : Bool × stringset_t :=
  (decide (self ≠ that), that)

/-- Modelled from the spec: `stringset_clear` of the absent `stringset.c`, assignment of the
empty set with the same change detection. The pair is (returned flag, new target). -/
def stringset_clear (self : stringset_t) : Bool × stringset_t :=
  stringset_assign self stringset_create

/-! ## Helpers of `util.h` -/

/-- Modelled from the spec: `change_string` of the absent `util.c` (declared in `util.h`):
stores `val` in `*pstr` and reports whether the stored string differed. `none` is `NULL`. -/
def change_string (pstr val : Option String) : Bool × Option String :=
  (decide (pstr ≠ val), val)

/-- Modelled from the spec: `change_boolean` of the absent `util.c` (declared in `util.h`). -/
def change_boolean (cur val : Bool) : Bool × Bool :=
  (decide (cur ≠ val), val)

/-- One value of a key file, as the typed accessor that reads it reports it. -/
inductive keyval_t where
  | str (s : String)
  | int (n : Int)
  | bool (b : Bool)
  | list (items : List String)
deriving DecidableEq, Repr

/-- Modelled from the spec: a loaded GLib key file ("a textual key/value-with-sections file"),
after parsing: groups by name, each a table from key to value. -/
structure GKeyFile where
  groups : List (String × List (String × keyval_t))
deriving DecidableEq, Repr

/-- The value stored under `key` in group `sec`, if both exist. -/
def GKeyFile.value (file : GKeyFile) (sec key : String) : Option keyval_t :=
  (file.groups.lookup sec).bind (fun kvs => kvs.lookup key)

/-- The `g_key_file_has_group` of GLib. -/
def g_key_file_has_group (file : GKeyFile) (sec : String) : Bool :=
  (file.groups.lookup sec).isSome

/-- Modelled from the spec: `keyfile_get_string` of the absent `util.c`: the value of the key,
or `dflt` when the key is missing. -/
def keyfile_get_string (file : GKeyFile) (sec key : String) (dflt : Option String) :
    Option String :=
  match file.value sec key with
  | some (.str s) => some s
  | _ => dflt

/-- Modelled from the spec: `keyfile_get_boolean` of the absent `util.c`. -/
def keyfile_get_boolean (file : GKeyFile) (sec key : String) (dflt : Bool) : Bool :=
  match file.value sec key with
  | some (.bool b) => b
  | _ => dflt

/-- Modelled from the spec: `keyfile_get_integer` of the absent `util.c`. -/
def keyfile_get_integer (file : GKeyFile) (sec key : String) (dflt : Int) : Int :=
  match file.value sec key with
  | some (.int n) => n
  | _ => dflt

/-- Modelled from the spec: `keyfile_get_stringset` of the absent `util.c`: the items of the
list value as a string set, empty when the key is missing. -/
def keyfile_get_stringset (file : GKeyFile) (sec key : String) : stringset_t :=
  match file.value sec key with
  | some (.list items) => items.toFinset
  | _ => stringset_create

def DESKTOP_SECTION : String := "Desktop Entry"
def DESKTOP_KEY_NAME : String := "Name"
def DESKTOP_KEY_TYPE : String := "Type"
def DESKTOP_KEY_ICON : String := "Icon"
def DESKTOP_KEY_EXEC : String := "Exec"
def DESKTOP_KEY_NO_DISPLAY : String := "NoDisplay"
def MAEMO_SECTION : String := "Desktop Entry"
def MAEMO_KEY_SERVICE : String := "X-Maemo-Service"
def MAEMO_KEY_OBJECT : String := "X-Maemo-Object-Path"
def MAEMO_KEY_METHOD : String := "X-Maemo-Method"
def SAILJAIL_SECTION_PRIMARY : String := "X-Sailjail"
def SAILJAIL_SECTION_SECONDARY : String := "Sailjail"
def SAILJAIL_KEY_ORGANIZATION_NAME : String := "OrganizationName"
def SAILJAIL_KEY_APPLICATION_NAME : String := "ApplicationName"
def SAILJAIL_KEY_PERMISSIONS : String := "Permissions"

/-! ## Application records (`appinfo.c`) -/

inductive appinfo_state_t where
  | APPINFO_STATE_UNSET
  | APPINFO_STATE_VALID
  | APPINFO_STATE_INVALID
  | APPINFO_STATE_DELETED
deriving DecidableEq, Repr

open appinfo_state_t

/-- The `struct appinfo_t`, without the uplink `anf_applications`: what the code reaches
through it (the installed-permissions mask) is an argument of the functions that use it. -/
structure appinfo_t where
  anf_appname : String
  anf_state : appinfo_state_t
  anf_dt_ctime : Int
  anf_dirty : Bool
  anf_dt_name : Option String
  anf_dt_type : Option String
  anf_dt_icon : Option String
  anf_dt_exec : Option String
  anf_dt_no_display : Bool
  anf_mo_service : Option String
  anf_mo_object : Option String
  anf_mo_method : Option String
  anf_sj_organization_name : Option String
  anf_sj_application_name : Option String
  anf_sj_permissions_in : stringset_t
  anf_sj_permissions_out : stringset_t
deriving DecidableEq

/-- The `appinfo_ctor` / `appinfo_create`. -/
def appinfo_create (id : String) : appinfo_t :=
  { anf_appname := id
    anf_state := APPINFO_STATE_UNSET
    anf_dt_ctime := -1
    anf_dirty := false
    anf_dt_name := none
    anf_dt_type := none
    anf_dt_icon := none
    anf_dt_exec := none
    anf_dt_no_display := false
    anf_mo_service := none
    anf_mo_object := none
    anf_mo_method := none
    anf_sj_permissions_in := stringset_create
    anf_sj_permissions_out := stringset_create
    anf_sj_organization_name := none
    anf_sj_application_name := none }

def appinfo_id (self : appinfo_t) : String := self.anf_appname

def appinfo_set_dirty (self : appinfo_t) : appinfo_t :=
  { self with anf_dirty := true }

/-- The `appinfo_clear_dirty`: (was dirty, record with the flag cleared). -/
def appinfo_clear_dirty (self : appinfo_t) : Bool × appinfo_t :=
  (self.anf_dirty, { self with anf_dirty := false })

/-- The `appinfo_get_state`; `none` is the `NULL` record. -/
def appinfo_get_state (self : Option appinfo_t) : appinfo_state_t :=
  match self with
  | some a => a.anf_state
  | none => APPINFO_STATE_DELETED

def appinfo_set_state (self : appinfo_t) (state : appinfo_state_t) : appinfo_t :=
  if self.anf_state ≠ state then
    appinfo_set_dirty { self with anf_state := state }
  else self

/-- The `appinfo_valid`; `none` is the `NULL` record. -/
def appinfo_valid (self : Option appinfo_t) : Bool :=
  decide (appinfo_get_state self = APPINFO_STATE_VALID)

/-- A `const gchar *` returned by a getter: the address of the static array `appinfo_unknown`,
or a string owned by the record. Equality of these values is pointer equality. -/
inductive gchar_ptr where
  | appinfo_unknown
  | owned (s : String)
deriving DecidableEq, Repr

/-- The text a `gchar_ptr` points to. -/
def gchar_ptr.text : gchar_ptr → String
  | .appinfo_unknown => "unknown"
  | .owned s => s

/-- The GNU `x ?: appinfo_unknown`. -/
def or_unknown (field : Option String) : gchar_ptr :=
  match field with
  | some s => .owned s
  | none => .appinfo_unknown

def appinfo_get_name (self : appinfo_t) : gchar_ptr := or_unknown self.anf_dt_name
def appinfo_get_type (self : appinfo_t) : gchar_ptr := or_unknown self.anf_dt_type
def appinfo_get_icon (self : appinfo_t) : gchar_ptr := or_unknown self.anf_dt_icon
def appinfo_get_exec (self : appinfo_t) : gchar_ptr := or_unknown self.anf_dt_exec
def appinfo_get_no_display (self : appinfo_t) : Bool := self.anf_dt_no_display
def appinfo_get_service (self : appinfo_t) : gchar_ptr := or_unknown self.anf_mo_service
def appinfo_get_object (self : appinfo_t) : gchar_ptr := or_unknown self.anf_mo_object
def appinfo_get_method (self : appinfo_t) : gchar_ptr := or_unknown self.anf_mo_method
def appinfo_get_organization_name (self : appinfo_t) : gchar_ptr :=
  or_unknown self.anf_sj_organization_name
def appinfo_get_application_name (self : appinfo_t) : gchar_ptr :=
  or_unknown self.anf_sj_application_name

def appinfo_set_name (self : appinfo_t) (name : Option String) : appinfo_t :=
  let r := change_string self.anf_dt_name name
  let self := { self with anf_dt_name := r.2 }
  if r.1 then appinfo_set_dirty self else self

def appinfo_set_type (self : appinfo_t) (type : Option String) : appinfo_t :=
  let r := change_string self.anf_dt_type type
  let self := { self with anf_dt_type := r.2 }
  if r.1 then appinfo_set_dirty self else self

def appinfo_set_icon (self : appinfo_t) (icon : Option String) : appinfo_t :=
  let r := change_string self.anf_dt_icon icon
  let self := { self with anf_dt_icon := r.2 }
  if r.1 then appinfo_set_dirty self else self

def appinfo_set_exec (self : appinfo_t) (exec : Option String) : appinfo_t :=
  let r := change_string self.anf_dt_exec exec
  let self := { self with anf_dt_exec := r.2 }
  if r.1 then appinfo_set_dirty self else self

def appinfo_set_no_display (self : appinfo_t) (no_display : Bool) : appinfo_t :=
  let r := change_boolean self.anf_dt_no_display no_display
  let self := { self with anf_dt_no_display := r.2 }
  if r.1 then appinfo_set_dirty self else self

def appinfo_set_service (self : appinfo_t) (service : Option String) : appinfo_t :=
  let r := change_string self.anf_mo_service service
  let self := { self with anf_mo_service := r.2 }
  if r.1 then appinfo_set_dirty self else self

def appinfo_set_object (self : appinfo_t) (object : Option String) : appinfo_t :=
  let r := change_string self.anf_mo_object object
  let self := { self with anf_mo_object := r.2 }
  if r.1 then appinfo_set_dirty self else self

def appinfo_set_method (self : appinfo_t) (method : Option String) : appinfo_t :=
  let r := change_string self.anf_mo_method method
  let self := { self with anf_mo_method := r.2 }
  if r.1 then appinfo_set_dirty self else self

def appinfo_set_organization_name (self : appinfo_t) (organization_name : Option String) :
    appinfo_t :=
  let r := change_string self.anf_sj_organization_name organization_name
  let self := { self with anf_sj_organization_name := r.2 }
  if r.1 then appinfo_set_dirty self else self

def appinfo_set_application_name (self : appinfo_t) (application_name : Option String) :
    appinfo_t :=
  let r := change_string self.anf_sj_application_name application_name
  let self := { self with anf_sj_application_name := r.2 }
  if r.1 then appinfo_set_dirty self else self

/-- The `appinfo_get_permissions`: the masked set. -/
def appinfo_get_permissions (self : appinfo_t) : stringset_t := self.anf_sj_permissions_out

/-- The `appinfo_evaluate_permissions`; `mask` is what
`control_available_permissions(appinfo_control(self))` returns. The pair is
(returned flag, new record). -/
def appinfo_evaluate_permissions (mask : stringset_t) (self : appinfo_t) : Bool × appinfo_t :=
  let temp := stringset_filter_in self.anf_sj_permissions_in mask
  let r := stringset_assign self.anf_sj_permissions_out temp
  let self := { self with anf_sj_permissions_out := r.2 }
  if r.1 then (true, self) else (false, self)

def appinfo_set_permissions (mask : stringset_t) (self : appinfo_t) (perms : stringset_t) :
    appinfo_t :=
  let self := { self with
    anf_sj_permissions_in := (stringset_assign self.anf_sj_permissions_in perms).2 }
  let r := appinfo_evaluate_permissions mask self
  if r.1 then appinfo_set_dirty r.2 else r.2

def appinfo_clear_permissions (self : appinfo_t) : appinfo_t :=
  let r := stringset_clear (appinfo_get_permissions self)
  let self := { self with anf_sj_permissions_out := r.2 }
  if r.1 then appinfo_set_dirty self else self

/-- Outcome of `stat(path, &st)`: failure with the `errno` it leaves, or success with the
`st_ctime` of the file. -/
inductive stat_result_t where
  | failed (errno : Nat)
  | ok (st_ctime : Int)
deriving DecidableEq, Repr

/-- The `ENOENT` of `errno.h`. -/
def ENOENT : Nat := 2

/-- What the system reports for the manifest `path_from_desktop_name(appinfo_id(self))` during
one call of `appinfo_parse_desktop`. -/
structure desktop_file_t where
  /-- Result of `stat(path, &st)`. -/
  stat : stat_result_t
  /-- Whether `access(path, R_OK)` succeeds. -/
  access_r_ok : Bool
  /-- Result of `keyfile_load(ini, path)`: `none` when it returns false. -/
  keyfile : Option GKeyFile
deriving DecidableEq, Repr

/-- The part of `appinfo_parse_desktop` that runs once the key file is loaded: the property
setters followed by the validation. -/
def appinfo_parse_keyfile (mask : stringset_t) (self : appinfo_t) (ini : GKeyFile) :
    appinfo_t :=
  let self := appinfo_set_name self (keyfile_get_string ini DESKTOP_SECTION DESKTOP_KEY_NAME none)
  let self := appinfo_set_type self (keyfile_get_string ini DESKTOP_SECTION DESKTOP_KEY_TYPE none)
  let self := appinfo_set_icon self (keyfile_get_string ini DESKTOP_SECTION DESKTOP_KEY_ICON none)
  let self := appinfo_set_exec self (keyfile_get_string ini DESKTOP_SECTION DESKTOP_KEY_EXEC none)
  let self := appinfo_set_no_display self
    (keyfile_get_boolean ini DESKTOP_SECTION DESKTOP_KEY_NO_DISPLAY false)
  let self := appinfo_set_service self
    (keyfile_get_string ini MAEMO_SECTION MAEMO_KEY_SERVICE none)
  let self := appinfo_set_object self
    (keyfile_get_string ini MAEMO_SECTION MAEMO_KEY_OBJECT none)
  let self := appinfo_set_method self
    (keyfile_get_string ini MAEMO_SECTION MAEMO_KEY_METHOD none)
  let group :=
    if !g_key_file_has_group ini SAILJAIL_SECTION_PRIMARY then SAILJAIL_SECTION_SECONDARY
    else SAILJAIL_SECTION_PRIMARY
  let self := appinfo_set_organization_name self
    (keyfile_get_string ini group SAILJAIL_KEY_ORGANIZATION_NAME none)
  let self := appinfo_set_application_name self
    (keyfile_get_string ini group SAILJAIL_KEY_APPLICATION_NAME none)
  let set := keyfile_get_stringset ini group SAILJAIL_KEY_PERMISSIONS
  let self := appinfo_set_permissions mask self set
  if appinfo_get_name self ≠ gchar_ptr.appinfo_unknown ∧
     appinfo_get_type self ≠ gchar_ptr.appinfo_unknown ∧
     appinfo_get_exec self ≠ gchar_ptr.appinfo_unknown then
    appinfo_set_state self APPINFO_STATE_VALID
  else
    appinfo_set_state self APPINFO_STATE_INVALID

/-- The `appinfo_parse_desktop`: (returned change flag, new record). `mask` is the installed
permissions mask, `fs` what the file system shows for the manifest. -/
def appinfo_parse_desktop (mask : stringset_t) (fs : desktop_file_t) (self : appinfo_t) :
    Bool × appinfo_t :=
  let self :=
    match fs.stat with
    | .failed errno =>
      if errno = ENOENT then appinfo_set_state self APPINFO_STATE_DELETED
      else appinfo_set_state self APPINFO_STATE_INVALID
    | .ok st_ctime =>
      if self.anf_dt_ctime = st_ctime then self
      else
        let self := { self with anf_dt_ctime := st_ctime }
        if !fs.access_r_ok then appinfo_set_state self APPINFO_STATE_INVALID
        else
          match fs.keyfile with
          | none => appinfo_set_state self APPINFO_STATE_INVALID
          | some ini => appinfo_parse_keyfile mask self ini
  appinfo_clear_dirty self

/-! ## Per-application user settings (`settings.c`) -/

/-- Modelled from the spec: the enumerators of `app_allowed_t` in the absent `settings.h`;
"`Allowed` (integer 0/1/2)" for UNSET, ALWAYS, NEVER, the order of `app_allowed_name`. -/
def APP_ALLOWED_UNSET : Int := 0
def APP_ALLOWED_ALWAYS : Int := 1
def APP_ALLOWED_NEVER : Int := 2
def APP_ALLOWED_COUNT : Nat := 3

/-- Modelled from the spec: the enumerators of `app_agreed_t` in the absent `settings.h`;
"`Agreed` (integer 0/1/2)" for UNSET, YES, NO, the order of `app_agreed_name`. -/
def APP_AGREED_UNSET : Int := 0
def APP_AGREED_YES : Int := 1
def APP_AGREED_NO : Int := 2
def APP_AGREED_COUNT : Nat := 3

/-- The C cast `(unsigned)x` of a 32-bit `int`. -/
def to_unsigned (x : Int) : Nat := (x % 4294967296).toNat

/-- The `struct appsettings_t`. The uplink `ast_usersettings` is used by the code for the uid
of the owning bucket only, which is stored here as `ast_uid`. The two policy fields are C
enums, kept as the integers they hold. -/
structure appsettings_t where
  ast_uid : Nat
  ast_appname : String
  ast_allowed : Int
  ast_agreed : Int
  ast_granted : stringset_t
deriving DecidableEq

/-- A call made by a settings record to the outside of the record. -/
inductive effect_t where
  /-- The call `control_on_settings_change(control, appname)`. -/
  | control_on_settings_change (appname : String)
  /-- The call `settings_save_later(settings, uid)`. -/
  | settings_save_later (uid : Nat)
deriving DecidableEq, Repr

/-- The `appsettings_ctor` / `appsettings_create` for the bucket of `uid`. -/
def appsettings_create (uid : Nat) (appname : String) : appsettings_t :=
  { ast_uid := uid
    ast_appname := appname
    ast_allowed := APP_ALLOWED_UNSET
    ast_agreed := APP_AGREED_UNSET
    ast_granted := stringset_create }

def appsettings_uid (self : appsettings_t) : Nat := self.ast_uid
def appsettings_appname (self : appsettings_t) : String := self.ast_appname
def appsettings_get_allowed (self : appsettings_t) : Int := self.ast_allowed
def appsettings_get_agreed (self : appsettings_t) : Int := self.ast_agreed
def appsettings_get_granted (self : appsettings_t) : stringset_t := self.ast_granted

/-- The `appsettings_notify_change`; `initialized` is
`settings_initialized(appsettings_settings(self))`. -/
def appsettings_notify_change (initialized : Bool) (self : appsettings_t) : List effect_t :=
  (if initialized then [effect_t.control_on_settings_change (appsettings_appname self)] else [])
    ++ [effect_t.settings_save_later (appsettings_uid self)]

/-- The `appsettings_set_granted`; `appinfo` is what
`control_appinfo(appsettings_control(self), appsettings_appname(self))` returns and a `granted`
of `none` is the `NULL` argument. -/
def appsettings_set_granted (initialized : Bool) (appinfo : Option appinfo_t)
    (self : appsettings_t) (granted : Option stringset_t) : appsettings_t × List effect_t :=
  let granted := if appsettings_get_allowed self ≠ APP_ALLOWED_ALWAYS then none else granted
  let granted :=
    match granted with
    | none => stringset_create
    | some g => g
  let masked :=
    match appinfo with
    | none => stringset_create
    | some a =>
      if !appinfo_valid (some a) then stringset_create
      else stringset_filter_in granted (appinfo_get_permissions a)
  let r := stringset_assign self.ast_granted masked
  let self := { self with ast_granted := r.2 }
  if r.1 then (self, appsettings_notify_change initialized self) else (self, [])

/-- The `appsettings_set_allowed`. -/
def appsettings_set_allowed (initialized : Bool) (appinfo : Option appinfo_t)
    (self : appsettings_t) (allowed : Int) : appsettings_t × List effect_t :=
  let allowed := if to_unsigned allowed ≥ APP_ALLOWED_COUNT then APP_ALLOWED_UNSET else allowed
  if self.ast_allowed ≠ allowed then
    let self := { self with ast_allowed := allowed }
    let fx := appsettings_notify_change initialized self
    let granted : Option stringset_t :=
      if allowed = APP_ALLOWED_ALWAYS then
        match appinfo with
        | some a => some (appinfo_get_permissions a)
        | none => none
      else none
    let r := appsettings_set_granted initialized appinfo self granted
    (r.1, fx ++ r.2)
  else (self, [])

/-- The `appsettings_set_agreed`. -/
def appsettings_set_agreed (initialized : Bool) (self : appsettings_t) (agreed : Int) :
    appsettings_t × List effect_t :=
  let agreed := if to_unsigned agreed ≥ APP_AGREED_COUNT then APP_AGREED_UNSET else agreed
  if self.ast_agreed ≠ agreed then
    let self := { self with ast_agreed := agreed }
    (self, appsettings_notify_change initialized self)
  else (self, [])

/-- The `appsettings_decode`. -/
def appsettings_decode (initialized : Bool) (appinfo : Option appinfo_t)
    (self : appsettings_t) (file : GKeyFile) : appsettings_t × List effect_t :=
  let sec := appsettings_appname self
  let self := { self with
    ast_allowed := keyfile_get_integer file sec "Allowed" APP_ALLOWED_UNSET }
  let self := { self with
    ast_agreed := keyfile_get_integer file sec "Agreed" APP_AGREED_UNSET }
  let granted := keyfile_get_stringset file sec "Granted"
  appsettings_set_granted initialized appinfo self (some granted)

/-- The `appsettings_rethink`. -/
def appsettings_rethink (initialized : Bool) (appinfo : Option appinfo_t)
    (self : appsettings_t) : appsettings_t × List effect_t :=
  appsettings_set_granted initialized appinfo self (some self.ast_granted)

/-! ## The store (`settings_t`, `usersettings_t`) -/

/-- The `struct usersettings_t`; the hash table `ust_apps` is an association list, walked in
list order. -/
structure usersettings_t where
  ust_uid : Nat
  ust_apps : List (String × appsettings_t)
deriving DecidableEq

/-- The GLib main loop as far as the store uses it: the timeout sources that are pending, as
(source id, interval in ms), and the last id handed out. -/
structure mainloop_t where
  last_id : Nat
  sources : List (Nat × Nat)
deriving DecidableEq, Repr

/-- The `g_timeout_add` of GLib: (new positive source id, new loop). -/
def g_timeout_add (loop : mainloop_t) (interval : Nat) : Nat × mainloop_t :=
  (loop.last_id + 1,
   { last_id := loop.last_id + 1, sources := loop.sources ++ [(loop.last_id + 1, interval)] })

/-- The `struct settings_t`, with the part of its surroundings that its functions act on:
`loop` is the main loop holding the save timer and `control_changes` lists the application
names passed to `control_on_settings_change` so far, oldest first. `stt_config` and
`stt_control` are arguments of the functions that use them. -/
structure settings_t where
  stt_initialized : Bool
  stt_save_id : Nat
  stt_users : List (Nat × usersettings_t)
  stt_user_changes : List Nat
  loop : mainloop_t
  control_changes : List String
deriving DecidableEq

def settings_initialized (self : settings_t) : Bool := self.stt_initialized

/-- The `settings_save_later`; `g_hash_table_add` on the set of dirty uids keeps one entry per
uid. -/
def settings_save_later (self : settings_t) (uid : Nat) : settings_t :=
  let self := { self with
    stt_user_changes :=
      if uid ∈ self.stt_user_changes then self.stt_user_changes
      else self.stt_user_changes ++ [uid] }
  if self.stt_save_id = 0 then
    let r := g_timeout_add self.loop 1000
    { self with stt_save_id := r.1, loop := r.2 }
  else self

/-- Carries out one call recorded by a settings record on the store. -/
def settings_perform (self : settings_t) : effect_t → settings_t
  | .control_on_settings_change appname =>
    { self with control_changes := self.control_changes ++ [appname] }
  | .settings_save_later uid => settings_save_later self uid

/-- The loop of `usersettings_rethink` over the entries of `ust_apps`: (new entries, calls
made); `control_appinfo` is the lookup of the applications registry. -/
def usersettings_rethink_apps (initialized : Bool) (control_appinfo : String → Option appinfo_t) :
    List (String × appsettings_t) → List (String × appsettings_t) × List effect_t
  | [] => ([], [])
  | (key, value) :: rest =>
    let r := appsettings_rethink initialized (control_appinfo (appsettings_appname value)) value
    let rs := usersettings_rethink_apps initialized control_appinfo rest
    ((key, r.1) :: rs.1, r.2 ++ rs.2)

/-- The `usersettings_rethink`. -/
def usersettings_rethink (initialized : Bool) (control_appinfo : String → Option appinfo_t)
    (self : usersettings_t) : usersettings_t × List effect_t :=
  let r := usersettings_rethink_apps initialized control_appinfo self.ust_apps
  ({ self with ust_apps := r.1 }, r.2)

/-- The loop of `settings_rethink` over the entries of `stt_users`. -/
def settings_rethink_users (initialized : Bool) (control_appinfo : String → Option appinfo_t) :
    List (Nat × usersettings_t) → List (Nat × usersettings_t) × List effect_t
  | [] => ([], [])
  | (key, value) :: rest =>
    let r := usersettings_rethink initialized control_appinfo value
    let rs := settings_rethink_users initialized control_appinfo rest
    ((key, r.1) :: rs.1, r.2 ++ rs.2)

/-- The `settings_rethink`: every record of every bucket is rethought and the calls the
records make are carried out on the store, in the order they are made. -/
def settings_rethink (control_appinfo : String → Option appinfo_t) (self : settings_t) :
    settings_t :=
  let r := settings_rethink_users (settings_initialized self) control_appinfo self.stt_users
  List.foldl settings_perform { self with stt_users := r.1 } r.2

/-! ## Sequences of operations -/

/-- One call on a settings record, with what the collaborators answer during the call. -/
inductive settings_op_t where
  | set_allowed (initialized : Bool) (appinfo : Option appinfo_t) (allowed : Int)
  | set_agreed (initialized : Bool) (agreed : Int)
  | set_granted (initialized : Bool) (appinfo : Option appinfo_t) (granted : Option stringset_t)
  | decode (initialized : Bool) (appinfo : Option appinfo_t) (file : GKeyFile)
  | rethink (initialized : Bool) (appinfo : Option appinfo_t)

/-- Runs one call on a record; the calls it makes to the outside are dropped. -/
def settings_op_t.run (self : appsettings_t) : settings_op_t → appsettings_t
  | .set_allowed i a v => (appsettings_set_allowed i a self v).1
  | .set_agreed i v => (appsettings_set_agreed i self v).1
  | .set_granted i a g => (appsettings_set_granted i a self g).1
  | .decode i a f => (appsettings_decode i a self f).1
  | .rethink i a => (appsettings_rethink i a self).1

/-- The record reached from `appsettings_create uid appname` by the calls `ops`, in order. -/
def appsettings_reach (uid : Nat) (appname : String) (ops : List settings_op_t) :
    appsettings_t :=
  ops.foldl settings_op_t.run (appsettings_create uid appname)

/-- An application record together with one settings record of that application. -/
structure pair_t where
  appinfo : appinfo_t
  appsettings : appsettings_t
deriving DecidableEq

/-- One call on an application record or on a settings record of it. The settings calls find
the application record through `control_appinfo`, which returns the record of the pair. -/
inductive pair_op_t where
  | appinfo_set_permissions (mask : stringset_t) (perms : stringset_t)
  | appinfo_evaluate_permissions (mask : stringset_t)
  | appinfo_clear_permissions
  | appinfo_parse_desktop (mask : stringset_t) (fs : desktop_file_t)
  | set_allowed (initialized : Bool) (allowed : Int)
  | set_agreed (initialized : Bool) (agreed : Int)
  | set_granted (initialized : Bool) (granted : Option stringset_t)
  | decode (initialized : Bool) (file : GKeyFile)
  | rethink (initialized : Bool)

/-- Whether the call is one on the settings record. -/
def pair_op_t.on_settings : pair_op_t → Bool
  | .appinfo_set_permissions _ _ => false
  | .appinfo_evaluate_permissions _ => false
  | .appinfo_clear_permissions => false
  | .appinfo_parse_desktop _ _ => false
  | _ => true

/-- Whether the call runs `appsettings_set_granted` whatever the record holds. -/
def pair_op_t.remasks : pair_op_t → Bool
  | .set_granted _ _ => true
  | .decode _ _ => true
  | .rethink _ => true
  | _ => false

/-- Runs one call on the pair. -/
def pair_op_t.run (p : pair_t) : pair_op_t → pair_t
  | .appinfo_set_permissions mask perms =>
    { p with appinfo := Sailjail.appinfo_set_permissions mask p.appinfo perms }
  | .appinfo_evaluate_permissions mask =>
    { p with appinfo := (Sailjail.appinfo_evaluate_permissions mask p.appinfo).2 }
  | .appinfo_clear_permissions =>
    { p with appinfo := Sailjail.appinfo_clear_permissions p.appinfo }
  | .appinfo_parse_desktop mask fs =>
    { p with appinfo := (Sailjail.appinfo_parse_desktop mask fs p.appinfo).2 }
  | .set_allowed i v =>
    { p with appsettings := (appsettings_set_allowed i (some p.appinfo) p.appsettings v).1 }
  | .set_agreed i v =>
    { p with appsettings := (appsettings_set_agreed i p.appsettings v).1 }
  | .set_granted i g =>
    { p with appsettings := (appsettings_set_granted i (some p.appinfo) p.appsettings g).1 }
  | .decode i f =>
    { p with appsettings := (appsettings_decode i (some p.appinfo) p.appsettings f).1 }
  | .rethink i =>
    { p with appsettings := (appsettings_rethink i (some p.appinfo) p.appsettings).1 }

/-- The pair reached from a new application record `appname` and a new settings record of
`uid` for it by the calls `ops`, in order. -/
def pair_reach (uid : Nat) (appname : String) (ops : List pair_op_t) : pair_t :=
  ops.foldl pair_op_t.run
    { appinfo := appinfo_create appname, appsettings := appsettings_create uid appname }

/-- The requested, masked and granted sets of a pair satisfy `granted ⊆ masked ⊆ requested`. -/
def pair_t.I1 (p : pair_t) : Prop :=
  p.appsettings.ast_granted ⊆ p.appinfo.anf_sj_permissions_out ∧
  p.appinfo.anf_sj_permissions_out ⊆ p.appinfo.anf_sj_permissions_in

instance (p : pair_t) : Decidable p.I1 := by
  unfold pair_t.I1; infer_instance

/-! ## Scenario S1 of the specification -/

/-- The installed permissions of scenario S1. -/
def S1_mask : stringset_t := {"Phone", "Contacts", "Camera", "Base"}

/-- The manifest of scenario S1, loaded. -/
def S1_keyfile : GKeyFile :=
  { groups :=
      [("Desktop Entry",
         [("Type", .str "Application"), ("Name", .str "Phone"),
          ("Exec", .str "/usr/bin/sailjail -p voicecall-ui.desktop /usr/bin/voicecall-ui")]),
       ("X-Sailjail",
         [("Permissions", .list ["Phone", "Contacts", "Bluetooth"]),
          ("OrganizationName", .str "com.jolla"),
          ("ApplicationName", .str "voicecall")])] }

/-- The manifest of scenario S1 as the file system shows it. -/
def S1_desktop : desktop_file_t :=
  { stat := .ok 1600000000, access_r_ok := true, keyfile := some S1_keyfile }

/-- The manifest of boundary case B2, loaded: that of S1 without its `Exec` line. -/
def B2_keyfile : GKeyFile :=
  { groups :=
      [("Desktop Entry", [("Type", .str "Application"), ("Name", .str "Phone")]),
       ("X-Sailjail",
         [("Permissions", .list ["Phone", "Contacts", "Bluetooth"]),
          ("OrganizationName", .str "com.jolla"),
          ("ApplicationName", .str "voicecall")])] }

/-- The manifest of boundary case B2 as the file system shows it. -/
def B2_desktop : desktop_file_t :=
  { stat := .ok 1600000000, access_r_ok := true, keyfile := some B2_keyfile }

/-- The application record of scenario S1 after its first parse. -/
def S1_appinfo : appinfo_t :=
  (appinfo_parse_desktop S1_mask S1_desktop (appinfo_create "voicecall-ui")).2

/-- The sandbox section `appinfo_parse_desktop` reads: the primary one when the manifest has
it, else the secondary one. -/
def sailjail_group (ini : GKeyFile) : String :=
  if !g_key_file_has_group ini SAILJAIL_SECTION_PRIMARY then SAILJAIL_SECTION_SECONDARY
  else SAILJAIL_SECTION_PRIMARY

/-- The state the validation step of `appinfo_parse_desktop` gives a manifest: VALID when its
`Desktop Entry` section provides `Name`, `Type` and `Exec`, INVALID otherwise. -/
def desktop_state (ini : GKeyFile) : appinfo_state_t :=
  if (keyfile_get_string ini DESKTOP_SECTION DESKTOP_KEY_NAME none).isSome = true ∧
     (keyfile_get_string ini DESKTOP_SECTION DESKTOP_KEY_TYPE none).isSome = true ∧
     (keyfile_get_string ini DESKTOP_SECTION DESKTOP_KEY_EXEC none).isSome = true then
    APPINFO_STATE_VALID
  else APPINFO_STATE_INVALID

/-- The application record of scenario S2: that of S1 re-evaluated after `Contacts` left the
installed permissions. -/
def S2_appinfo : appinfo_t :=
  (appinfo_evaluate_permissions {"Phone", "Camera", "Base"} S1_appinfo).2

/-- The applications registry of scenario S2 as `control_appinfo` shows it. -/
def S2_control_appinfo (appname : String) : Option appinfo_t :=
  if appname = "voicecall-ui" then some S2_appinfo else none

/-- The settings store of scenario S2 before the settings mask pass: user 1000 has allowed
the application and holds the grant of S1; nothing is dirty and no timer is pending. -/
def S2_settings : settings_t :=
  { stt_initialized := true
    stt_save_id := 0
    stt_users :=
      [(1000,
        { ust_uid := 1000
          ust_apps :=
            [("voicecall-ui",
              (appsettings_set_allowed true (some S1_appinfo)
                (appsettings_create 1000 "voicecall-ui") APP_ALLOWED_ALWAYS).1)] })]
    stt_user_changes := []
    loop := { last_id := 0, sources := [] }
    control_changes := [] }

/-- The masked set of the application record `control_appinfo` returns, empty when it returns
`NULL`. -/
def masked_of (appinfo : Option appinfo_t) : stringset_t :=
  match appinfo with
  | some app => appinfo_get_permissions app
  | none => ∅

/-- The set that the body of `appsettings_set_granted` computes for `ast_granted`. -/
def set_granted_value (a : Option appinfo_t) (self : appsettings_t) (S : Option stringset_t) :
    stringset_t :=
  match a with
  | some app =>
    if self.ast_allowed = APP_ALLOWED_ALWAYS ∧ app.anf_state = APPINFO_STATE_VALID then
      S.getD ∅ ∩ app.anf_sj_permissions_out
    else ∅
  | none => ∅

/-- Invariant I2 of a settings record: a record that is not allowed ALWAYS grants nothing. -/
def appsettings_t.I2 (self : appsettings_t) : Prop :=
  self.ast_allowed ≠ APP_ALLOWED_ALWAYS → self.ast_granted = ∅

/-! ## Writing key files and the settings directory -/

/-- Modelled from the spec: the items of a string set as `keyfile_set_stringset` of the absent
`util.c` writes them ("`Granted` (semicolon-terminated list)"). The order the absent
`stringset.c` keeps is not modelled: the items are listed in the order of their characters. -/
def stringset_items (s : stringset_t) : List String :=
  Quot.liftOn s.1
    (fun l => ((l.map String.data).insertionSort (fun a b => a ≤ b)).map String.mk)
    (fun _ _ h => congrArg (List.map String.mk) (List.eq_of_perm_of_sorted
      ((List.perm_insertionSort _ _).trans ((h.map String.data).trans
        (List.perm_insertionSort _ _).symm))
      (List.sorted_insertionSort _ _) (List.sorted_insertionSort _ _)))

/-- Sets `key` to `val` in the table of one group: an existing key is overwritten in place, a
new key is added at the end. -/
def keyvals_set (kvs : List (String × keyval_t)) (key : String) (val : keyval_t) :
    List (String × keyval_t) :=
  match kvs with
  | [] => [(key, val)]
  | (k, v) :: rest =>
    if k = key then (key, val) :: rest else (k, v) :: keyvals_set rest key val

/-- Sets `key` of group `sec` to `val` in the groups of a key file; a missing group is added at
the end. -/
def groups_set (groups : List (String × List (String × keyval_t))) (sec key : String)
    (val : keyval_t) : List (String × List (String × keyval_t)) :=
  match groups with
  | [] => [(sec, [(key, val)])]
  | (g, kvs) :: rest =>
    if g = sec then (g, keyvals_set kvs key val) :: rest
    else (g, kvs) :: groups_set rest sec key val

/-- The `g_key_file_new` of GLib: a key file without groups. -/
def g_key_file_new : GKeyFile := { groups := [] }

/-- The `g_key_file_get_groups` of GLib: the names of the groups, in file order. -/
def g_key_file_get_groups (file : GKeyFile) : List String :=
  file.groups.map Prod.fst

/-- Modelled from the spec: `keyfile_set_integer` of the absent `util.c`. -/
def keyfile_set_integer (file : GKeyFile) (sec key : String) (val : Int) : GKeyFile :=
  { groups := groups_set file.groups sec key (.int val) }

/-- Modelled from the spec: `keyfile_set_stringset` of the absent `util.c`. -/
def keyfile_set_stringset (file : GKeyFile) (sec key : String) (val : stringset_t) :
    GKeyFile :=
  { groups := groups_set file.groups sec key (.list (stringset_items val)) }

/-- The settings directory. A settings file is identified by the uid in its name,
`SETTINGS_DIRECTORY "/user-%u" SETTINGS_EXTENSION`. -/
structure disk_t where
  /-- The settings files present, with their content. -/
  files : List (Nat × GKeyFile)
  /-- The files that cannot be written: `keyfile_save` fails for them. -/
  unwritable : List Nat
  /-- The files `keyfile_save` was called for so far, oldest first. -/
  writes : List Nat
deriving DecidableEq, Repr

/-- The `settings_userdata_path`: the file of `uid`. -/
def settings_userdata_path (uid : Nat) : Nat := uid

/-- Modelled from the spec: `keyfile_save` of the absent `util.c`: (whether the file was
written, the directory afterwards). -/
def keyfile_save (disk : disk_t) (file : GKeyFile) (path : Nat) : Bool × disk_t :=
  if path ∈ disk.unwritable then
    (false, { disk with writes := disk.writes ++ [path] })
  else
    (true,
     { disk with
       files := (path, file) :: disk.files.filter (fun e => decide (e.1 ≠ path))
       writes := disk.writes ++ [path] })

/-- Modelled from the spec: `keyfile_load` of the absent `util.c`: the content of the file, or
`none` when it returns false (no such file). -/
def keyfile_load (disk : disk_t) (path : Nat) : Option GKeyFile :=
  disk.files.lookup path

/-! ## Control as the settings store sees it -/

/-- What the settings store asks of Control (`control.c` is not among the sources). -/
structure control_t where
  /-- Configured `min_uid`, returned by `control_min_user`. -/
  min_user : Nat
  /-- Configured `max_uid`, returned by `control_max_user`. -/
  max_user : Nat
  /-- The uids of the resolved password enumeration. -/
  passwd : List Nat
  /-- The answer of `control_valid_application`. -/
  valid_application : String → Bool
  /-- The answer of `control_appinfo`; `none` is `NULL`. -/
  appinfo : String → Option appinfo_t

/-- Modelled from the spec: `control_valid_user` of the absent `control.c`; "Uid is valid iff it
lies within configured `[min_uid, max_uid]` *and* appears in the resolved password
enumeration". -/
def control_valid_user (control : control_t) (uid : Nat) : Bool :=
  decide (control.min_user ≤ uid ∧ uid ≤ control.max_user ∧ uid ∈ control.passwd)

def control_valid_application (control : control_t) (appname : String) : Bool :=
  control.valid_application appname

def control_appinfo (control : control_t) (appname : String) : Option appinfo_t :=
  control.appinfo appname

/-! ## The store: buckets, loading and saving -/

/-- The `appsettings_encode`. -/
def appsettings_encode (self : appsettings_t) (file : GKeyFile) : GKeyFile :=
  let sec := appsettings_appname self
  let file := keyfile_set_integer file sec "Allowed" self.ast_allowed
  let file := keyfile_set_integer file sec "Agreed" self.ast_agreed
  keyfile_set_stringset file sec "Granted" self.ast_granted

/-- The `usersettings_ctor` / `usersettings_create`. -/
def usersettings_create (uid : Nat) : usersettings_t :=
  { ust_uid := uid, ust_apps := [] }

def usersettings_uid (self : usersettings_t) : Nat := self.ust_uid

def usersettings_get_appsettings (self : usersettings_t) (appname : String) :
    Option appsettings_t :=
  self.ust_apps.lookup appname

/-- Stores `value` under `key` in a table where `key` is present: the table after a change
made through the pointer a lookup returned. -/
def table_update {κ α : Type} [DecidableEq κ] (table : List (κ × α)) (key : κ) (value : α) :
    List (κ × α) :=
  table.map (fun e => if e.1 = key then (e.1, value) else e)

/-- The `usersettings_add_appsettings`: (the record, the bucket afterwards). -/
def usersettings_add_appsettings (self : usersettings_t) (appname : String) :
    appsettings_t × usersettings_t :=
  match usersettings_get_appsettings self appname with
  | some appsettings => (appsettings, self)
  | none =>
    let appsettings := appsettings_create (usersettings_uid self) appname
    (appsettings, { self with ust_apps := self.ust_apps ++ [(appname, appsettings)] })

/-- The loop of `usersettings_load` over the group names of the loaded `file`: (the bucket
afterwards, the calls the decoded records made). -/
def usersettings_load_groups (control : control_t) (initialized : Bool) (file : GKeyFile) :
    List String → usersettings_t → usersettings_t × List effect_t
  | [], self => (self, [])
  | appname :: rest, self =>
    if control_valid_application control appname then
      let r := usersettings_add_appsettings self appname
      let d := appsettings_decode initialized
        (control_appinfo control (appsettings_appname r.1)) r.1 file
      let self := { r.2 with ust_apps := table_update r.2.ust_apps appname d.1 }
      let rs := usersettings_load_groups control initialized file rest self
      (rs.1, d.2 ++ rs.2)
    else usersettings_load_groups control initialized file rest self

/-- The `usersettings_load`; the result of `keyfile_load` is ignored by the code, a file that
does not load leaves the new key file empty. -/
def usersettings_load (control : control_t) (initialized : Bool) (self : usersettings_t)
    (disk : disk_t) (path : Nat) : usersettings_t × List effect_t :=
  let file := (keyfile_load disk path).getD g_key_file_new
  usersettings_load_groups control initialized file (g_key_file_get_groups file) self

/-- The loop of `usersettings_save` over the entries of `ust_apps`, filling `file`. -/
def usersettings_save_apps (control : control_t) :
    List (String × appsettings_t) → GKeyFile → GKeyFile
  | [], file => file
  | (key, value) :: rest, file =>
    if control_valid_application control key then
      usersettings_save_apps control rest (appsettings_encode value file)
    else usersettings_save_apps control rest file

/-- The `usersettings_save`; the result of `keyfile_save` is ignored by the code. -/
def usersettings_save (control : control_t) (self : usersettings_t) (disk : disk_t)
    (path : Nat) : disk_t :=
  let file := usersettings_save_apps control self.ust_apps g_key_file_new
  (keyfile_save disk file path).2

def settings_get_usersettings (self : settings_t) (uid : Nat) : Option usersettings_t :=
  self.stt_users.lookup uid

/-- The `settings_add_usersettings`: (the bucket, the store afterwards). -/
def settings_add_usersettings (self : settings_t) (uid : Nat) : usersettings_t × settings_t :=
  match settings_get_usersettings self uid with
  | some usersettings => (usersettings, self)
  | none =>
    let usersettings := usersettings_create uid
    (usersettings, { self with stt_users := self.stt_users ++ [(uid, usersettings)] })

def settings_get_appsettings (self : settings_t) (uid : Nat) (appname : String) :
    Option appsettings_t :=
  match settings_get_usersettings self uid with
  | some usersettings => usersettings_get_appsettings usersettings appname
  | none => none

/-- The `settings_add_appsettings`: (the record, the store afterwards). -/
def settings_add_appsettings (self : settings_t) (uid : Nat) (appname : String) :
    appsettings_t × settings_t :=
  let u := settings_add_usersettings self uid
  let r := usersettings_add_appsettings u.1 appname
  (r.1, { u.2 with stt_users := table_update u.2.stt_users uid r.2 })

/-- The `settings_appsettings`: (the record or `NULL`, the store afterwards). -/
def settings_appsettings (control : control_t) (self : settings_t) (uid : Nat)
    (app : String) : Option appsettings_t × settings_t :=
  if control_valid_user control uid && control_valid_application control app then
    let r := settings_add_appsettings self uid app
    (some r.1, r.2)
  else (none, self)

/-- The `settings_load_user`; the calls the decoded records make are carried out on the
store. -/
def settings_load_user (control : control_t) (self : settings_t) (disk : disk_t) (uid : Nat) :
    settings_t :=
  if control_valid_user control uid then
    let path := settings_userdata_path uid
    let u := settings_add_usersettings self uid
    let r := usersettings_load control (settings_initialized u.2) u.1 disk path
    List.foldl settings_perform
      { u.2 with stt_users := table_update u.2.stt_users uid r.1 } r.2
  else self

/-- The `settings_save_user`. -/
def settings_save_user (control : control_t) (self : settings_t) (disk : disk_t) (uid : Nat) :
    disk_t :=
  if control_valid_user control uid then
    let path := settings_userdata_path uid
    match settings_get_usersettings self uid with
    | some usersettings => usersettings_save control usersettings disk path
    | none => disk
  else disk

/-- The `g_source_remove` of GLib. -/
def g_source_remove (loop : mainloop_t) (id : Nat) : mainloop_t :=
  { loop with sources := loop.sources.filter (fun s => decide (s.1 ≠ id)) }

/-- The `settings_cancel_save`. -/
def settings_cancel_save (self : settings_t) : settings_t :=
  if self.stt_save_id ≠ 0 then
    { self with loop := g_source_remove self.loop self.stt_save_id, stt_save_id := 0 }
  else self

/-- The `settings_save_now`: (the store, the settings directory) afterwards. -/
def settings_save_now (control : control_t) (self : settings_t) (disk : disk_t) :
    settings_t × disk_t :=
  let self := settings_cancel_save self
  let disk := self.stt_user_changes.foldl
    (fun d uid => settings_save_user control self d uid) disk
  ({ self with stt_user_changes := [] }, disk)

/-- The `settings_save_cb`, the callback of the save timer. It returns `G_SOURCE_REMOVE`. -/
def settings_save_cb (control : control_t) (self : settings_t) (disk : disk_t) :
    settings_t × disk_t :=
  settings_save_now control { self with stt_save_id := 0 } disk

/-- The main loop dispatching timeout source `id`: when that source is pending its callback
`settings_save_cb` runs and, the callback returning `G_SOURCE_REMOVE`, the source is
destroyed; otherwise nothing happens. -/
def settings_timeout (control : control_t) (id : Nat) (self : settings_t) (disk : disk_t) :
    settings_t × disk_t :=
  if id ∈ self.loop.sources.map Prod.fst then
    let r := settings_save_cb control self disk
    ({ r.1 with loop := g_source_remove r.1.loop id }, r.2)
  else (self, disk)

/-- The `settings_dtor`: the two hash tables are released. -/
def settings_dtor (self : settings_t) : settings_t :=
  { self with stt_initialized := false, stt_users := [], stt_user_changes := [] }

/-- The `settings_delete`: (what `settings_dtor` leaves of the store and its main loop before
the memory is freed, the settings directory afterwards). -/
def settings_delete (self : settings_t) (disk : disk_t) : settings_t × disk_t :=
  (settings_dtor self, disk)

/-- A store on which nothing is dirty and no timer is pending. -/
def settings_idle (initialized : Bool) (users : List (Nat × usersettings_t)) (last_id : Nat) :
    settings_t :=
  { stt_initialized := initialized
    stt_save_id := 0
    stt_users := users
    stt_user_changes := []
    loop := { last_id := last_id, sources := [] }
    control_changes := [] }

/-- One step of the debounced save: a call of `settings_save_later` or the main loop
dispatching a timeout source. -/
inductive save_op_t where
  | save_later (uid : Nat)
  | timeout (id : Nat)
deriving DecidableEq, Repr

/-- Runs one step on (store, settings directory). -/
def save_op_t.run (control : control_t) (s : settings_t × disk_t) :
    save_op_t → settings_t × disk_t
  | .save_later uid => (settings_save_later s.1 uid, s.2)
  | .timeout id => settings_timeout control id s.1 s.2

/-- The (store, settings directory) reached from `s` by the steps `ops`, in order. -/
def save_reach (control : control_t) (s : settings_t × disk_t) (ops : List save_op_t) :
    settings_t × disk_t :=
  ops.foldl (save_op_t.run control) s

/-- A bucket as the store builds it: its keys are distinct and each record stored under a key
carries that key as its application name and the bucket's uid. -/
def usersettings_t.wf (self : usersettings_t) : Prop :=
  (self.ust_apps.map Prod.fst).Nodup ∧
  ∀ e ∈ self.ust_apps, e.2.ast_appname = e.1 ∧ e.2.ast_uid = self.ust_uid

/-! ## Further scenarios of the specification -/

/-- The settings file of scenario S4 for uid 1000. -/
def S4_settings_file : GKeyFile :=
  { groups :=
      [("voicecall-ui",
        [("Allowed", .int 1), ("Agreed", .int 1), ("Granted", .list ["Phone", "Camera"])])] }

/-- A manifest with both sandbox sections: the primary one holds only `Permissions`, the
secondary one all three keys. -/
def both_sections_keyfile : GKeyFile :=
  { groups :=
      [("Desktop Entry",
         [("Type", .str "Application"), ("Name", .str "Phone"),
          ("Exec", .str "/usr/bin/voicecall-ui")]),
       ("X-Sailjail", [("Permissions", .list ["Phone"])]),
       ("Sailjail",
         [("Permissions", .list ["Contacts"]),
          ("OrganizationName", .str "org.legacy"),
          ("ApplicationName", .str "legacy")])] }

/-- The manifest `both_sections_keyfile` as the file system shows it. -/
def both_sections_desktop : desktop_file_t :=
  { stat := .ok 1600000000, access_r_ok := true, keyfile := some both_sections_keyfile }

/-- The record of scenario S1 after its manifest vanished (scenario S5, first pass). -/
def S5_appinfo : appinfo_t :=
  (appinfo_parse_desktop S1_mask
    { stat := .failed ENOENT, access_r_ok := false, keyfile := none } S1_appinfo).2

/-- Control in scenario S2: uids 1000 to 60000 are configured, user 1000 exists, and the one
installed application is that of S1 with `Contacts` gone from the mask. -/
def S2_control : control_t :=
  { min_user := 1000
    max_user := 60000
    passwd := [0, 1, 1000]
    valid_application := fun appname => appinfo_valid (S2_control_appinfo appname)
    appinfo := S2_control_appinfo }

/-- The store of scenario S2 after the settings mask pass: uid 1000 is dirty and the save
timer is pending. -/
def S2_settings_dirty : settings_t := settings_rethink S2_control_appinfo S2_settings

/-- An empty settings directory in which every file can be written. -/
def disk_empty : disk_t := { files := [], unwritable := [], writes := [] }

/-- An empty settings directory in which the file of uid 1000 cannot be written. -/
def disk_failing : disk_t := { files := [], unwritable := [1000], writes := [] }

/-- The invariant of the debounced save: the dirty uids are distinct, and the save timer, one
timeout source of 1000 ms whose id is `stt_save_id`, is pending exactly when some uid is
dirty. -/
def settings_t.save_inv (self : settings_t) : Prop :=
  self.stt_user_changes.Nodup ∧
  (self.stt_save_id = 0 → self.stt_user_changes = [] ∧ self.loop.sources = []) ∧
  (self.stt_save_id ≠ 0 →
    self.stt_user_changes ≠ [] ∧ self.loop.sources = [(self.stt_save_id, 1000)])

/-- A settings directory holding the file of uid 1000 of scenario S4 with one more group, for
an application that is not installed. -/
def S4_disk : disk_t :=
  { files :=
      [(1000,
        { groups :=
            S4_settings_file.groups ++
              [("removed-app",
                [("Allowed", .int 1), ("Agreed", .int 1), ("Granted", .list ["Phone"])])] })]
    unwritable := []
    writes := [] }

/-- The group `appsettings_encode` writes for a record into a file that has no group of the
record's name yet. -/
def settings_group (r : appsettings_t) : String × List (String × keyval_t) :=
  (r.ast_appname,
   [("Allowed", .int r.ast_allowed), ("Agreed", .int r.ast_agreed),
    ("Granted", .list (stringset_items r.ast_granted))])

/-- Control in scenario S5: the one application has been uninstalled. -/
def S5_control : control_t :=
  { min_user := 1000
    max_user := 60000
    passwd := [0, 1, 1000]
    valid_application := fun _ => false
    appinfo := fun _ => none }

/-- The bucket of uid 1000 in the store of scenario S2 before the settings mask pass: it
holds the grant of S1. -/
def S2_bucket : usersettings_t :=
  { ust_uid := 1000
    ust_apps :=
      [("voicecall-ui",
        (appsettings_set_allowed true (some S1_appinfo)
          (appsettings_create 1000 "voicecall-ui") APP_ALLOWED_ALWAYS).1)] }

instance (self : usersettings_t) : Decidable self.wf := by
  unfold usersettings_t.wf; infer_instance

/-- The bucket of uid 1000 in the store of scenario S2 after the settings mask pass. -/
def S2_bucket_rethought : usersettings_t :=
  (usersettings_rethink true S2_control_appinfo S2_bucket).1

/-! ## The appinfo dictionary and the remaining store functions -/

/-- A value of the appinfo dictionary (`GVariant`): a string, a boolean or a string array. -/
inductive gvariant_t where
  | string (s : String)
  | boolean (b : Bool)
  | strings (items : List String)
deriving DecidableEq, Repr

/-- Modelled from the spec: `stringset_to_variant` of the absent `stringset.c`: the items of
the set as a string array (their order is not modelled, see `stringset_items`). -/
def stringset_to_variant (s : stringset_t) : gvariant_t :=
  .strings (stringset_items s)

/-- The `appinfo_to_variant`: the entries added to the `a{sv}` builder, in order; `none` is
the `NULL` record. -/
def appinfo_to_variant (self : Option appinfo_t) : List (String × gvariant_t) :=
  match self with
  | none => []
  | some a =>
    [("Id", .string (appinfo_id a)),
     (DESKTOP_KEY_NAME, .string (appinfo_get_name a).text),
     (DESKTOP_KEY_TYPE, .string (appinfo_get_type a).text),
     (DESKTOP_KEY_ICON, .string (appinfo_get_icon a).text),
     (DESKTOP_KEY_EXEC, .string (appinfo_get_exec a).text),
     (DESKTOP_KEY_NO_DISPLAY, .boolean (appinfo_get_no_display a)),
     (MAEMO_KEY_SERVICE, .string (appinfo_get_service a).text),
     (MAEMO_KEY_OBJECT, .string (appinfo_get_object a).text),
     (MAEMO_KEY_METHOD, .string (appinfo_get_method a).text),
     (SAILJAIL_KEY_ORGANIZATION_NAME, .string (appinfo_get_organization_name a).text),
     (SAILJAIL_KEY_APPLICATION_NAME, .string (appinfo_get_application_name a).text),
     (SAILJAIL_KEY_PERMISSIONS, stringset_to_variant (appinfo_get_permissions a))]

/-- One string property of an application record: its getter, its setter and the field both
work on. -/
structure string_property_t where
  get : appinfo_t → gchar_ptr
  set : appinfo_t → Option String → appinfo_t
  field : appinfo_t → Option String

/-- The nine string properties of `appinfo.c`. -/
def appinfo_string_properties : List string_property_t :=
  [⟨appinfo_get_name, appinfo_set_name, fun a => a.anf_dt_name⟩,
   ⟨appinfo_get_type, appinfo_set_type, fun a => a.anf_dt_type⟩,
   ⟨appinfo_get_icon, appinfo_set_icon, fun a => a.anf_dt_icon⟩,
   ⟨appinfo_get_exec, appinfo_set_exec, fun a => a.anf_dt_exec⟩,
   ⟨appinfo_get_service, appinfo_set_service, fun a => a.anf_mo_service⟩,
   ⟨appinfo_get_object, appinfo_set_object, fun a => a.anf_mo_object⟩,
   ⟨appinfo_get_method, appinfo_set_method, fun a => a.anf_mo_method⟩,
   ⟨appinfo_get_organization_name, appinfo_set_organization_name,
    fun a => a.anf_sj_organization_name⟩,
   ⟨appinfo_get_application_name, appinfo_set_application_name,
    fun a => a.anf_sj_application_name⟩]

def control_min_user (control : control_t) : Nat := control.min_user
def control_max_user (control : control_t) : Nat := control.max_user

/-- The loop `for( uid_t uid = min_uid; uid <= max_uid; ++uid )` of `settings_load_all` and
`settings_save_all`, `uid_t` being 32 bits wide: the values of `uid` the body runs for, in
order, from the current `uid` on; `none` when the loop has not ended after `fuel` tests of
its condition. -/
def uid_loop (max_uid : Nat) : Nat → Nat → Option (List Nat)
  | 0, _ => none
  | fuel + 1, uid =>
    if uid ≤ max_uid then
      (uid_loop max_uid fuel ((uid + 1) % 4294967296)).map (fun rest => uid :: rest)
    else some []

/-- The loop of `settings_load_all` from the current `uid` on: the store when the loop ends,
`none` when it has not ended after `fuel` tests of its condition. -/
def settings_load_all_loop (control : control_t) (disk : disk_t) (max_uid : Nat) :
    Nat → Nat → settings_t → Option settings_t
  | 0, _, _ => none
  | fuel + 1, uid, self =>
    if uid ≤ max_uid then
      settings_load_all_loop control disk max_uid fuel ((uid + 1) % 4294967296)
        (settings_load_user control self disk uid)
    else some self

/-- The `settings_load_all`. -/
def settings_load_all (fuel : Nat) (control : control_t) (self : settings_t) (disk : disk_t) :
    Option settings_t :=
  settings_load_all_loop control disk (control_max_user control) fuel
    (control_min_user control) self

/-- The loop of `settings_save_all` from the current `uid` on: the settings directory when the
loop ends, `none` when it has not ended after `fuel` tests of its condition. -/
def settings_save_all_loop (control : control_t) (self : settings_t) (max_uid : Nat) :
    Nat → Nat → disk_t → Option disk_t
  | 0, _, _ => none
  | fuel + 1, uid, disk =>
    if uid ≤ max_uid then
      settings_save_all_loop control self max_uid fuel ((uid + 1) % 4294967296)
        (settings_save_user control self disk uid)
    else some disk

/-- The `settings_save_all`. -/
def settings_save_all (fuel : Nat) (control : control_t) (self : settings_t) (disk : disk_t) :
    Option disk_t :=
  settings_save_all_loop control self (control_max_user control) fuel
    (control_min_user control) disk

/-- The store `settings_ctor` has set up when it calls `settings_load_all`; `last_id` is the
last source id the main loop has handed out. -/
def settings_ctor_begin (last_id : Nat) : settings_t :=
  { stt_initialized := false
    stt_save_id := 0
    stt_users := []
    stt_user_changes := []
    loop := { last_id := last_id, sources := [] }
    control_changes := [] }

/-- The `settings_ctor` / `settings_create`: the store it returns, `none` when its
`settings_load_all` has not ended after `fuel` tests of the loop condition. -/
def settings_ctor (fuel : Nat) (control : control_t) (disk : disk_t) (last_id : Nat) :
    Option settings_t :=
  (settings_load_all fuel control (settings_ctor_begin last_id) disk).map
    (fun self => { self with stt_initialized := true })

/-- The range of a C `int`. -/
def is_int (v : Int) : Prop := -2147483648 ≤ v ∧ v ≤ 2147483647

instance (v : Int) : Decidable (is_int v) := by
  unfold is_int; infer_instance

/-- The manifest of scenario S1 with an `Icon` line added, loaded. -/
def S1_keyfile_icon : GKeyFile :=
  { groups :=
      [("Desktop Entry",
         [("Type", .str "Application"), ("Name", .str "Phone"),
          ("Icon", .str "icon-launcher-phone"),
          ("Exec", .str "/usr/bin/sailjail -p voicecall-ui.desktop /usr/bin/voicecall-ui")]),
       ("X-Sailjail",
         [("Permissions", .list ["Phone", "Contacts", "Bluetooth"]),
          ("OrganizationName", .str "com.jolla"),
          ("ApplicationName", .str "voicecall")])] }

/-- The manifest `S1_keyfile_icon` as the file system shows it after the edit. -/
def S1_desktop_icon : desktop_file_t :=
  { stat := .ok 1600000500, access_r_ok := true, keyfile := some S1_keyfile_icon }

/-- A manifest whose `Name`, `Type` and `Exec` values are the text `unknown`, loaded. -/
def unknown_text_keyfile : GKeyFile :=
  { groups :=
      [("Desktop Entry",
         [("Type", .str "unknown"), ("Name", .str "unknown"), ("Exec", .str "unknown")])] }

/-- The manifest `unknown_text_keyfile` as the file system shows it. -/
def unknown_text_desktop : desktop_file_t :=
  { stat := .ok 1600000000, access_r_ok := true, keyfile := some unknown_text_keyfile }

/-- A settings file for uid 1000 whose `Allowed` and `Agreed` are outside 0, 1, 2. -/
def out_of_range_settings_file : GKeyFile :=
  { groups :=
      [("voicecall-ui",
        [("Allowed", .int 7), ("Agreed", .int (-1)), ("Granted", .list ["Phone"])])] }

/-- Control of scenario S2 with `max_uid` set to the largest `uid_t`. -/
def max_uid_control : control_t :=
  { S2_control with min_user := 4294967290, max_user := 4294967295 }

/-- Control of scenario S2 with the uid range 999 to 1001. -/
def small_range_control : control_t :=
  { S2_control with min_user := 999, max_user := 1001 }

/-! ## Shared lemmas -/

theorem appinfo_valid_some (a : appinfo_t) :
    appinfo_valid (some a) = decide (a.anf_state = APPINFO_STATE_VALID) := rfl

theorem ite_pair_fst {α β : Type} (c : Prop) [Decidable c] (x : α) (f g : β) :
    (if c then (x, f) else (x, g)).1 = x := by
  split <;> rfl

theorem set_granted_fst (i : Bool) (a : Option appinfo_t) (self : appsettings_t)
    (S : Option stringset_t) :
    (appsettings_set_granted i a self S).1 =
      { self with ast_granted := set_granted_value a self S } := by
  unfold appsettings_set_granted
  simp only [stringset_assign, ite_pair_fst]
  congr 1
  unfold set_granted_value
  simp only [stringset_create, stringset_filter_in, appsettings_get_allowed,
    appinfo_get_permissions, appinfo_valid_some]
  cases a with
  | none => rfl
  | some app =>
    by_cases hv : app.anf_state = APPINFO_STATE_VALID <;>
    by_cases ha : self.ast_allowed = APP_ALLOWED_ALWAYS <;>
    cases S <;> simp [hv, ha]

theorem set_granted_snd (i : Bool) (a : Option appinfo_t) (self : appsettings_t)
    (S : Option stringset_t) :
    (appsettings_set_granted i a self S).2 =
      if set_granted_value a self S = self.ast_granted then []
      else appsettings_notify_change i
        { self with ast_granted := set_granted_value a self S } := by
  have h1 := set_granted_fst i a self S
  unfold appsettings_set_granted at h1 ⊢
  simp only [stringset_assign, ite_pair_fst] at h1 ⊢
  rw [h1]
  have h2 := congrArg appsettings_t.ast_granted h1
  simp only at h2
  rw [h2]
  by_cases h : set_granted_value a self S = self.ast_granted
  · simp [h]
  · have h3 : ¬ self.ast_granted = set_granted_value a self S := fun e => h e.symm
    simp [h, h3]

theorem set_granted_value_of_not_always (a : Option appinfo_t) (self : appsettings_t)
    (S : Option stringset_t) (h : self.ast_allowed ≠ APP_ALLOWED_ALWAYS) :
    set_granted_value a self S = ∅ := by
  unfold set_granted_value
  cases a with
  | none => rfl
  | some app => simp [h]

theorem set_granted_I2 (i : Bool) (a : Option appinfo_t) (self : appsettings_t)
    (S : Option stringset_t) : (appsettings_set_granted i a self S).1.I2 := by
  intro h
  rw [set_granted_fst] at h ⊢
  exact set_granted_value_of_not_always a self S h

theorem set_allowed_fst (i : Bool) (a : Option appinfo_t) (self : appsettings_t) (v : Int) :
    (appsettings_set_allowed i a self v).1 =
      if self.ast_allowed ≠ (if to_unsigned v ≥ APP_ALLOWED_COUNT then APP_ALLOWED_UNSET else v)
      then
        (appsettings_set_granted i a
          { self with ast_allowed :=
              if to_unsigned v ≥ APP_ALLOWED_COUNT then APP_ALLOWED_UNSET else v }
          (if (if to_unsigned v ≥ APP_ALLOWED_COUNT then APP_ALLOWED_UNSET else v)
                = APP_ALLOWED_ALWAYS then
             match a with
             | some app => some (appinfo_get_permissions app)
             | none => none
           else none)).1
      else self := by
  unfold appsettings_set_allowed
  simp only
  generalize (if to_unsigned v ≥ APP_ALLOWED_COUNT then APP_ALLOWED_UNSET else v) = w
  split <;> rfl

theorem set_agreed_fst (i : Bool) (self : appsettings_t) (v : Int) :
    (appsettings_set_agreed i self v).1 =
      { self with ast_agreed :=
          if to_unsigned v ≥ APP_AGREED_COUNT then APP_AGREED_UNSET else v } := by
  unfold appsettings_set_agreed
  simp only
  generalize (if to_unsigned v ≥ APP_AGREED_COUNT then APP_AGREED_UNSET else v) = w
  split
  · rfl
  · rename_i h
    simp only [ne_eq, not_not] at h
    simp [← h]

theorem settings_op_I2 (self : appsettings_t) (op : settings_op_t) (h : self.I2) :
    (op.run self).I2 := by
  cases op with
  | set_allowed i a v =>
    simp only [settings_op_t.run, set_allowed_fst]
    generalize (if to_unsigned v ≥ APP_ALLOWED_COUNT then APP_ALLOWED_UNSET else v) = w
    split
    · exact set_granted_I2 _ _ _ _
    · exact h
  | set_agreed i v =>
    simp only [settings_op_t.run, set_agreed_fst]
    exact h
  | set_granted i a g => exact set_granted_I2 _ _ _ _
  | decode i a f => exact set_granted_I2 _ _ _ _
  | rethink i a => exact set_granted_I2 _ _ _ _

theorem foldl_I2 (ops : List settings_op_t) (self : appsettings_t) (h : self.I2) :
    (ops.foldl settings_op_t.run self).I2 := by
  induction ops generalizing self with
  | nil => exact h
  | cons op rest ih => exact ih _ (settings_op_I2 self op h)

theorem reach_I2 (uid : Nat) (appname : String) (ops : List settings_op_t) :
    (appsettings_reach uid appname ops).I2 :=
  foldl_I2 ops _ (fun _ => rfl)

theorem appinfo_set_state_eq (self : appinfo_t) (st : appinfo_state_t) :
    appinfo_set_state self st =
      { self with
        anf_state := st
        anf_dirty := self.anf_dirty || decide (self.anf_state ≠ st) } := by
  unfold appinfo_set_state appinfo_set_dirty
  by_cases h : self.anf_state = st
  · cases self; simp_all
  · simp [h]

theorem appinfo_set_name_eq (self : appinfo_t) (v : Option String) :
    appinfo_set_name self v =
      { self with
        anf_dt_name := v
        anf_dirty := self.anf_dirty || decide (self.anf_dt_name ≠ v) } := by
  unfold appinfo_set_name appinfo_set_dirty change_string
  by_cases h : self.anf_dt_name = v
  · cases self; simp_all
  · simp [h]

theorem appinfo_set_type_eq (self : appinfo_t) (v : Option String) :
    appinfo_set_type self v =
      { self with
        anf_dt_type := v
        anf_dirty := self.anf_dirty || decide (self.anf_dt_type ≠ v) } := by
  unfold appinfo_set_type appinfo_set_dirty change_string
  by_cases h : self.anf_dt_type = v
  · cases self; simp_all
  · simp [h]

theorem appinfo_set_icon_eq (self : appinfo_t) (v : Option String) :
    appinfo_set_icon self v =
      { self with
        anf_dt_icon := v
        anf_dirty := self.anf_dirty || decide (self.anf_dt_icon ≠ v) } := by
  unfold appinfo_set_icon appinfo_set_dirty change_string
  by_cases h : self.anf_dt_icon = v
  · cases self; simp_all
  · simp [h]

theorem appinfo_set_exec_eq (self : appinfo_t) (v : Option String) :
    appinfo_set_exec self v =
      { self with
        anf_dt_exec := v
        anf_dirty := self.anf_dirty || decide (self.anf_dt_exec ≠ v) } := by
  unfold appinfo_set_exec appinfo_set_dirty change_string
  by_cases h : self.anf_dt_exec = v
  · cases self; simp_all
  · simp [h]

theorem appinfo_set_no_display_eq (self : appinfo_t) (v : Bool) :
    appinfo_set_no_display self v =
      { self with
        anf_dt_no_display := v
        anf_dirty := self.anf_dirty || decide (self.anf_dt_no_display ≠ v) } := by
  unfold appinfo_set_no_display appinfo_set_dirty change_boolean
  by_cases h : self.anf_dt_no_display = v
  · cases self; simp_all
  · simp [h]

theorem appinfo_set_service_eq (self : appinfo_t) (v : Option String) :
    appinfo_set_service self v =
      { self with
        anf_mo_service := v
        anf_dirty := self.anf_dirty || decide (self.anf_mo_service ≠ v) } := by
  unfold appinfo_set_service appinfo_set_dirty change_string
  by_cases h : self.anf_mo_service = v
  · cases self; simp_all
  · simp [h]

theorem appinfo_set_object_eq (self : appinfo_t) (v : Option String) :
    appinfo_set_object self v =
      { self with
        anf_mo_object := v
        anf_dirty := self.anf_dirty || decide (self.anf_mo_object ≠ v) } := by
  unfold appinfo_set_object appinfo_set_dirty change_string
  by_cases h : self.anf_mo_object = v
  · cases self; simp_all
  · simp [h]

theorem appinfo_set_method_eq (self : appinfo_t) (v : Option String) :
    appinfo_set_method self v =
      { self with
        anf_mo_method := v
        anf_dirty := self.anf_dirty || decide (self.anf_mo_method ≠ v) } := by
  unfold appinfo_set_method appinfo_set_dirty change_string
  by_cases h : self.anf_mo_method = v
  · cases self; simp_all
  · simp [h]

theorem appinfo_set_organization_name_eq (self : appinfo_t) (v : Option String) :
    appinfo_set_organization_name self v =
      { self with
        anf_sj_organization_name := v
        anf_dirty := self.anf_dirty || decide (self.anf_sj_organization_name ≠ v) } := by
  unfold appinfo_set_organization_name appinfo_set_dirty change_string
  by_cases h : self.anf_sj_organization_name = v
  · cases self; simp_all
  · simp [h]

theorem appinfo_set_application_name_eq (self : appinfo_t) (v : Option String) :
    appinfo_set_application_name self v =
      { self with
        anf_sj_application_name := v
        anf_dirty := self.anf_dirty || decide (self.anf_sj_application_name ≠ v) } := by
  unfold appinfo_set_application_name appinfo_set_dirty change_string
  by_cases h : self.anf_sj_application_name = v
  · cases self; simp_all
  · simp [h]

theorem appinfo_evaluate_permissions_eq (mask : stringset_t) (self : appinfo_t) :
    appinfo_evaluate_permissions mask self =
      (decide (self.anf_sj_permissions_out ≠ self.anf_sj_permissions_in ∩ mask),
       { self with anf_sj_permissions_out := self.anf_sj_permissions_in ∩ mask }) := by
  unfold appinfo_evaluate_permissions stringset_assign stringset_filter_in
  by_cases h : self.anf_sj_permissions_out = self.anf_sj_permissions_in ∩ mask
  · simp [h]
  · simp [h]

theorem appinfo_set_permissions_eq (mask : stringset_t) (self : appinfo_t)
    (perms : stringset_t) :
    appinfo_set_permissions mask self perms =
      { self with
        anf_sj_permissions_in := perms
        anf_sj_permissions_out := perms ∩ mask
        anf_dirty := self.anf_dirty || decide (self.anf_sj_permissions_out ≠ perms ∩ mask) } := by
  unfold appinfo_set_permissions
  simp only [appinfo_evaluate_permissions_eq, stringset_assign, appinfo_set_dirty]
  by_cases h : self.anf_sj_permissions_out = perms ∩ mask
  · simp [h]
  · simp [h]

theorem appinfo_clear_permissions_eq (self : appinfo_t) :
    appinfo_clear_permissions self =
      { self with
        anf_sj_permissions_out := ∅
        anf_dirty := self.anf_dirty || decide (self.anf_sj_permissions_out ≠ ∅) } := by
  unfold appinfo_clear_permissions stringset_clear stringset_assign stringset_create
    appinfo_get_permissions appinfo_set_dirty
  by_cases h : self.anf_sj_permissions_out = ∅
  · cases self; simp_all
  · simp [h]

theorem or_unknown_ne (f : Option String) :
    or_unknown f ≠ gchar_ptr.appinfo_unknown ↔ f.isSome = true := by
  cases f <;> simp [or_unknown]

theorem appinfo_parse_keyfile_eq (mask : stringset_t) (self : appinfo_t) (ini : GKeyFile) :
    appinfo_parse_keyfile mask self ini =
      { anf_appname := self.anf_appname
        anf_state := desktop_state ini
        anf_dt_ctime := self.anf_dt_ctime
        anf_dirty :=
          self.anf_dirty ||
          decide (self.anf_dt_name ≠ keyfile_get_string ini DESKTOP_SECTION DESKTOP_KEY_NAME none) ||
          decide (self.anf_dt_type ≠ keyfile_get_string ini DESKTOP_SECTION DESKTOP_KEY_TYPE none) ||
          decide (self.anf_dt_icon ≠ keyfile_get_string ini DESKTOP_SECTION DESKTOP_KEY_ICON none) ||
          decide (self.anf_dt_exec ≠ keyfile_get_string ini DESKTOP_SECTION DESKTOP_KEY_EXEC none) ||
          decide (self.anf_dt_no_display ≠
            keyfile_get_boolean ini DESKTOP_SECTION DESKTOP_KEY_NO_DISPLAY false) ||
          decide (self.anf_mo_service ≠
            keyfile_get_string ini MAEMO_SECTION MAEMO_KEY_SERVICE none) ||
          decide (self.anf_mo_object ≠
            keyfile_get_string ini MAEMO_SECTION MAEMO_KEY_OBJECT none) ||
          decide (self.anf_mo_method ≠
            keyfile_get_string ini MAEMO_SECTION MAEMO_KEY_METHOD none) ||
          decide (self.anf_sj_organization_name ≠
            keyfile_get_string ini (sailjail_group ini) SAILJAIL_KEY_ORGANIZATION_NAME none) ||
          decide (self.anf_sj_application_name ≠
            keyfile_get_string ini (sailjail_group ini) SAILJAIL_KEY_APPLICATION_NAME none) ||
          decide (self.anf_sj_permissions_out ≠
            keyfile_get_stringset ini (sailjail_group ini) SAILJAIL_KEY_PERMISSIONS ∩ mask) ||
          decide (self.anf_state ≠ desktop_state ini)
        anf_dt_name := keyfile_get_string ini DESKTOP_SECTION DESKTOP_KEY_NAME none
        anf_dt_type := keyfile_get_string ini DESKTOP_SECTION DESKTOP_KEY_TYPE none
        anf_dt_icon := keyfile_get_string ini DESKTOP_SECTION DESKTOP_KEY_ICON none
        anf_dt_exec := keyfile_get_string ini DESKTOP_SECTION DESKTOP_KEY_EXEC none
        anf_dt_no_display := keyfile_get_boolean ini DESKTOP_SECTION DESKTOP_KEY_NO_DISPLAY false
        anf_mo_service := keyfile_get_string ini MAEMO_SECTION MAEMO_KEY_SERVICE none
        anf_mo_object := keyfile_get_string ini MAEMO_SECTION MAEMO_KEY_OBJECT none
        anf_mo_method := keyfile_get_string ini MAEMO_SECTION MAEMO_KEY_METHOD none
        anf_sj_organization_name :=
          keyfile_get_string ini (sailjail_group ini) SAILJAIL_KEY_ORGANIZATION_NAME none
        anf_sj_application_name :=
          keyfile_get_string ini (sailjail_group ini) SAILJAIL_KEY_APPLICATION_NAME none
        anf_sj_permissions_in :=
          keyfile_get_stringset ini (sailjail_group ini) SAILJAIL_KEY_PERMISSIONS
        anf_sj_permissions_out :=
          keyfile_get_stringset ini (sailjail_group ini) SAILJAIL_KEY_PERMISSIONS ∩ mask } := by
  unfold appinfo_parse_keyfile
  simp only [appinfo_set_name_eq, appinfo_set_type_eq, appinfo_set_icon_eq, appinfo_set_exec_eq,
    appinfo_set_no_display_eq, appinfo_set_service_eq, appinfo_set_object_eq,
    appinfo_set_method_eq, appinfo_set_organization_name_eq, appinfo_set_application_name_eq,
    appinfo_set_permissions_eq, appinfo_set_state_eq, appinfo_get_name, appinfo_get_type,
    appinfo_get_exec, or_unknown_ne, ← sailjail_group.eq_1]
  unfold desktop_state
  split <;> rfl

theorem appinfo_parse_desktop_loaded (mask : stringset_t) (fs : desktop_file_t)
    (self : appinfo_t) (c : Int) (ini : GKeyFile) (hstat : fs.stat = stat_result_t.ok c)
    (hctime : self.anf_dt_ctime ≠ c) (haccess : fs.access_r_ok = true)
    (hload : fs.keyfile = some ini) :
    appinfo_parse_desktop mask fs self =
      appinfo_clear_dirty (appinfo_parse_keyfile mask { self with anf_dt_ctime := c } ini) := by
  unfold appinfo_parse_desktop
  simp [hstat, hctime, haccess, hload]

theorem set_granted_value_subset (a : Option appinfo_t) (self : appsettings_t)
    (S : Option stringset_t) : set_granted_value a self S ⊆ masked_of a := by
  cases a with
  | none => simp [set_granted_value, masked_of]
  | some app =>
    simp only [set_granted_value, masked_of, appinfo_get_permissions]
    split
    · exact Finset.inter_subset_right
    · exact Finset.empty_subset _

theorem foldl_settings_perform_users (fx : List effect_t) (self : settings_t) :
    (List.foldl settings_perform self fx).stt_users = self.stt_users := by
  induction fx generalizing self with
  | nil => rfl
  | cons e rest ih =>
    rw [List.foldl_cons, ih]
    cases e with
    | control_on_settings_change appname => rfl
    | settings_save_later uid =>
      simp only [settings_perform, settings_save_later]
      split <;> rfl

theorem usersettings_rethink_apps_subset (i : Bool) (ca : String → Option appinfo_t)
    (apps : List (String × appsettings_t)) (key : String) (r : appsettings_t)
    (h : (key, r) ∈ (usersettings_rethink_apps i ca apps).1) :
    r.ast_granted ⊆ masked_of (ca r.ast_appname) := by
  induction apps with
  | nil => simp [usersettings_rethink_apps] at h
  | cons e rest ih =>
    obtain ⟨k, v⟩ := e
    simp only [usersettings_rethink_apps, List.mem_cons, Prod.mk.injEq] at h
    rcases h with ⟨_, hr⟩ | h
    · rw [hr, appsettings_rethink, set_granted_fst]
      exact set_granted_value_subset _ _ _
    · exact ih h

theorem settings_rethink_users_subset (i : Bool) (ca : String → Option appinfo_t)
    (users : List (Nat × usersettings_t)) (uid : Nat) (us : usersettings_t)
    (key : String) (r : appsettings_t)
    (hu : (uid, us) ∈ (settings_rethink_users i ca users).1) (hr : (key, r) ∈ us.ust_apps) :
    r.ast_granted ⊆ masked_of (ca r.ast_appname) := by
  induction users with
  | nil => simp [settings_rethink_users] at hu
  | cons e rest ih =>
    obtain ⟨k, v⟩ := e
    simp only [settings_rethink_users, List.mem_cons, Prod.mk.injEq] at hu
    rcases hu with ⟨_, hus⟩ | hu
    · rw [hus] at hr
      exact usersettings_rethink_apps_subset i ca v.ust_apps key r hr
    · exact ih hu

theorem appinfo_parse_desktop_perms (mask : stringset_t) (fs : desktop_file_t)
    (self : appinfo_t) :
    ((appinfo_parse_desktop mask fs self).2.anf_sj_permissions_in = self.anf_sj_permissions_in ∧
      (appinfo_parse_desktop mask fs self).2.anf_sj_permissions_out =
        self.anf_sj_permissions_out) ∨
    (appinfo_parse_desktop mask fs self).2.anf_sj_permissions_out =
      (appinfo_parse_desktop mask fs self).2.anf_sj_permissions_in ∩ mask := by
  unfold appinfo_parse_desktop
  cases hs : fs.stat with
  | failed errno =>
    left
    by_cases he : errno = ENOENT <;> simp [he, appinfo_set_state_eq, appinfo_clear_dirty]
  | ok c =>
    by_cases hc : self.anf_dt_ctime = c
    · left; simp [hc, appinfo_clear_dirty]
    · cases hacc : fs.access_r_ok
      · left; simp [hc, appinfo_set_state_eq, appinfo_clear_dirty]
      · cases hk : fs.keyfile with
        | none => left; simp [hc, appinfo_set_state_eq, appinfo_clear_dirty]
        | some ini =>
          right
          simp [hc, appinfo_parse_keyfile_eq, appinfo_clear_dirty]

theorem pair_op_masked_subset (p : pair_t) (op : pair_op_t)
    (h : p.appinfo.anf_sj_permissions_out ⊆ p.appinfo.anf_sj_permissions_in) :
    (op.run p).appinfo.anf_sj_permissions_out ⊆ (op.run p).appinfo.anf_sj_permissions_in := by
  cases op with
  | appinfo_set_permissions mask perms =>
    simp only [pair_op_t.run, appinfo_set_permissions_eq]
    exact Finset.inter_subset_left
  | appinfo_evaluate_permissions mask =>
    simp only [pair_op_t.run, appinfo_evaluate_permissions_eq]
    exact Finset.inter_subset_left
  | appinfo_clear_permissions =>
    simp only [pair_op_t.run, appinfo_clear_permissions_eq]
    exact Finset.empty_subset _
  | appinfo_parse_desktop mask fs =>
    simp only [pair_op_t.run]
    rcases appinfo_parse_desktop_perms mask fs p.appinfo with ⟨h1, h2⟩ | h1
    · rw [h1, h2]; exact h
    · rw [h1]; exact Finset.inter_subset_left
  | set_allowed i v => exact h
  | set_agreed i v => exact h
  | set_granted i g => exact h
  | decode i f => exact h
  | rethink i => exact h

theorem pair_foldl_masked_subset (ops : List pair_op_t) (p : pair_t)
    (h : p.appinfo.anf_sj_permissions_out ⊆ p.appinfo.anf_sj_permissions_in) :
    (ops.foldl pair_op_t.run p).appinfo.anf_sj_permissions_out ⊆
      (ops.foldl pair_op_t.run p).appinfo.anf_sj_permissions_in := by
  induction ops generalizing p with
  | nil => exact h
  | cons op rest ih => exact ih _ (pair_op_masked_subset p op h)

theorem pair_op_remask (p : pair_t) (op : pair_op_t) (h : op.remasks = true) :
    (op.run p).appsettings.ast_granted ⊆ (op.run p).appinfo.anf_sj_permissions_out := by
  cases op with
  | set_granted i g =>
    simp only [pair_op_t.run, set_granted_fst]
    exact set_granted_value_subset (some p.appinfo) _ _
  | decode i f =>
    simp only [pair_op_t.run, appsettings_decode, set_granted_fst]
    exact set_granted_value_subset (some p.appinfo) _ _
  | rethink i =>
    simp only [pair_op_t.run, appsettings_rethink, set_granted_fst]
    exact set_granted_value_subset (some p.appinfo) _ _
  | _ => simp [pair_op_t.remasks] at h

theorem pair_op_settings_granted_subset (p : pair_t) (op : pair_op_t)
    (hop : op.on_settings = true)
    (h : p.appsettings.ast_granted ⊆ p.appinfo.anf_sj_permissions_out) :
    (op.run p).appsettings.ast_granted ⊆ (op.run p).appinfo.anf_sj_permissions_out := by
  cases op with
  | set_allowed i v =>
    simp only [pair_op_t.run, set_allowed_fst]
    generalize (if to_unsigned v ≥ APP_ALLOWED_COUNT then APP_ALLOWED_UNSET else v) = w
    split
    · rw [set_granted_fst]
      exact set_granted_value_subset (some p.appinfo) _ _
    · exact h
  | set_agreed i v =>
    simp only [pair_op_t.run, set_agreed_fst]
    exact h
  | set_granted i g => exact pair_op_remask p _ rfl
  | decode i f => exact pair_op_remask p _ rfl
  | rethink i => exact pair_op_remask p _ rfl
  | _ => simp [pair_op_t.on_settings] at hop

theorem pair_foldl_settings_granted_subset (ops : List pair_op_t) (p : pair_t)
    (hops : ∀ o ∈ ops, pair_op_t.on_settings o = true)
    (h : p.appsettings.ast_granted ⊆ p.appinfo.anf_sj_permissions_out) :
    (ops.foldl pair_op_t.run p).appsettings.ast_granted ⊆
      (ops.foldl pair_op_t.run p).appinfo.anf_sj_permissions_out := by
  induction ops generalizing p with
  | nil => exact h
  | cons op rest ih =>
    exact ih _ (fun o ho => hops o (List.mem_cons_of_mem _ ho))
      (pair_op_settings_granted_subset p op (hops op (List.mem_cons_self _ _)) h)

theorem stringset_items_toFinset (s : stringset_t) : (stringset_items s).toFinset = s := by
  obtain ⟨m, hm⟩ := s
  induction m using Quotient.inductionOn with
  | _ l =>
    ext x
    show x ∈ (List.map String.mk (List.insertionSort (fun a b => a ≤ b)
      (List.map String.data l))).toFinset ↔ x ∈ l
    simp only [List.mem_toFinset, List.mem_map]
    constructor
    · rintro ⟨cs, hcs, rfl⟩
      rw [(List.perm_insertionSort _ _).mem_iff, List.mem_map] at hcs
      obtain ⟨y, hy, rfl⟩ := hcs
      exact hy
    · intro hx
      refine ⟨x.data, ?_, rfl⟩
      rw [(List.perm_insertionSort _ _).mem_iff, List.mem_map]
      exact ⟨x, hx, rfl⟩

theorem keyvals_set_lookup_same (kvs : List (String × keyval_t)) (key : String)
    (val : keyval_t) : (keyvals_set kvs key val).lookup key = some val := by
  induction kvs with
  | nil => simp [keyvals_set, List.lookup]
  | cons e rest ih =>
    obtain ⟨k, v⟩ := e
    by_cases h : k = key
    · simp [keyvals_set, h, List.lookup]
    · have h2 : (key == k) = false := by simp [Ne.symm h]
      simp [keyvals_set, h, List.lookup, h2, ih]

theorem keyvals_set_lookup_other (kvs : List (String × keyval_t)) (key key2 : String)
    (val : keyval_t) (hne : key2 ≠ key) :
    (keyvals_set kvs key val).lookup key2 = kvs.lookup key2 := by
  induction kvs with
  | nil =>
    have h2 : (key2 == key) = false := by simp [hne]
    simp [keyvals_set, List.lookup, h2]
  | cons e rest ih =>
    obtain ⟨k, v⟩ := e
    by_cases h : k = key
    · subst h
      have h2 : (key2 == k) = false := by simp [hne]
      simp [keyvals_set, List.lookup, h2]
    · by_cases h3 : key2 = k
      · subst h3
        simp [keyvals_set, h, List.lookup]
      · have h4 : (key2 == k) = false := by simp [h3]
        simp [keyvals_set, h, List.lookup, h4, ih]

theorem groups_set_lookup_same (groups : List (String × List (String × keyval_t)))
    (sec key : String) (val : keyval_t) :
    (groups_set groups sec key val).lookup sec =
      some (keyvals_set ((groups.lookup sec).getD []) key val) := by
  induction groups with
  | nil => simp [groups_set, List.lookup, keyvals_set]
  | cons e rest ih =>
    obtain ⟨g, kvs⟩ := e
    by_cases h : g = sec
    · simp [groups_set, h, List.lookup]
    · have h2 : (sec == g) = false := by simp [Ne.symm h]
      simp [groups_set, h, List.lookup, h2, ih]

theorem groups_set_lookup_other (groups : List (String × List (String × keyval_t)))
    (sec sec2 key : String) (val : keyval_t) (hne : sec2 ≠ sec) :
    (groups_set groups sec key val).lookup sec2 = groups.lookup sec2 := by
  induction groups with
  | nil =>
    have h2 : (sec2 == sec) = false := by simp [hne]
    simp [groups_set, List.lookup, h2]
  | cons e rest ih =>
    obtain ⟨g, kvs⟩ := e
    by_cases h : g = sec
    · subst h
      have h2 : (sec2 == g) = false := by simp [hne]
      simp [groups_set, List.lookup, h2]
    · by_cases h3 : sec2 = g
      · subst h3
        simp [groups_set, h, List.lookup]
      · have h4 : (sec2 == g) = false := by simp [h3]
        simp [groups_set, h, List.lookup, h4, ih]

theorem value_groups_set_same (groups : List (String × List (String × keyval_t)))
    (sec key : String) (val : keyval_t) :
    GKeyFile.value { groups := groups_set groups sec key val } sec key = some val := by
  simp [GKeyFile.value, groups_set_lookup_same, keyvals_set_lookup_same]

theorem value_groups_set_other_key (groups : List (String × List (String × keyval_t)))
    (sec key key2 : String) (val : keyval_t) (hne : key2 ≠ key) :
    GKeyFile.value { groups := groups_set groups sec key val } sec key2 =
      GKeyFile.value { groups := groups } sec key2 := by
  simp only [GKeyFile.value, groups_set_lookup_same]
  cases groups.lookup sec with
  | none =>
    have h2 : (key2 == key) = false := by simp [hne]
    simp [keyvals_set, List.lookup, h2]
  | some kvs => simp [keyvals_set_lookup_other _ _ _ _ hne]

theorem value_groups_set_other_sec (groups : List (String × List (String × keyval_t)))
    (sec sec2 key key2 : String) (val : keyval_t) (hne : sec2 ≠ sec) :
    GKeyFile.value { groups := groups_set groups sec key val } sec2 key2 =
      GKeyFile.value { groups := groups } sec2 key2 := by
  simp only [GKeyFile.value, groups_set_lookup_other _ _ _ _ _ hne]

theorem appsettings_encode_values (self : appsettings_t) (file : GKeyFile) :
    GKeyFile.value (appsettings_encode self file) self.ast_appname "Allowed" =
      some (keyval_t.int self.ast_allowed) ∧
    GKeyFile.value (appsettings_encode self file) self.ast_appname "Agreed" =
      some (keyval_t.int self.ast_agreed) ∧
    GKeyFile.value (appsettings_encode self file) self.ast_appname "Granted" =
      some (keyval_t.list (stringset_items self.ast_granted)) := by
  simp only [appsettings_encode, keyfile_set_integer, keyfile_set_stringset,
    appsettings_appname]
  refine ⟨?_, ?_, ?_⟩
  · rw [value_groups_set_other_key _ _ _ _ _ (by decide),
      value_groups_set_other_key _ _ _ _ _ (by decide), value_groups_set_same]
  · rw [value_groups_set_other_key _ _ _ _ _ (by decide), value_groups_set_same]
  · rw [value_groups_set_same]

theorem appinfo_parse_desktop_state (mask : stringset_t) (fs : desktop_file_t)
    (self : appinfo_t) :
    (appinfo_parse_desktop mask fs self).2.anf_state =
      (match fs.stat with
       | .failed errno =>
         if errno = ENOENT then APPINFO_STATE_DELETED else APPINFO_STATE_INVALID
       | .ok st_ctime =>
         if self.anf_dt_ctime = st_ctime then self.anf_state
         else if fs.access_r_ok = false then APPINFO_STATE_INVALID
         else
           match fs.keyfile with
           | none => APPINFO_STATE_INVALID
           | some ini => desktop_state ini) := by
  unfold appinfo_parse_desktop
  cases hs : fs.stat with
  | failed errno =>
    by_cases he : errno = ENOENT <;> simp [he, appinfo_set_state_eq, appinfo_clear_dirty]
  | ok c =>
    by_cases hc : self.anf_dt_ctime = c
    · simp [hc, appinfo_clear_dirty]
    · cases hacc : fs.access_r_ok
      · simp [hc, appinfo_set_state_eq, appinfo_clear_dirty]
      · cases hk : fs.keyfile with
        | none => simp [hc, appinfo_set_state_eq, appinfo_clear_dirty]
        | some ini => simp [hc, appinfo_parse_keyfile_eq, appinfo_clear_dirty]

theorem lookup_append_new {κ α : Type} [BEq κ] [LawfulBEq κ] (l : List (κ × α)) (k : κ)
    (v : α) (h : l.lookup k = none) : (l ++ [(k, v)]).lookup k = some v := by
  induction l with
  | nil => simp [List.lookup]
  | cons e rest ih =>
    obtain ⟨k2, v2⟩ := e
    by_cases hk : k = k2
    · subst hk
      simp [List.lookup] at h
    · have h2 : (k == k2) = false := by simp [hk]
      simp only [List.cons_append, List.lookup, h2] at h ⊢
      exact ih h

theorem table_update_cons {κ α : Type} [DecidableEq κ] (l : List (κ × α)) (k k2 : κ)
    (v v2 : α) :
    table_update ((k2, v2) :: l) k v =
      (if k2 = k then (k2, v) else (k2, v2)) :: table_update l k v := rfl

theorem lookup_table_update_same {κ α : Type} [DecidableEq κ] (l : List (κ × α)) (k : κ)
    (v : α) (h : (l.lookup k).isSome = true) : (table_update l k v).lookup k = some v := by
  induction l with
  | nil => simp [List.lookup] at h
  | cons e rest ih =>
    obtain ⟨k2, v2⟩ := e
    rw [table_update_cons]
    by_cases hk : k2 = k
    · subst hk
      rw [if_pos rfl]
      simp [List.lookup]
    · have h2 : (k == k2) = false := by simp [Ne.symm hk]
      rw [if_neg hk]
      simp only [List.lookup, h2] at h ⊢
      exact ih h

theorem usersettings_add_appsettings_lookup (self : usersettings_t) (appname : String) :
    usersettings_get_appsettings (usersettings_add_appsettings self appname).2 appname =
      some (usersettings_add_appsettings self appname).1 := by
  unfold usersettings_add_appsettings
  cases h : usersettings_get_appsettings self appname with
  | some r => simpa using h
  | none =>
    simp only [usersettings_get_appsettings] at h ⊢
    exact lookup_append_new _ _ _ h

theorem settings_add_usersettings_lookup (self : settings_t) (uid : Nat) :
    settings_get_usersettings (settings_add_usersettings self uid).2 uid =
      some (settings_add_usersettings self uid).1 := by
  unfold settings_add_usersettings
  cases h : settings_get_usersettings self uid with
  | some r => simpa using h
  | none =>
    simp only [settings_get_usersettings] at h ⊢
    exact lookup_append_new _ _ _ h

theorem settings_add_appsettings_lookup (self : settings_t) (uid : Nat) (appname : String) :
    settings_get_appsettings (settings_add_appsettings self uid appname).2 uid appname =
      some (settings_add_appsettings self uid appname).1 := by
  have hu := settings_add_usersettings_lookup self uid
  simp only [settings_get_usersettings] at hu
  simp only [settings_add_appsettings, settings_get_appsettings, settings_get_usersettings]
  rw [lookup_table_update_same _ _ _ (by rw [hu]; rfl)]
  exact usersettings_add_appsettings_lookup _ _

theorem settings_save_later_inv (self : settings_t) (uid : Nat) (h : self.save_inv) :
    (settings_save_later self uid).save_inv := by
  obtain ⟨hnd, h0, h1⟩ := h
  have hnd2 : (if uid ∈ self.stt_user_changes then self.stt_user_changes
      else self.stt_user_changes ++ [uid]).Nodup := by
    split
    · exact hnd
    · rename_i hmem
      exact List.Nodup.append hnd (List.nodup_singleton uid) (by simpa using hmem)
  have hne : (if uid ∈ self.stt_user_changes then self.stt_user_changes
      else self.stt_user_changes ++ [uid]) ≠ [] := by
    split
    · rename_i hmem
      exact List.ne_nil_of_mem hmem
    · simp
  unfold settings_save_later
  by_cases hid : self.stt_save_id = 0
  · simp only [hid, if_true, g_timeout_add]
    refine ⟨hnd2, ?_, ?_⟩
    · intro hz
      simp at hz
    · intro _
      refine ⟨hne, ?_⟩
      simp [(h0 hid).2]
  · simp only [hid, if_false]
    exact ⟨hnd2, fun hz => absurd hz hid, fun _ => ⟨hne, (h1 hid).2⟩⟩

theorem settings_save_later_changes (self : settings_t) (uid : Nat) :
    (settings_save_later self uid).stt_user_changes =
      if uid ∈ self.stt_user_changes then self.stt_user_changes
      else self.stt_user_changes ++ [uid] := by
  unfold settings_save_later
  simp only
  by_cases h : self.stt_save_id = 0
  · rw [if_pos h]
  · rw [if_neg h]

theorem settings_save_later_mem (self : settings_t) (uid : Nat) :
    uid ∈ (settings_save_later self uid).stt_user_changes ∧
    ∀ u ∈ self.stt_user_changes, u ∈ (settings_save_later self uid).stt_user_changes := by
  rw [settings_save_later_changes]
  by_cases h : uid ∈ self.stt_user_changes
  · rw [if_pos h]
    exact ⟨h, fun u hu => hu⟩
  · rw [if_neg h]
    exact ⟨by simp, fun u hu => List.mem_append_left _ hu⟩

theorem settings_save_user_writes (control : control_t) (self : settings_t) (disk : disk_t)
    (uid : Nat) :
    (settings_save_user control self disk uid).writes =
      disk.writes ++
        (if control_valid_user control uid && (settings_get_usersettings self uid).isSome
         then [uid] else []) ∧
    (settings_save_user control self disk uid).unwritable = disk.unwritable := by
  unfold settings_save_user
  cases hv : control_valid_user control uid
  · simp
  · cases hu : settings_get_usersettings self uid with
    | none => simp
    | some us =>
      simp only [usersettings_save, keyfile_save, settings_userdata_path]
      by_cases hw : uid ∈ disk.unwritable
      · simp [hw]
      · simp [hw]

theorem settings_save_users_writes (control : control_t) (self : settings_t)
    (uids : List Nat) (disk : disk_t) :
    (uids.foldl (fun d uid => settings_save_user control self d uid) disk).writes =
      disk.writes ++ uids.filter (fun uid =>
        control_valid_user control uid && (settings_get_usersettings self uid).isSome) := by
  induction uids generalizing disk with
  | nil => simp
  | cons u rest ih =>
    rw [List.foldl_cons, ih, (settings_save_user_writes control self disk u).1]
    by_cases hc : (control_valid_user control u &&
        (settings_get_usersettings self u).isSome) = true
    · simp [List.filter_cons, hc]
    · simp [List.filter_cons, hc]

theorem settings_save_now_store (control : control_t) (self : settings_t) (disk : disk_t) :
    (settings_save_now control self disk).1 =
      { settings_cancel_save self with stt_user_changes := [] } := rfl

theorem settings_save_now_writes (control : control_t) (self : settings_t) (disk : disk_t) :
    (settings_save_now control self disk).2.writes =
      disk.writes ++ self.stt_user_changes.filter (fun uid =>
        control_valid_user control uid && (settings_get_usersettings self uid).isSome) := by
  have hch : (settings_cancel_save self).stt_user_changes = self.stt_user_changes := by
    unfold settings_cancel_save; split <;> rfl
  have hus : ∀ uid, settings_get_usersettings (settings_cancel_save self) uid =
      settings_get_usersettings self uid := by
    intro uid
    unfold settings_cancel_save settings_get_usersettings; split <;> rfl
  simp only [settings_save_now, settings_save_users_writes, hch, hus]

theorem settings_cancel_save_eq (self : settings_t) :
    settings_cancel_save self =
      { self with loop := g_source_remove self.loop self.stt_save_id, stt_save_id := 0 } ∨
    (self.stt_save_id = 0 ∧ settings_cancel_save self = self) := by
  unfold settings_cancel_save
  by_cases h : self.stt_save_id = 0
  · right; simp [h]
  · left; simp [h]

theorem settings_timeout_pending (control : control_t) (self : settings_t) (disk : disk_t)
    (h : self.save_inv) (hid : self.stt_save_id ≠ 0) :
    (settings_timeout control self.stt_save_id self disk).1 =
      { self with
        stt_save_id := 0
        stt_user_changes := []
        loop := { self.loop with sources := [] } } ∧
    (settings_timeout control self.stt_save_id self disk).2.writes =
      disk.writes ++ self.stt_user_changes.filter (fun uid =>
        control_valid_user control uid && (settings_get_usersettings self uid).isSome) := by
  have hsrc := (h.2.2 hid).2
  have hmem : self.stt_save_id ∈ self.loop.sources.map Prod.fst := by simp [hsrc]
  unfold settings_timeout
  rw [if_pos hmem]
  constructor
  · simp [settings_save_cb, settings_save_now, settings_cancel_save, g_source_remove, hsrc]
  · simp only [settings_save_cb]
    rw [settings_save_now_writes]
    rfl

theorem settings_timeout_inv (control : control_t) (id : Nat) (self : settings_t)
    (disk : disk_t) (h : self.save_inv) : (settings_timeout control id self disk).1.save_inv := by
  by_cases hmem : id ∈ self.loop.sources.map Prod.fst
  · have hid : self.stt_save_id ≠ 0 := by
      intro hz
      rw [(h.2.1 hz).2] at hmem
      simp at hmem
    have hsrc := (h.2.2 hid).2
    have hid2 : id = self.stt_save_id := by
      rw [hsrc] at hmem
      simpa using hmem
    subst hid2
    rw [(settings_timeout_pending control self disk h hid).1]
    exact ⟨List.nodup_nil, fun _ => ⟨rfl, rfl⟩, fun hne => absurd rfl hne⟩
  · unfold settings_timeout
    rw [if_neg hmem]
    exact h

theorem save_op_inv (control : control_t) (s : settings_t × disk_t) (op : save_op_t)
    (h : s.1.save_inv) : (op.run control s).1.save_inv := by
  cases op with
  | save_later uid => exact settings_save_later_inv s.1 uid h
  | timeout id => exact settings_timeout_inv control id s.1 s.2 h

theorem save_reach_inv (control : control_t) (ops : List save_op_t) (s : settings_t × disk_t)
    (h : s.1.save_inv) : (save_reach control s ops).1.save_inv := by
  induction ops generalizing s with
  | nil => exact h
  | cons op rest ih => exact ih _ (save_op_inv control s op h)

theorem settings_idle_inv (initialized : Bool) (users : List (Nat × usersettings_t))
    (last_id : Nat) : (settings_idle initialized users last_id).save_inv :=
  ⟨List.nodup_nil, fun _ => ⟨rfl, rfl⟩, fun h => absurd rfl h⟩

theorem save_later_all_mem (control : control_t) (uids : List Nat) (s : settings_t × disk_t) :
    (∀ u ∈ s.1.stt_user_changes,
      u ∈ (save_reach control s (uids.map save_op_t.save_later)).1.stt_user_changes) ∧
    (∀ u ∈ uids,
      u ∈ (save_reach control s (uids.map save_op_t.save_later)).1.stt_user_changes) := by
  induction uids generalizing s with
  | nil => simp [save_reach]
  | cons uid rest ih =>
    have hstep := settings_save_later_mem s.1 uid
    have ih2 := ih (settings_save_later s.1 uid, s.2)
    simp only [save_reach, List.map_cons, List.foldl_cons, save_op_t.run] at ih2 ⊢
    constructor
    · intro u hu
      exact ih2.1 u (hstep.2 u hu)
    · intro u hu
      rcases List.mem_cons.mp hu with rfl | hu
      · exact ih2.1 _ hstep.1
      · exact ih2.2 u hu

theorem lookup_filter_ne {α : Type} (l : List (Nat × α)) (k p : Nat) (h : k ≠ p) :
    (l.filter (fun e => decide (e.1 ≠ p))).lookup k = l.lookup k := by
  induction l with
  | nil => rfl
  | cons e rest ih =>
    obtain ⟨k2, v2⟩ := e
    simp only [ne_eq, decide_not] at ih ⊢
    by_cases hp : k2 = p
    · subst hp
      have h2 : (k == k2) = false := by simp [h]
      simp [List.filter_cons, List.lookup, h2, ih]
    · by_cases hk : k = k2
      · subst hk
        simp [List.filter_cons, hp, List.lookup]
      · have h2 : (k == k2) = false := by simp [hk]
        simp [List.filter_cons, hp, List.lookup, h2, ih]

theorem settings_save_user_unwritable (control : control_t) (self : settings_t)
    (disk : disk_t) (uid u : Nat) (hu : u ∈ disk.unwritable) :
    keyfile_load (settings_save_user control self disk uid) u = keyfile_load disk u := by
  unfold settings_save_user
  cases hv : control_valid_user control uid
  · simp
  · cases hb : settings_get_usersettings self uid with
    | none => simp
    | some us =>
      simp only [usersettings_save, keyfile_save, settings_userdata_path, keyfile_load]
      by_cases hw : uid ∈ disk.unwritable
      · simp [hw]
      · have hne : u ≠ uid := fun e => hw (e ▸ hu)
        have h2 : (u == uid) = false := by simp [hne]
        simp only [hw, if_false, if_true, List.lookup, h2]
        exact lookup_filter_ne _ _ _ hne

theorem settings_save_users_unwritable (control : control_t) (self : settings_t)
    (uids : List Nat) (disk : disk_t) (u : Nat) (hu : u ∈ disk.unwritable) :
    keyfile_load (uids.foldl (fun d uid => settings_save_user control self d uid) disk) u =
      keyfile_load disk u := by
  induction uids generalizing disk with
  | nil => rfl
  | cons uid rest ih =>
    rw [List.foldl_cons, ih _ (by rw [(settings_save_user_writes control self disk uid).2]; exact hu)]
    exact settings_save_user_unwritable control self disk uid u hu

theorem lookup_append_isSome {κ α : Type} [BEq κ] [LawfulBEq κ] (l : List (κ × α)) (k k2 : κ)
    (v : α) : ((l ++ [(k, v)]).lookup k2).isSome = true ↔
      (l.lookup k2).isSome = true ∨ k2 = k := by
  induction l with
  | nil =>
    by_cases h : k2 = k
    · subst h; simp [List.lookup]
    · have h2 : (k2 == k) = false := by simp [h]
      simp [List.lookup, h2, h]
  | cons e rest ih =>
    obtain ⟨k3, v3⟩ := e
    by_cases h : k2 = k3
    · subst h; simp [List.lookup]
    · have h2 : (k2 == k3) = false := by simp [h]
      simpa [List.lookup, h2] using ih

theorem lookup_append_other {κ α : Type} [BEq κ] [LawfulBEq κ] (l : List (κ × α)) (k k2 : κ)
    (v : α) (hne : k2 ≠ k) : (l ++ [(k, v)]).lookup k2 = l.lookup k2 := by
  induction l with
  | nil =>
    have h2 : (k2 == k) = false := by simp [hne]
    simp [List.lookup, h2]
  | cons e rest ih =>
    obtain ⟨k3, v3⟩ := e
    by_cases h : k2 = k3
    · subst h; simp [List.lookup]
    · have h2 : (k2 == k3) = false := by simp [h]
      simpa [List.lookup, h2] using ih

theorem lookup_table_update_other {κ α : Type} [DecidableEq κ] (l : List (κ × α)) (k k2 : κ)
    (v : α) (hne : k2 ≠ k) : (table_update l k v).lookup k2 = l.lookup k2 := by
  induction l with
  | nil => rfl
  | cons e rest ih =>
    obtain ⟨k3, v3⟩ := e
    rw [table_update_cons]
    by_cases hk : k3 = k
    · subst hk
      have h2 : (k2 == k3) = false := by simp [hne]
      rw [if_pos rfl]
      simp only [List.lookup, h2]
      exact ih
    · rw [if_neg hk]
      by_cases h : k2 = k3
      · subst h; simp [List.lookup]
      · have h2 : (k2 == k3) = false := by simp [h]
        simp only [List.lookup, h2]
        exact ih

theorem lookup_table_update_isSome {κ α : Type} [DecidableEq κ] (l : List (κ × α)) (k k2 : κ)
    (v : α) : ((table_update l k v).lookup k2).isSome = (l.lookup k2).isSome := by
  induction l with
  | nil => rfl
  | cons e rest ih =>
    obtain ⟨k3, v3⟩ := e
    rw [table_update_cons]
    by_cases hk : k3 = k
    · subst hk
      rw [if_pos rfl]
      by_cases h : k2 = k3
      · subst h; simp [List.lookup]
      · have h2 : (k2 == k3) = false := by simp [h]
        simp only [List.lookup, h2]
        exact ih
    · rw [if_neg hk]
      by_cases h : k2 = k3
      · subst h; simp [List.lookup]
      · have h2 : (k2 == k3) = false := by simp [h]
        simp only [List.lookup, h2]
        exact ih

theorem mem_table_update {κ α : Type} [DecidableEq κ] (l : List (κ × α)) (k : κ) (v : α)
    (e : κ × α) (h : e ∈ table_update l k v) : e ∈ l ∨ e = (k, v) := by
  simp only [table_update, List.mem_map] at h
  obtain ⟨e0, he0, rfl⟩ := h
  by_cases hk : e0.1 = k
  · right; rw [if_pos hk, hk]
  · left; rw [if_neg hk]; exact he0

theorem usersettings_add_appsettings_apps (self : usersettings_t) (appname : String) :
    ((usersettings_get_appsettings self appname).isSome = true ∧
      (usersettings_add_appsettings self appname).2 = self) ∨
    (usersettings_get_appsettings self appname = none ∧
      (usersettings_add_appsettings self appname).1 =
        appsettings_create self.ust_uid appname ∧
      (usersettings_add_appsettings self appname).2 =
        { self with ust_apps :=
            self.ust_apps ++ [(appname, appsettings_create self.ust_uid appname)] }) := by
  unfold usersettings_add_appsettings
  cases h : usersettings_get_appsettings self appname with
  | some r => left; simp
  | none => right; simp [usersettings_uid]

theorem decode_appname (i : Bool) (a : Option appinfo_t) (self : appsettings_t)
    (file : GKeyFile) : (appsettings_decode i a self file).1.ast_appname = self.ast_appname := by
  simp [appsettings_decode, set_granted_fst]

theorem mem_of_lookup {κ α : Type} [BEq κ] [LawfulBEq κ] (l : List (κ × α)) (k : κ) (v : α)
    (h : l.lookup k = some v) : (k, v) ∈ l := by
  induction l with
  | nil => simp [List.lookup] at h
  | cons e rest ih =>
    obtain ⟨k2, v2⟩ := e
    by_cases hk : k = k2
    · subst hk
      simp only [List.lookup, beq_self_eq_true, Option.some.injEq] at h
      rw [h]
      exact List.mem_cons_self _ _
    · have h2 : (k == k2) = false := by simp [hk]
      simp only [List.lookup, h2] at h
      exact List.mem_cons_of_mem _ (ih h)

theorem usersettings_load_groups_valid (control : control_t) (i : Bool) (file : GKeyFile)
    (g : String) (rest : List String) (self : usersettings_t)
    (hv : control_valid_application control g = true) :
    (usersettings_load_groups control i file (g :: rest) self).1 =
      (usersettings_load_groups control i file rest
        { (usersettings_add_appsettings self g).2 with
          ust_apps := table_update (usersettings_add_appsettings self g).2.ust_apps g
            (appsettings_decode i
              (control_appinfo control
                (appsettings_appname (usersettings_add_appsettings self g).1))
              (usersettings_add_appsettings self g).1 file).1 }).1 := by
  rw [usersettings_load_groups, if_pos hv]

theorem usersettings_load_groups_invalid (control : control_t) (i : Bool) (file : GKeyFile)
    (g : String) (rest : List String) (self : usersettings_t)
    (hv : ¬ control_valid_application control g = true) :
    usersettings_load_groups control i file (g :: rest) self =
      usersettings_load_groups control i file rest self := by
  rw [usersettings_load_groups, if_neg hv]

theorem usersettings_save_apps_valid (control : control_t) (k : String) (r : appsettings_t)
    (rest : List (String × appsettings_t)) (file : GKeyFile)
    (hv : control_valid_application control k = true) :
    usersettings_save_apps control ((k, r) :: rest) file =
      usersettings_save_apps control rest (appsettings_encode r file) := by
  rw [usersettings_save_apps, if_pos hv]

theorem usersettings_save_apps_invalid (control : control_t) (k : String) (r : appsettings_t)
    (rest : List (String × appsettings_t)) (file : GKeyFile)
    (hv : ¬ control_valid_application control k = true) :
    usersettings_save_apps control ((k, r) :: rest) file =
      usersettings_save_apps control rest file := by
  rw [usersettings_save_apps, if_neg hv]

/-- One valid group of `usersettings_load`: the bucket after the record is looked up or
created, decoded and stored back. -/
theorem usersettings_load_group_keys (control : control_t) (i : Bool) (file : GKeyFile)
    (self : usersettings_t) (appname key : String) :
    ((table_update (usersettings_add_appsettings self appname).2.ust_apps appname
        (appsettings_decode i
          (control_appinfo control
            (appsettings_appname (usersettings_add_appsettings self appname).1))
          (usersettings_add_appsettings self appname).1 file).1).lookup key).isSome = true ↔
      (self.ust_apps.lookup key).isSome = true ∨ key = appname := by
  rw [lookup_table_update_isSome]
  rcases usersettings_add_appsettings_apps self appname with ⟨h1, h2⟩ | ⟨h1, _, h3⟩
  · rw [h2]
    constructor
    · intro h; exact Or.inl h
    · rintro (h | rfl)
      · exact h
      · exact h1
  · rw [h3]
    exact lookup_append_isSome _ _ _ _

theorem usersettings_load_groups_keys (control : control_t) (i : Bool) (file : GKeyFile)
    (groups : List String) (self : usersettings_t) (key : String) :
    (usersettings_get_appsettings
        (usersettings_load_groups control i file groups self).1 key).isSome = true ↔
      (usersettings_get_appsettings self key).isSome = true ∨
      (key ∈ groups ∧ control_valid_application control key = true) := by
  induction groups generalizing self with
  | nil => simp [usersettings_load_groups]
  | cons g rest ih =>
    by_cases hv : control_valid_application control g = true
    · rw [usersettings_load_groups_valid _ _ _ _ _ _ hv, ih]
      simp only [usersettings_get_appsettings]
      rw [usersettings_load_group_keys]
      constructor
      · rintro ((h | rfl) | ⟨h1, h2⟩)
        · exact Or.inl h
        · exact Or.inr ⟨List.mem_cons_self _ _, hv⟩
        · exact Or.inr ⟨List.mem_cons_of_mem _ h1, h2⟩
      · rintro (h | ⟨h1, h2⟩)
        · exact Or.inl (Or.inl h)
        · rcases List.mem_cons.mp h1 with rfl | h1
          · exact Or.inl (Or.inr rfl)
          · exact Or.inr ⟨h1, h2⟩
    · rw [usersettings_load_groups_invalid _ _ _ _ _ _ hv, ih]
      constructor
      · rintro (h | ⟨h1, h2⟩)
        · exact Or.inl h
        · exact Or.inr ⟨List.mem_cons_of_mem _ h1, h2⟩
      · rintro (h | ⟨h1, h2⟩)
        · exact Or.inl h
        · rcases List.mem_cons.mp h1 with rfl | h1
          · exact absurd h2 hv
          · exact Or.inr ⟨h1, h2⟩

theorem usersettings_load_groups_other (control : control_t) (i : Bool) (file : GKeyFile)
    (groups : List String) (self : usersettings_t) (key : String)
    (hkey : control_valid_application control key = false) :
    usersettings_get_appsettings (usersettings_load_groups control i file groups self).1 key =
      usersettings_get_appsettings self key := by
  induction groups generalizing self with
  | nil => rfl
  | cons g rest ih =>
    by_cases hv : control_valid_application control g = true
    · have hne : key ≠ g := by
        rintro rfl
        rw [hv] at hkey
        exact Bool.noConfusion hkey
      rw [usersettings_load_groups_valid _ _ _ _ _ _ hv, ih]
      simp only [usersettings_get_appsettings]
      rw [lookup_table_update_other _ _ _ _ hne]
      rcases usersettings_add_appsettings_apps self g with ⟨_, h2⟩ | ⟨_, _, h3⟩
      · rw [h2]
      · rw [h3]
        exact lookup_append_other _ _ _ _ hne
    · rw [usersettings_load_groups_invalid _ _ _ _ _ _ hv]
      exact ih self

theorem usersettings_load_groups_names (control : control_t) (i : Bool) (file : GKeyFile)
    (groups : List String) (self : usersettings_t)
    (h : ∀ e ∈ self.ust_apps, e.2.ast_appname = e.1) :
    ∀ e ∈ (usersettings_load_groups control i file groups self).1.ust_apps,
      e.2.ast_appname = e.1 := by
  induction groups generalizing self with
  | nil => exact h
  | cons g rest ih =>
    by_cases hv : control_valid_application control g = true
    · rw [usersettings_load_groups_valid _ _ _ _ _ _ hv]
      apply ih
      intro e he
      have hname : (usersettings_add_appsettings self g).1.ast_appname = g := by
        rcases usersettings_add_appsettings_apps self g with ⟨h1, _⟩ | ⟨_, h2, _⟩
        · have hl := usersettings_add_appsettings_lookup self g
          rcases usersettings_add_appsettings_apps self g with ⟨_, h2⟩ | ⟨h3, _, _⟩
          · rw [h2] at hl
            exact h _ (mem_of_lookup _ _ _ hl)
          · rw [h3] at h1
            exact Bool.noConfusion h1
        · rw [h2]; rfl
      rcases mem_table_update _ _ _ _ he with he | rfl
      · rcases usersettings_add_appsettings_apps self g with ⟨_, h2⟩ | ⟨_, _, h3⟩
        · rw [h2] at he
          exact h e he
        · rw [h3] at he
          rcases List.mem_append.mp he with he | he
          · exact h e he
          · simp only [List.mem_singleton] at he
            rw [he]
            rfl
      · simp only [decode_appname]
        exact hname
    · rw [usersettings_load_groups_invalid _ _ _ _ _ _ hv]
      exact ih self h

theorem groups_set_names (groups : List (String × List (String × keyval_t)))
    (sec key : String) (val : keyval_t) (x : String) :
    x ∈ (groups_set groups sec key val).map Prod.fst ↔ x ∈ groups.map Prod.fst ∨ x = sec := by
  induction groups with
  | nil => simp [groups_set]
  | cons e rest ih =>
    obtain ⟨g, kvs⟩ := e
    by_cases h : g = sec
    · subst h
      simp only [groups_set, if_true, List.map_cons, List.mem_cons]
      tauto
    · simp only [groups_set, h, if_false, List.map_cons, List.mem_cons, ih]
      tauto

theorem appsettings_encode_names (self : appsettings_t) (file : GKeyFile) (x : String) :
    x ∈ g_key_file_get_groups (appsettings_encode self file) ↔
      x ∈ g_key_file_get_groups file ∨ x = self.ast_appname := by
  simp only [g_key_file_get_groups, appsettings_encode, keyfile_set_integer,
    keyfile_set_stringset, appsettings_appname, groups_set_names]
  tauto

theorem usersettings_save_apps_names (control : control_t)
    (apps : List (String × appsettings_t)) (file : GKeyFile) (x : String) :
    x ∈ g_key_file_get_groups (usersettings_save_apps control apps file) ↔
      x ∈ g_key_file_get_groups file ∨
      ∃ e ∈ apps, control_valid_application control e.1 = true ∧ e.2.ast_appname = x := by
  induction apps generalizing file with
  | nil => simp [usersettings_save_apps]
  | cons e rest ih =>
    obtain ⟨k, r⟩ := e
    by_cases hv : control_valid_application control k = true
    · rw [usersettings_save_apps_valid _ _ _ _ _ hv, ih, appsettings_encode_names]
      constructor
      · rintro ((h | rfl) | ⟨e, he, h1, h2⟩)
        · exact Or.inl h
        · exact Or.inr ⟨(k, r), List.mem_cons_self _ _, hv, rfl⟩
        · exact Or.inr ⟨e, List.mem_cons_of_mem _ he, h1, h2⟩
      · rintro (h | ⟨e, he, h1, h2⟩)
        · exact Or.inl (Or.inl h)
        · rcases List.mem_cons.mp he with rfl | he
          · exact Or.inl (Or.inr h2.symm)
          · exact Or.inr ⟨e, he, h1, h2⟩
    · rw [usersettings_save_apps_invalid _ _ _ _ _ hv, ih]
      constructor
      · rintro (h | ⟨e, he, h1, h2⟩)
        · exact Or.inl h
        · exact Or.inr ⟨e, List.mem_cons_of_mem _ he, h1, h2⟩
      · rintro (h | ⟨e, he, h1, h2⟩)
        · exact Or.inl h
        · rcases List.mem_cons.mp he with rfl | he
          · exact absurd h1 hv
          · exact Or.inr ⟨e, he, h1, h2⟩

theorem keyfile_load_save (disk : disk_t) (file : GKeyFile) (path : Nat)
    (hw : path ∉ disk.unwritable) :
    keyfile_load (keyfile_save disk file path).2 path = some file := by
  simp [keyfile_load, keyfile_save, hw, List.lookup]

theorem groups_set_new (groups : List (String × List (String × keyval_t)))
    (sec key : String) (val : keyval_t) (h : sec ∉ groups.map Prod.fst) :
    groups_set groups sec key val = groups ++ [(sec, [(key, val)])] := by
  induction groups with
  | nil => rfl
  | cons e rest ih =>
    obtain ⟨g, kvs⟩ := e
    simp only [List.map_cons, List.mem_cons, not_or] at h
    have hg : ¬ g = sec := fun e => h.1 e.symm
    simp only [groups_set, hg, if_false, List.cons_append, ih h.2]

theorem groups_set_last (groups : List (String × List (String × keyval_t)))
    (sec key : String) (kvs : List (String × keyval_t)) (val : keyval_t)
    (h : sec ∉ groups.map Prod.fst) :
    groups_set (groups ++ [(sec, kvs)]) sec key val =
      groups ++ [(sec, keyvals_set kvs key val)] := by
  induction groups with
  | nil => simp [groups_set]
  | cons e rest ih =>
    obtain ⟨g, kvs2⟩ := e
    simp only [List.map_cons, List.mem_cons, not_or] at h
    have hg : ¬ g = sec := fun e => h.1 e.symm
    simp only [List.cons_append, groups_set, hg, if_false]
    exact congrArg (fun t => (g, kvs2) :: t) (ih h.2)

theorem appsettings_encode_new (r : appsettings_t) (file : GKeyFile)
    (h : r.ast_appname ∉ g_key_file_get_groups file) :
    (appsettings_encode r file).groups = file.groups ++ [settings_group r] := by
  simp only [g_key_file_get_groups] at h
  simp only [appsettings_encode, keyfile_set_integer, keyfile_set_stringset,
    appsettings_appname, settings_group]
  rw [groups_set_new _ _ _ _ h, groups_set_last _ _ _ _ _ h, groups_set_last _ _ _ _ _ h]
  simp [keyvals_set]

theorem usersettings_save_apps_groups (control : control_t)
    (apps : List (String × appsettings_t)) (file : GKeyFile)
    (hnodup : (apps.map Prod.fst).Nodup)
    (hnames : ∀ e ∈ apps, e.2.ast_appname = e.1)
    (hnew : ∀ e ∈ apps, e.1 ∉ g_key_file_get_groups file) :
    (usersettings_save_apps control apps file).groups =
      file.groups ++
        (apps.filter (fun e => control_valid_application control e.1)).map
          (fun e => settings_group e.2) := by
  induction apps generalizing file with
  | nil => simp [usersettings_save_apps]
  | cons e rest ih =>
    obtain ⟨k, r⟩ := e
    have hname : r.ast_appname = k := hnames (k, r) (List.mem_cons_self _ _)
    have hnodup2 : (rest.map Prod.fst).Nodup := (List.nodup_cons.mp hnodup).2
    have hk : k ∉ rest.map Prod.fst := (List.nodup_cons.mp hnodup).1
    have hnames2 : ∀ e ∈ rest, e.2.ast_appname = e.1 :=
      fun e he => hnames e (List.mem_cons_of_mem _ he)
    by_cases hv : control_valid_application control k = true
    · rw [usersettings_save_apps_valid _ _ _ _ _ hv]
      have hfresh : r.ast_appname ∉ g_key_file_get_groups file := by
        rw [hname]
        exact hnew (k, r) (List.mem_cons_self _ _)
      rw [ih _ hnodup2 hnames2, appsettings_encode_new r file hfresh]
      · simp [List.filter_cons, hv]
      · intro e he hmem
        rw [appsettings_encode_names] at hmem
        rcases hmem with hmem | hmem
        · exact hnew e (List.mem_cons_of_mem _ he) hmem
        · rw [hname] at hmem
          exact hk (hmem ▸ List.mem_map_of_mem Prod.fst he)
    · rw [usersettings_save_apps_invalid _ _ _ _ _ hv, ih _ hnodup2 hnames2
        (fun e he => hnew e (List.mem_cons_of_mem _ he))]
      simp [List.filter_cons, hv]

theorem lookup_settings_group (l : List (String × appsettings_t))
    (hnames : ∀ e ∈ l, e.2.ast_appname = e.1) (hnodup : (l.map Prod.fst).Nodup)
    (k : String) (r : appsettings_t) (hmem : (k, r) ∈ l) :
    (l.map (fun e => settings_group e.2)).lookup k = some (settings_group r).2 := by
  induction l with
  | nil => simp at hmem
  | cons e rest ih =>
    obtain ⟨k2, r2⟩ := e
    have hname : r2.ast_appname = k2 := hnames (k2, r2) (List.mem_cons_self _ _)
    have hk2 : k2 ∉ rest.map Prod.fst := (List.nodup_cons.mp hnodup).1
    rcases List.mem_cons.mp hmem with heq | hrest
    · simp only [Prod.mk.injEq] at heq
      obtain ⟨rfl, rfl⟩ := heq
      simp [settings_group, List.lookup, hname]
    · have hne : k ≠ k2 := by
        intro heq
        exact hk2 (heq ▸ List.mem_map_of_mem Prod.fst hrest)
      have h2 : (k == r2.ast_appname) = false := by simp [hname, hne]
      simp only [List.map_cons, settings_group, List.lookup, h2]
      exact ih (fun e he => hnames e (List.mem_cons_of_mem _ he))
        (List.nodup_cons.mp hnodup).2 hrest

theorem lookup_none_of_not_mem {κ α : Type} [BEq κ] [LawfulBEq κ] (l : List (κ × α)) (k : κ)
    (h : k ∉ l.map Prod.fst) : l.lookup k = none := by
  induction l with
  | nil => rfl
  | cons e rest ih =>
    obtain ⟨k2, v2⟩ := e
    simp only [List.map_cons, List.mem_cons, not_or] at h
    have h2 : (k == k2) = false := by simp [h.1]
    simp only [List.lookup, h2]
    exact ih h.2

theorem table_update_absent {κ α : Type} [DecidableEq κ] (l : List (κ × α)) (k : κ) (v : α)
    (h : l.lookup k = none) : table_update l k v = l := by
  induction l with
  | nil => rfl
  | cons e rest ih =>
    obtain ⟨k2, v2⟩ := e
    by_cases hk : k = k2
    · subst hk
      simp [List.lookup] at h
    · have h2 : (k == k2) = false := by simp [hk]
      simp only [List.lookup, h2] at h
      rw [table_update_cons, if_neg (fun e => hk e.symm), ih h]

theorem table_update_append_new {κ α : Type} [DecidableEq κ] (l : List (κ × α)) (k : κ)
    (v0 v : α) (h : l.lookup k = none) :
    table_update (l ++ [(k, v0)]) k v = l ++ [(k, v)] := by
  have h1 : table_update (l ++ [(k, v0)]) k v =
      table_update l k v ++ table_update [(k, v0)] k v := by
    simp [table_update]
  rw [h1, table_update_absent l k v h]
  simp [table_update]

theorem decode_settings_group (i : Bool) (a : Option appinfo_t) (file : GKeyFile)
    (r : appsettings_t) (h : file.groups.lookup r.ast_appname = some (settings_group r).2) :
    (appsettings_decode i a (appsettings_create r.ast_uid r.ast_appname) file).1 =
      (appsettings_rethink i a r).1 := by
  have hA : keyfile_get_integer file r.ast_appname "Allowed" APP_ALLOWED_UNSET =
      r.ast_allowed := by
    simp [keyfile_get_integer, GKeyFile.value, h, settings_group, List.lookup]
  have hB : keyfile_get_integer file r.ast_appname "Agreed" APP_AGREED_UNSET =
      r.ast_agreed := by
    have h2 : ("Agreed" == "Allowed") = false := by decide
    simp [keyfile_get_integer, GKeyFile.value, h, settings_group, List.lookup, h2]
  have hC : keyfile_get_stringset file r.ast_appname "Granted" = r.ast_granted := by
    have h2 : ("Granted" == "Allowed") = false := by decide
    have h3 : ("Granted" == "Agreed") = false := by decide
    simp [keyfile_get_stringset, GKeyFile.value, h, settings_group, List.lookup, h2, h3,
      stringset_items_toFinset]
  simp only [appsettings_decode, appsettings_rethink, set_granted_fst, appsettings_appname,
    appsettings_create, hA, hB, hC]
  cases a <;> rfl

theorem usersettings_load_groups_fresh (control : control_t) (i : Bool) (file : GKeyFile)
    (uid : Nat) (l acc : List (String × appsettings_t))
    (hvalid : ∀ e ∈ l, control_valid_application control e.1 = true)
    (hnodup : (l.map Prod.fst).Nodup)
    (hacc : ∀ e ∈ l, acc.lookup e.1 = none)
    (hwf : ∀ e ∈ l, e.2.ast_appname = e.1 ∧ e.2.ast_uid = uid)
    (hfile : ∀ e ∈ l, file.groups.lookup e.1 = some (settings_group e.2).2) :
    (usersettings_load_groups control i file (l.map Prod.fst)
        { ust_uid := uid, ust_apps := acc }).1 =
      { ust_uid := uid
        ust_apps := acc ++ l.map (fun e =>
          (e.1, (appsettings_rethink i (control_appinfo control e.1) e.2).1)) } := by
  induction l generalizing acc with
  | nil => simp [usersettings_load_groups]
  | cons e rest ih =>
    obtain ⟨k, r⟩ := e
    have hv := hvalid (k, r) (List.mem_cons_self _ _)
    have hk : k ∉ rest.map Prod.fst := (List.nodup_cons.mp hnodup).1
    have hnone : acc.lookup k = none := hacc (k, r) (List.mem_cons_self _ _)
    obtain ⟨hname, huid⟩ := hwf (k, r) (List.mem_cons_self _ _)
    have hgroup := hfile (k, r) (List.mem_cons_self _ _)
    simp only at hname huid hgroup hv hnone
    rw [List.map_cons, usersettings_load_groups_valid _ _ _ _ _ _ hv]
    have hadd : usersettings_add_appsettings { ust_uid := uid, ust_apps := acc } k =
        (appsettings_create uid k,
         { ust_uid := uid, ust_apps := acc ++ [(k, appsettings_create uid k)] }) := by
      simp [usersettings_add_appsettings, usersettings_get_appsettings, hnone,
        usersettings_uid]
    have hdec : (appsettings_decode i (control_appinfo control k) (appsettings_create uid k)
        file).1 = (appsettings_rethink i (control_appinfo control k) r).1 := by
      have := decode_settings_group i (control_appinfo control k) file r (by rw [hname]; exact hgroup)
      rw [hname, huid] at this
      exact this
    have hname0 : appsettings_appname (appsettings_create uid k) = k := rfl
    simp only [hadd, hname0, hdec, table_update_append_new _ _ _ _ hnone]
    rw [ih (acc ++ [(k, (appsettings_rethink i (control_appinfo control k) r).1)])
      (fun e he => hvalid e (List.mem_cons_of_mem _ he)) (List.nodup_cons.mp hnodup).2
      ?_ (fun e he => hwf e (List.mem_cons_of_mem _ he))
      (fun e he => hfile e (List.mem_cons_of_mem _ he))]
    · simp
    · intro e he
      have hne : e.1 ≠ k := by
        intro heq
        exact hk (heq ▸ List.mem_map_of_mem Prod.fst he)
      rw [lookup_append_other _ _ _ _ hne]
      exact hacc e (List.mem_cons_of_mem _ he)

theorem to_unsigned_ge_three (v : Int) (h : is_int v) :
    to_unsigned v ≥ 3 ↔ ¬ (v = 0 ∨ v = 1 ∨ v = 2) := by
  unfold is_int at h
  unfold to_unsigned
  omega

theorem set_allowed_allowed (i : Bool) (a : Option appinfo_t) (self : appsettings_t)
    (v : Int) :
    (appsettings_set_allowed i a self v).1.ast_allowed =
      (if to_unsigned v ≥ APP_ALLOWED_COUNT then APP_ALLOWED_UNSET else v) := by
  rw [set_allowed_fst]
  generalize (if to_unsigned v ≥ APP_ALLOWED_COUNT then APP_ALLOWED_UNSET else v) = w
  split
  · rw [set_granted_fst]
  · rename_i h
    simp only [ne_eq, not_not] at h
    exact h

theorem appinfo_parse_desktop_eq (mask : stringset_t) (fs : desktop_file_t)
    (self : appinfo_t) :
    appinfo_parse_desktop mask fs self =
      (match fs.stat with
       | .failed errno =>
         appinfo_clear_dirty
           { self with
             anf_state :=
               if errno = ENOENT then APPINFO_STATE_DELETED else APPINFO_STATE_INVALID
             anf_dirty := self.anf_dirty || decide (self.anf_state ≠
               if errno = ENOENT then APPINFO_STATE_DELETED else APPINFO_STATE_INVALID) }
       | .ok st_ctime =>
         if self.anf_dt_ctime = st_ctime then appinfo_clear_dirty self
         else
           match (if fs.access_r_ok = true then fs.keyfile else none) with
           | none =>
             appinfo_clear_dirty
               { self with
                 anf_dt_ctime := st_ctime
                 anf_state := APPINFO_STATE_INVALID
                 anf_dirty := self.anf_dirty ||
                   decide (self.anf_state ≠ APPINFO_STATE_INVALID) }
           | some ini =>
             appinfo_clear_dirty
               (appinfo_parse_keyfile mask { self with anf_dt_ctime := st_ctime } ini)) := by
  unfold appinfo_parse_desktop
  cases hs : fs.stat with
  | failed errno =>
    by_cases he : errno = ENOENT <;> simp [he, appinfo_set_state_eq]
  | ok c =>
    by_cases hc : self.anf_dt_ctime = c
    · simp [hc]
    · cases hacc : fs.access_r_ok
      · simp [hc, appinfo_set_state_eq]
      · cases hk : fs.keyfile with
        | none => simp [hc, appinfo_set_state_eq]
        | some ini => simp [hc]

theorem appinfo_parse_desktop_after (mask : stringset_t) (fs : desktop_file_t)
    (self : appinfo_t) :
    (appinfo_parse_desktop mask fs self).2.anf_dirty = false ∧
    (∀ errno : Nat, fs.stat = stat_result_t.failed errno →
      (appinfo_parse_desktop mask fs self).2.anf_state =
        if errno = ENOENT then APPINFO_STATE_DELETED else APPINFO_STATE_INVALID) ∧
    (∀ c : Int, fs.stat = stat_result_t.ok c →
      (appinfo_parse_desktop mask fs self).2.anf_dt_ctime = c) := by
  rw [appinfo_parse_desktop_eq]
  cases hs : fs.stat with
  | failed errno => simp [appinfo_clear_dirty]
  | ok c =>
    by_cases hc : self.anf_dt_ctime = c
    · simp [hc, appinfo_clear_dirty]
    · simp only [hc, if_false]
      cases (if fs.access_r_ok = true then fs.keyfile else none) with
      | none => simp [appinfo_clear_dirty]
      | some ini => simp [appinfo_clear_dirty, appinfo_parse_keyfile_eq]

theorem appinfo_parse_desktop_flag (mask : stringset_t) (fs : desktop_file_t)
    (self : appinfo_t) :
    (appinfo_parse_desktop mask fs self).1 =
      (self.anf_dirty ||
        decide (self.anf_dt_name ≠ (appinfo_parse_desktop mask fs self).2.anf_dt_name) ||
        decide (self.anf_dt_type ≠ (appinfo_parse_desktop mask fs self).2.anf_dt_type) ||
        decide (self.anf_dt_icon ≠ (appinfo_parse_desktop mask fs self).2.anf_dt_icon) ||
        decide (self.anf_dt_exec ≠ (appinfo_parse_desktop mask fs self).2.anf_dt_exec) ||
        decide (self.anf_dt_no_display ≠
          (appinfo_parse_desktop mask fs self).2.anf_dt_no_display) ||
        decide (self.anf_mo_service ≠ (appinfo_parse_desktop mask fs self).2.anf_mo_service) ||
        decide (self.anf_mo_object ≠ (appinfo_parse_desktop mask fs self).2.anf_mo_object) ||
        decide (self.anf_mo_method ≠ (appinfo_parse_desktop mask fs self).2.anf_mo_method) ||
        decide (self.anf_sj_organization_name ≠
          (appinfo_parse_desktop mask fs self).2.anf_sj_organization_name) ||
        decide (self.anf_sj_application_name ≠
          (appinfo_parse_desktop mask fs self).2.anf_sj_application_name) ||
        decide (self.anf_sj_permissions_out ≠
          (appinfo_parse_desktop mask fs self).2.anf_sj_permissions_out) ||
        decide (self.anf_state ≠ (appinfo_parse_desktop mask fs self).2.anf_state)) := by
  rw [appinfo_parse_desktop_eq]
  cases hs : fs.stat with
  | failed errno => simp [appinfo_clear_dirty]
  | ok c =>
    by_cases hc : self.anf_dt_ctime = c
    · simp [hc, appinfo_clear_dirty]
    · simp only [hc, if_false]
      cases (if fs.access_r_ok = true then fs.keyfile else none) with
      | none => simp [appinfo_clear_dirty]
      | some ini => simp only [appinfo_clear_dirty, appinfo_parse_keyfile_eq]

theorem set_agreed_snd (i : Bool) (self : appsettings_t) (v : Int) :
    (appsettings_set_agreed i self v).2 =
      if self.ast_agreed =
          (if to_unsigned v ≥ APP_AGREED_COUNT then APP_AGREED_UNSET else v) then []
      else
        (if i then [effect_t.control_on_settings_change self.ast_appname] else []) ++
          [effect_t.settings_save_later self.ast_uid] := by
  unfold appsettings_set_agreed
  simp only
  generalize (if to_unsigned v ≥ APP_AGREED_COUNT then APP_AGREED_UNSET else v) = w
  by_cases h : self.ast_agreed = w
  · simp [h]
  · simp [h, appsettings_notify_change, appsettings_appname, appsettings_uid]

theorem set_allowed_snd (i : Bool) (a : Option appinfo_t) (self : appsettings_t) (v : Int) :
    (appsettings_set_allowed i a self v).2 =
      (if self.ast_allowed = (appsettings_set_allowed i a self v).1.ast_allowed then []
       else
        (if i then [effect_t.control_on_settings_change self.ast_appname] else []) ++
          [effect_t.settings_save_later self.ast_uid]) ++
      (if self.ast_granted = (appsettings_set_allowed i a self v).1.ast_granted then []
       else
        (if i then [effect_t.control_on_settings_change self.ast_appname] else []) ++
          [effect_t.settings_save_later self.ast_uid]) := by
  rw [set_allowed_allowed]
  unfold appsettings_set_allowed
  simp only
  generalize (if to_unsigned v ≥ APP_ALLOWED_COUNT then APP_ALLOWED_UNSET else v) = w
  by_cases h : self.ast_allowed = w
  · simp [h]
  · simp only [ne_eq, h, not_false_eq_true, if_true, if_false]
    rw [set_granted_snd, set_granted_fst]
    simp only [appsettings_notify_change, appsettings_appname, appsettings_uid]
    generalize set_granted_value a _ _ = g
    by_cases hg : g = self.ast_granted
    · subst hg
      simp
    · have hg2 : ¬ self.ast_granted = g := fun e => hg e.symm
      simp only [hg, hg2, if_false]

theorem usersettings_rethink_apps_map (i : Bool) (ca : String → Option appinfo_t)
    (apps : List (String × appsettings_t)) :
    (usersettings_rethink_apps i ca apps).1 =
      apps.map (fun e => (e.1, (appsettings_rethink i (ca e.2.ast_appname) e.2).1)) := by
  induction apps with
  | nil => rfl
  | cons e rest ih =>
    obtain ⟨k, v⟩ := e
    simp only [usersettings_rethink_apps, List.map_cons, ih, appsettings_appname]

theorem settings_rethink_users_map (i : Bool) (ca : String → Option appinfo_t)
    (users : List (Nat × usersettings_t)) :
    (settings_rethink_users i ca users).1 =
      users.map (fun u =>
        (u.1,
         { u.2 with
           ust_apps := u.2.ust_apps.map (fun e =>
             (e.1, (appsettings_rethink i (ca e.2.ast_appname) e.2).1)) })) := by
  induction users with
  | nil => rfl
  | cons u rest ih =>
    obtain ⟨k, v⟩ := u
    simp only [settings_rethink_users, usersettings_rethink, List.map_cons, ih,
      usersettings_rethink_apps_map]

theorem uid_loop_never_ends (fuel uid : Nat) (h : uid ≤ 4294967295) :
    uid_loop 4294967295 fuel uid = none := by
  induction fuel generalizing uid with
  | zero => rfl
  | succ n ih =>
    unfold uid_loop
    rw [if_pos h, ih _ (by omega)]
    rfl

theorem uid_loop_ends (max_uid fuel uid : Nat) (hmax : max_uid < 4294967295)
    (hfuel : max_uid + 1 - uid < fuel) :
    uid_loop max_uid fuel uid = some (List.range' uid (max_uid + 1 - uid)) := by
  induction fuel generalizing uid with
  | zero => omega
  | succ n ih =>
    unfold uid_loop
    by_cases h : uid ≤ max_uid
    · have hnext : (uid + 1) % 4294967296 = uid + 1 := Nat.mod_eq_of_lt (by omega)
      have hlen : max_uid + 1 - uid = (max_uid + 1 - (uid + 1)) + 1 := by omega
      rw [if_pos h, hnext, ih (uid + 1) (by omega), hlen, List.range'_succ]
      rfl
    · have hlen : max_uid + 1 - uid = 0 := by omega
      rw [if_neg h, hlen]
      rfl

theorem settings_load_all_loop_eq (control : control_t) (disk : disk_t) (max_uid fuel uid : Nat)
    (self : settings_t) :
    settings_load_all_loop control disk max_uid fuel uid self =
      (uid_loop max_uid fuel uid).map
        (List.foldl (fun s u => settings_load_user control s disk u) self) := by
  induction fuel generalizing uid self with
  | zero => rfl
  | succ n ih =>
    unfold settings_load_all_loop uid_loop
    by_cases h : uid ≤ max_uid
    · rw [if_pos h, if_pos h, ih, Option.map_map]
      rfl
    · rw [if_neg h, if_neg h]
      rfl

theorem settings_save_all_loop_eq (control : control_t) (self : settings_t)
    (max_uid fuel uid : Nat) (disk : disk_t) :
    settings_save_all_loop control self max_uid fuel uid disk =
      (uid_loop max_uid fuel uid).map
        (List.foldl (fun d u => settings_save_user control self d u) disk) := by
  induction fuel generalizing uid disk with
  | zero => rfl
  | succ n ih =>
    unfold settings_save_all_loop uid_loop
    by_cases h : uid ≤ max_uid
    · rw [if_pos h, if_pos h, ih, Option.map_map]
      rfl
    · rw [if_neg h, if_neg h]
      rfl

theorem set_granted_quiet (a : Option appinfo_t) (self : appsettings_t)
    (S : Option stringset_t) (app : String) :
    effect_t.control_on_settings_change app ∉ (appsettings_set_granted false a self S).2 := by
  rw [set_granted_snd]
  split
  · exact List.not_mem_nil _
  · simp [appsettings_notify_change]

theorem appsettings_decode_quiet (a : Option appinfo_t) (self : appsettings_t)
    (file : GKeyFile) (app : String) :
    effect_t.control_on_settings_change app ∉ (appsettings_decode false a self file).2 := by
  unfold appsettings_decode
  exact set_granted_quiet _ _ _ _

theorem usersettings_load_groups_quiet (control : control_t) (file : GKeyFile)
    (names : List String) (self : usersettings_t) (app : String) :
    effect_t.control_on_settings_change app ∉
      (usersettings_load_groups control false file names self).2 := by
  induction names generalizing self with
  | nil => exact List.not_mem_nil _
  | cons name rest ih =>
    unfold usersettings_load_groups
    split
    · simp only [List.mem_append, not_or]
      exact ⟨appsettings_decode_quiet _ _ _ _, ih _⟩
    · exact ih _

theorem foldl_settings_perform_initialized (fx : List effect_t) (self : settings_t) :
    (List.foldl settings_perform self fx).stt_initialized = self.stt_initialized := by
  induction fx generalizing self with
  | nil => rfl
  | cons e rest ih =>
    rw [List.foldl_cons, ih]
    cases e with
    | control_on_settings_change appname => rfl
    | settings_save_later uid =>
      simp only [settings_perform, settings_save_later]
      split <;> rfl

theorem foldl_settings_perform_quiet (fx : List effect_t) (self : settings_t)
    (h : ∀ app : String, effect_t.control_on_settings_change app ∉ fx) :
    (List.foldl settings_perform self fx).control_changes = self.control_changes := by
  induction fx generalizing self with
  | nil => rfl
  | cons e rest ih =>
    rw [List.foldl_cons, ih _ (fun app hm => h app (List.mem_cons_of_mem _ hm))]
    cases e with
    | control_on_settings_change appname => exact absurd (List.mem_cons_self _ _) (h appname)
    | settings_save_later uid =>
      simp only [settings_perform, settings_save_later]
      split <;> rfl

theorem settings_add_usersettings_frame (self : settings_t) (uid : Nat) :
    (settings_add_usersettings self uid).2.stt_initialized = self.stt_initialized ∧
    (settings_add_usersettings self uid).2.control_changes = self.control_changes := by
  unfold settings_add_usersettings
  split <;> exact ⟨rfl, rfl⟩

theorem settings_load_user_quiet (control : control_t) (self : settings_t) (disk : disk_t)
    (uid : Nat) (h : self.stt_initialized = false) :
    (settings_load_user control self disk uid).stt_initialized = false ∧
    (settings_load_user control self disk uid).control_changes = self.control_changes := by
  unfold settings_load_user
  split
  · obtain ⟨hi, hc⟩ := settings_add_usersettings_frame self uid
    simp only [settings_initialized]
    rw [foldl_settings_perform_initialized, foldl_settings_perform_quiet]
    · exact ⟨hi.trans h, hc⟩
    · intro app
      rw [hi, h]
      unfold usersettings_load
      exact usersettings_load_groups_quiet _ _ _ _ _
  · exact ⟨h, rfl⟩

theorem foldl_settings_load_user_quiet (control : control_t) (disk : disk_t)
    (uids : List Nat) (self : settings_t) (h : self.stt_initialized = false) :
    (List.foldl (fun s u => settings_load_user control s disk u) self uids).stt_initialized
      = false ∧
    (List.foldl (fun s u => settings_load_user control s disk u) self uids).control_changes
      = self.control_changes := by
  induction uids generalizing self with
  | nil => exact ⟨h, rfl⟩
  | cons u rest ih =>
    rw [List.foldl_cons]
    obtain ⟨hi, hc⟩ := settings_load_user_quiet control self disk u h
    obtain ⟨hi2, hc2⟩ := ih _ hi
    exact ⟨hi2, hc2.trans hc⟩

/-! ## The claims -/

/-- C1 (invariant I2): in every state of a settings record reached from `appsettings_create`
by any sequence of `set_allowed`, `set_agreed`, `set_granted`, `decode` and `rethink` calls,
each with any application record, a record whose `allowed` is not ALWAYS has an empty
`granted`; in particular `granted` is empty after `set_allowed` of UNSET or of NEVER. -/
theorem appsettings_granted_empty_unless_always (uid : Nat) (appname : String)
    (ops : List settings_op_t) :
    ((appsettings_reach uid appname ops).ast_allowed ≠ APP_ALLOWED_ALWAYS →
      (appsettings_reach uid appname ops).ast_granted = ∅) ∧
    (∀ (i : Bool) (a : Option appinfo_t) (x : Int),
      x = APP_ALLOWED_UNSET ∨ x = APP_ALLOWED_NEVER →
      (appsettings_set_allowed i a (appsettings_reach uid appname ops) x).1.ast_granted = ∅) := by
  refine ⟨reach_I2 uid appname ops, ?_⟩
  intro i a x hx
  have hreach : appsettings_reach uid appname (ops ++ [settings_op_t.set_allowed i a x]) =
      (appsettings_set_allowed i a (appsettings_reach uid appname ops) x).1 := by
    simp [appsettings_reach, List.foldl_append, settings_op_t.run]
  have hI := reach_I2 uid appname (ops ++ [settings_op_t.set_allowed i a x])
  rw [hreach] at hI
  apply hI
  have hnorm : (if to_unsigned x ≥ APP_ALLOWED_COUNT then APP_ALLOWED_UNSET else x) = x := by
    rcases hx with rfl | rfl <;> decide
  have hx1 : x ≠ APP_ALLOWED_ALWAYS := by
    rcases hx with rfl | rfl <;> decide
  rw [set_allowed_fst, hnorm]
  split
  · rw [set_granted_fst]
    exact hx1
  · rename_i h
    simp only [ne_eq, not_not] at h
    rw [h]
    exact hx1

/-- C3 (postcondition of `appsettings_set_granted`): for every record and every argument `S`
(`none` being the `NULL` argument, read as the empty set), afterwards `granted` is
`S ∩ masked(app)` when `allowed` is ALWAYS and the application record exists and is VALID, and
the empty set otherwise; `allowed` and `agreed` (and the identity of the record) are unchanged. -/
theorem appsettings_set_granted_post (i : Bool) (a : Option appinfo_t) (self : appsettings_t)
    (S : Option stringset_t) :
    (appsettings_set_granted i a self S).1.ast_granted =
      (match a with
       | some app =>
         if self.ast_allowed = APP_ALLOWED_ALWAYS ∧ appinfo_valid (some app) = true then
           S.getD ∅ ∩ appinfo_get_permissions app
         else ∅
       | none => ∅) ∧
    (appsettings_set_granted i a self S).1.ast_allowed = self.ast_allowed ∧
    (appsettings_set_granted i a self S).1.ast_agreed = self.ast_agreed ∧
    (appsettings_set_granted i a self S).1.ast_uid = self.ast_uid ∧
    (appsettings_set_granted i a self S).1.ast_appname = self.ast_appname := by
  rw [set_granted_fst]
  refine ⟨?_, rfl, rfl, rfl, rfl⟩
  cases a with
  | none => rfl
  | some app => simp [set_granted_value, appinfo_valid_some, appinfo_get_permissions]

/-- C4 (amended): for every settings record of a VALID application whose `allowed` is not yet
ALWAYS, after `appsettings_set_allowed(ALWAYS)` `allowed` is ALWAYS and `granted` equals the
application's current masked set, whatever `granted` was before; when `allowed` is already
ALWAYS the call changes nothing and makes no call to the outside. -/
theorem appsettings_set_allowed_always (i : Bool) (app : appinfo_t) (self : appsettings_t)
    (hvalid : appinfo_valid (some app) = true) :
    (self.ast_allowed ≠ APP_ALLOWED_ALWAYS →
      (appsettings_set_allowed i (some app) self APP_ALLOWED_ALWAYS).1.ast_granted =
        appinfo_get_permissions app ∧
      (appsettings_set_allowed i (some app) self APP_ALLOWED_ALWAYS).1.ast_allowed =
        APP_ALLOWED_ALWAYS) ∧
    (self.ast_allowed = APP_ALLOWED_ALWAYS →
      appsettings_set_allowed i (some app) self APP_ALLOWED_ALWAYS = (self, [])) := by
  have hnorm : (if to_unsigned APP_ALLOWED_ALWAYS ≥ APP_ALLOWED_COUNT then APP_ALLOWED_UNSET
      else APP_ALLOWED_ALWAYS) = APP_ALLOWED_ALWAYS := by decide
  rw [appinfo_valid_some, decide_eq_true_eq] at hvalid
  constructor
  · intro h
    rw [set_allowed_fst, hnorm, if_pos h, set_granted_fst]
    simp [set_granted_value, hvalid, appinfo_get_permissions]
  · intro h
    unfold appsettings_set_allowed
    simp only [hnorm]
    rw [if_neg (fun hne => hne h)]

/-- C4, at a concrete input: the record of uid 1000 for the application of scenario S1, first
denied (NEVER) and then allowed ALWAYS, is granted the masked set Phone, Contacts. -/
theorem appsettings_set_allowed_always_witness :
    (appsettings_set_allowed true (some S1_appinfo)
        (appsettings_reach 1000 "voicecall-ui"
          [settings_op_t.set_allowed true (some S1_appinfo) APP_ALLOWED_NEVER])
        APP_ALLOWED_ALWAYS).1.ast_granted = {"Phone", "Contacts"} :=
  ((appsettings_set_allowed_always true S1_appinfo
      (appsettings_reach 1000 "voicecall-ui"
        [settings_op_t.set_allowed true (some S1_appinfo) APP_ALLOWED_NEVER])
      (by decide)).1 (by decide)).1.trans (by decide)

/-- C4 as stated fails: a record of the VALID application of scenario S1 that is already
allowed ALWAYS and was granted only Phone keeps that grant under `set_allowed(ALWAYS)`; it does
not become the masked set Phone, Contacts. -/
theorem appsettings_set_allowed_always_counterexample :
    appinfo_valid (some S1_appinfo) = true ∧
    appinfo_get_permissions S1_appinfo = {"Phone", "Contacts"} ∧
    (appsettings_set_allowed true (some S1_appinfo)
        (appsettings_reach 1000 "voicecall-ui"
          [settings_op_t.set_allowed true (some S1_appinfo) APP_ALLOWED_ALWAYS,
           settings_op_t.set_granted true (some S1_appinfo) (some {"Phone"})])
        APP_ALLOWED_ALWAYS).1.ast_granted = {"Phone"} ∧
    ¬ (appsettings_set_allowed true (some S1_appinfo)
        (appsettings_reach 1000 "voicecall-ui"
          [settings_op_t.set_allowed true (some S1_appinfo) APP_ALLOWED_ALWAYS,
           settings_op_t.set_granted true (some S1_appinfo) (some {"Phone"})])
        APP_ALLOWED_ALWAYS).1.ast_granted = appinfo_get_permissions S1_appinfo := by
  decide

/-- C10 (idempotence of `appsettings_set_granted`): for every record, application record and
argument `S`, a second `appsettings_set_granted` against the same application record, called
with the `granted` set the first call left or with `S` again, returns the record exactly as
the first call left it and makes no call to the outside (no change notification, no save
request), whatever the store's `initialized` flag is at either call. -/
theorem appsettings_set_granted_idempotent (i j : Bool) (a : Option appinfo_t)
    (self : appsettings_t) (S : Option stringset_t) :
    appsettings_set_granted j a (appsettings_set_granted i a self S).1
        (some (appsettings_set_granted i a self S).1.ast_granted) =
      ((appsettings_set_granted i a self S).1, []) ∧
    appsettings_set_granted j a (appsettings_set_granted i a self S).1 S =
      ((appsettings_set_granted i a self S).1, []) := by
  have key : ∀ T : Option stringset_t,
      set_granted_value a { self with ast_granted := set_granted_value a self S } T =
        set_granted_value a self T := fun T => by
    cases a <;> rfl
  have hval : set_granted_value a self (some (set_granted_value a self S)) =
      set_granted_value a self S := by
    cases a with
    | none => rfl
    | some app =>
      simp only [set_granted_value, Option.getD_some]
      split <;> simp
  constructor
  · apply Prod.ext
    · rw [set_granted_fst, set_granted_fst]
      simp only [key, hval]
    · rw [set_granted_snd, set_granted_fst]
      simp only [key, hval, if_true]
  · apply Prod.ext
    · rw [set_granted_fst, set_granted_fst]
      simp only [key]
    · rw [set_granted_snd, set_granted_fst]
      simp only [key, if_true]

/-- C1, at a concrete input: a record that was allowed ALWAYS, granted Phone and then set to
NEVER grants nothing. -/
theorem appsettings_granted_empty_unless_always_witness :
    (appsettings_reach 1000 "voicecall-ui"
      [settings_op_t.set_allowed true (some S1_appinfo) APP_ALLOWED_ALWAYS,
       settings_op_t.set_granted true (some S1_appinfo) (some {"Phone"}),
       settings_op_t.set_allowed true (some S1_appinfo) APP_ALLOWED_NEVER]).ast_granted = ∅ :=
  (appsettings_granted_empty_unless_always 1000 "voicecall-ui"
      [settings_op_t.set_allowed true (some S1_appinfo) APP_ALLOWED_ALWAYS,
       settings_op_t.set_granted true (some S1_appinfo) (some {"Phone"}),
       settings_op_t.set_allowed true (some S1_appinfo) APP_ALLOWED_NEVER]).1 (by decide)

/-- C5 (validity of an application record): whenever `appinfo_parse_desktop` loads the
manifest (stat succeeds, the ctime differs from the cached one, the file is readable and loads
as a key file), the state afterwards is VALID if and only if the `Desktop Entry` section
provides all three of `Name`, `Type` and `Exec`, and it is INVALID otherwise; in particular a
manifest without `Exec` yields INVALID. -/
theorem appinfo_parse_desktop_valid_iff (mask : stringset_t) (fs : desktop_file_t)
    (self : appinfo_t) (c : Int) (ini : GKeyFile) (hstat : fs.stat = stat_result_t.ok c)
    (hctime : self.anf_dt_ctime ≠ c) (haccess : fs.access_r_ok = true)
    (hload : fs.keyfile = some ini) :
    ((appinfo_parse_desktop mask fs self).2.anf_state = APPINFO_STATE_VALID ↔
      keyfile_get_string ini DESKTOP_SECTION DESKTOP_KEY_NAME none ≠ none ∧
      keyfile_get_string ini DESKTOP_SECTION DESKTOP_KEY_TYPE none ≠ none ∧
      keyfile_get_string ini DESKTOP_SECTION DESKTOP_KEY_EXEC none ≠ none) ∧
    ((appinfo_parse_desktop mask fs self).2.anf_state ≠ APPINFO_STATE_VALID →
      (appinfo_parse_desktop mask fs self).2.anf_state = APPINFO_STATE_INVALID) ∧
    (keyfile_get_string ini DESKTOP_SECTION DESKTOP_KEY_EXEC none = none →
      (appinfo_parse_desktop mask fs self).2.anf_state = APPINFO_STATE_INVALID) := by
  rw [appinfo_parse_desktop_loaded mask fs self c ini hstat hctime haccess hload,
    appinfo_parse_keyfile_eq]
  simp only [appinfo_clear_dirty, desktop_state, Option.isSome_iff_ne_none]
  refine ⟨?_, ?_, ?_⟩
  · split <;> simp_all
  · split <;> simp_all
  · intro h
    rw [if_neg (fun hh => hh.2.2 h)]

/-- C5, at concrete inputs: the first parse of the manifest of scenario S1 gives a VALID
record, that of the same manifest without its `Exec` line (B2) an INVALID one. -/
theorem appinfo_parse_desktop_valid_iff_witness :
    (appinfo_parse_desktop S1_mask S1_desktop (appinfo_create "voicecall-ui")).2.anf_state =
      APPINFO_STATE_VALID ∧
    (appinfo_parse_desktop S1_mask B2_desktop (appinfo_create "voicecall-ui")).2.anf_state =
      APPINFO_STATE_INVALID :=
  ⟨(appinfo_parse_desktop_valid_iff S1_mask S1_desktop (appinfo_create "voicecall-ui")
      1600000000 S1_keyfile rfl (by decide) rfl rfl).1.2 (by decide),
   (appinfo_parse_desktop_valid_iff S1_mask B2_desktop (appinfo_create "voicecall-ui")
      1600000000 B2_keyfile rfl (by decide) rfl rfl).2.2 (by decide)⟩

/-- C6 (loader failure classification, amended): `appinfo_parse_desktop` leaves the state
DELETED when stat fails with ENOENT and INVALID when stat fails with another error; when stat
succeeds with a ctime other than the cached one it leaves the state INVALID when the file is
not readable and when the key file cannot be loaded; when stat succeeds with the cached ctime
it neither checks readability nor loads the file and keeps the state, whatever the file is
like. The state after a call is DELETED only if stat failed with ENOENT in that call or the
record was DELETED already and the call kept it (same ctime). The call always returns its
change flag, which in the failure cases tells whether the record was dirty or its state
changed. -/
theorem appinfo_parse_desktop_failure_states (mask : stringset_t) (fs : desktop_file_t)
    (self : appinfo_t) :
    (fs.stat = stat_result_t.failed ENOENT →
      appinfo_parse_desktop mask fs self =
        (self.anf_dirty || decide (self.anf_state ≠ APPINFO_STATE_DELETED),
         { self with anf_state := APPINFO_STATE_DELETED, anf_dirty := false })) ∧
    (∀ errno : Nat, errno ≠ ENOENT → fs.stat = stat_result_t.failed errno →
      appinfo_parse_desktop mask fs self =
        (self.anf_dirty || decide (self.anf_state ≠ APPINFO_STATE_INVALID),
         { self with anf_state := APPINFO_STATE_INVALID, anf_dirty := false })) ∧
    (∀ c : Int, fs.stat = stat_result_t.ok c → self.anf_dt_ctime ≠ c →
      (fs.access_r_ok = false ∨ fs.keyfile = none) →
      appinfo_parse_desktop mask fs self =
        (self.anf_dirty || decide (self.anf_state ≠ APPINFO_STATE_INVALID),
         { self with
           anf_state := APPINFO_STATE_INVALID, anf_dt_ctime := c, anf_dirty := false })) ∧
    ((appinfo_parse_desktop mask fs self).2.anf_state = APPINFO_STATE_DELETED ↔
      fs.stat = stat_result_t.failed ENOENT ∨
      (self.anf_state = APPINFO_STATE_DELETED ∧ fs.stat = stat_result_t.ok self.anf_dt_ctime)) ∧
    (fs.stat = stat_result_t.ok self.anf_dt_ctime →
      appinfo_parse_desktop mask fs self =
        (self.anf_dirty, { self with anf_dirty := false }) ∧
      (appinfo_parse_desktop mask fs self).2.anf_state = self.anf_state) := by
  refine ⟨?_, ?_, ?_, ?_, ?_⟩
  rotate_right
  · intro h
    have he : appinfo_parse_desktop mask fs self =
        (self.anf_dirty, { self with anf_dirty := false }) := by
      simp [appinfo_parse_desktop, h, appinfo_clear_dirty]
    exact ⟨he, by rw [he]⟩
  · intro h
    simp [appinfo_parse_desktop, h, appinfo_set_state_eq, appinfo_clear_dirty]
  · intro errno hne h
    simp [appinfo_parse_desktop, h, hne, appinfo_set_state_eq, appinfo_clear_dirty]
  · intro c h hc hfail
    rcases hfail with ha | hk
    · simp [appinfo_parse_desktop, h, hc, ha, appinfo_set_state_eq, appinfo_clear_dirty]
    · cases hacc : fs.access_r_ok <;>
        simp [appinfo_parse_desktop, h, hc, hk, hacc, appinfo_set_state_eq, appinfo_clear_dirty]
  · unfold appinfo_parse_desktop
    cases hs : fs.stat with
    | failed errno =>
      by_cases he : errno = ENOENT
      · simp [he, appinfo_set_state_eq, appinfo_clear_dirty]
      · simp [he, appinfo_set_state_eq, appinfo_clear_dirty]
    | ok c =>
      by_cases hc : self.anf_dt_ctime = c
      · simp [hc, appinfo_clear_dirty]
      · have hc2 : ¬ c = self.anf_dt_ctime := fun e => hc e.symm
        cases hacc : fs.access_r_ok
        · simp [hc, hc2, appinfo_set_state_eq, appinfo_clear_dirty]
        · cases hk : fs.keyfile with
          | none => simp [hc, hc2, appinfo_set_state_eq, appinfo_clear_dirty]
          | some ini =>
            simp only [hc, if_false, Bool.not_true, Bool.false_eq_true, appinfo_parse_keyfile_eq,
              appinfo_clear_dirty, desktop_state]
            split <;> simp [hc2]

/-- C6, at concrete inputs: on the record of scenario S1, a stat failing with ENOENT gives
DELETED, one failing with EACCES (13) gives INVALID, and an unreadable changed file gives
INVALID. -/
theorem appinfo_parse_desktop_failure_states_witness :
    (appinfo_parse_desktop S1_mask
        { stat := stat_result_t.failed ENOENT, access_r_ok := false, keyfile := none }
        S1_appinfo).2.anf_state = APPINFO_STATE_DELETED ∧
    (appinfo_parse_desktop S1_mask
        { stat := stat_result_t.failed 13, access_r_ok := false, keyfile := none }
        S1_appinfo).2.anf_state = APPINFO_STATE_INVALID ∧
    (appinfo_parse_desktop S1_mask
        { stat := stat_result_t.ok 1600000001, access_r_ok := false, keyfile := none }
        S1_appinfo).2.anf_state = APPINFO_STATE_INVALID :=
  ⟨congrArg (fun r => r.2.anf_state)
      ((appinfo_parse_desktop_failure_states S1_mask
        { stat := stat_result_t.failed ENOENT, access_r_ok := false, keyfile := none }
        S1_appinfo).1 rfl),
   congrArg (fun r => r.2.anf_state)
      ((appinfo_parse_desktop_failure_states S1_mask
        { stat := stat_result_t.failed 13, access_r_ok := false, keyfile := none }
        S1_appinfo).2.1 13 (by decide) rfl),
   congrArg (fun r => r.2.anf_state)
      ((appinfo_parse_desktop_failure_states S1_mask
        { stat := stat_result_t.ok 1600000001, access_r_ok := false, keyfile := none }
        S1_appinfo).2.2.1 1600000001 rfl (by decide) (Or.inl rfl))⟩

/-- C6 as stated fails: the record of scenario S1 is VALID with the ctime of its manifest
cached; when stat still reports that ctime, a manifest that is not readable, and one that is
readable but does not load, both leave the record VALID, not INVALID, and the call returns
false. -/
theorem appinfo_parse_desktop_unreadable_counterexample :
    S1_appinfo.anf_state = APPINFO_STATE_VALID ∧
    S1_appinfo.anf_dt_ctime = 1600000000 ∧
    appinfo_parse_desktop S1_mask
      { stat := stat_result_t.ok 1600000000, access_r_ok := false, keyfile := none }
      S1_appinfo = (false, S1_appinfo) ∧
    (appinfo_parse_desktop S1_mask
      { stat := stat_result_t.ok 1600000000, access_r_ok := false, keyfile := none }
      S1_appinfo).2.anf_state ≠ APPINFO_STATE_INVALID ∧
    appinfo_parse_desktop S1_mask
      { stat := stat_result_t.ok 1600000000, access_r_ok := true, keyfile := none }
      S1_appinfo = (false, S1_appinfo) ∧
    (appinfo_parse_desktop S1_mask
      { stat := stat_result_t.ok 1600000000, access_r_ok := true, keyfile := none }
      S1_appinfo).2.anf_state ≠ APPINFO_STATE_INVALID := by
  decide

/-- C7 (mask pass on one record): for every application record and mask,
`appinfo_evaluate_permissions` makes the masked set `requested ∩ mask` and changes nothing
else (so `requested` is unchanged), and it returns true if and only if the masked set after the
call differs from the one before. With Phone, Contacts, Bluetooth requested and the mask
Phone, Contacts, Camera, Base the masked set becomes Phone, Contacts. -/
theorem appinfo_evaluate_permissions_post (mask : stringset_t) (self : appinfo_t) :
    (appinfo_evaluate_permissions mask self).2 =
      { self with anf_sj_permissions_out := self.anf_sj_permissions_in ∩ mask } ∧
    (appinfo_evaluate_permissions mask self).2.anf_sj_permissions_in =
      self.anf_sj_permissions_in ∧
    ((appinfo_evaluate_permissions mask self).1 = true ↔
      (appinfo_evaluate_permissions mask self).2.anf_sj_permissions_out ≠
        self.anf_sj_permissions_out) ∧
    (self.anf_sj_permissions_in = {"Phone", "Contacts", "Bluetooth"} →
      (appinfo_evaluate_permissions {"Phone", "Contacts", "Camera", "Base"}
        self).2.anf_sj_permissions_out = {"Phone", "Contacts"}) := by
  refine ⟨?_, ?_, ?_, ?_⟩
  · rw [appinfo_evaluate_permissions_eq]
  · rw [appinfo_evaluate_permissions_eq]
  · rw [appinfo_evaluate_permissions_eq]
    simp only [decide_eq_true_eq]
    exact ⟨fun h e => h e.symm, fun h e => h e.symm⟩
  · intro h
    rw [appinfo_evaluate_permissions_eq]
    simp only [h]
    decide

/-- C7, at a concrete input: re-evaluating the record of scenario S1 after `Contacts` left
the mask reports a change and leaves Phone as the masked set. -/
theorem appinfo_evaluate_permissions_post_witness :
    (appinfo_evaluate_permissions {"Phone", "Camera", "Base"} S1_appinfo).1 = true ∧
    (appinfo_evaluate_permissions {"Phone", "Camera", "Base"}
      S1_appinfo).2.anf_sj_permissions_out = {"Phone"} :=
  ⟨(appinfo_evaluate_permissions_post {"Phone", "Camera", "Base"} S1_appinfo).2.2.1.mpr
      (by decide),
   by decide⟩

/-- C8 (amended): for a fixed mask, after `appinfo_create`, `appinfo_set_permissions` and
`appinfo_evaluate_permissions` the masked set equals `filter_in(requested, mask)`; after
`appinfo_clear_permissions` the masked set is empty while `requested` is kept, and the next
`appinfo_evaluate_permissions` makes it `filter_in(requested, mask)` again. -/
theorem appinfo_masked_after_permission_ops (mask : stringset_t) (id : String)
    (self : appinfo_t) (perms : stringset_t) :
    (appinfo_create id).anf_sj_permissions_out =
      stringset_filter_in (appinfo_create id).anf_sj_permissions_in mask ∧
    (appinfo_set_permissions mask self perms).anf_sj_permissions_out =
      stringset_filter_in (appinfo_set_permissions mask self perms).anf_sj_permissions_in mask ∧
    (appinfo_set_permissions mask self perms).anf_sj_permissions_in = perms ∧
    (appinfo_evaluate_permissions mask self).2.anf_sj_permissions_out =
      stringset_filter_in (appinfo_evaluate_permissions mask self).2.anf_sj_permissions_in mask ∧
    (appinfo_clear_permissions self).anf_sj_permissions_out = ∅ ∧
    (appinfo_clear_permissions self).anf_sj_permissions_in = self.anf_sj_permissions_in ∧
    (appinfo_evaluate_permissions mask
      (appinfo_clear_permissions self)).2.anf_sj_permissions_out =
      stringset_filter_in self.anf_sj_permissions_in mask := by
  refine ⟨?_, ?_, ?_, ?_, ?_, ?_, ?_⟩
  · simp [appinfo_create, stringset_create, stringset_filter_in]
  · rw [appinfo_set_permissions_eq]; rfl
  · rw [appinfo_set_permissions_eq]
  · rw [appinfo_evaluate_permissions_eq]; rfl
  · rw [appinfo_clear_permissions_eq]
  · rw [appinfo_clear_permissions_eq]
  · rw [appinfo_evaluate_permissions_eq, appinfo_clear_permissions_eq]; rfl

/-- C8 as stated fails: after `appinfo_clear_permissions` on the record of scenario S1 the
masked set is empty, while `filter_in(requested, mask)` is still Phone, Contacts. -/
theorem appinfo_clear_permissions_counterexample :
    (appinfo_clear_permissions S1_appinfo).anf_sj_permissions_out = ∅ ∧
    stringset_filter_in (appinfo_clear_permissions S1_appinfo).anf_sj_permissions_in S1_mask =
      {"Phone", "Contacts"} ∧
    (appinfo_clear_permissions S1_appinfo).anf_sj_permissions_out ≠
      stringset_filter_in (appinfo_clear_permissions S1_appinfo).anf_sj_permissions_in
        S1_mask := by
  decide

/-- C2 (amended): in every state reached by any interleaving of the application-record calls
and the settings calls, `masked ⊆ requested`; `granted ⊆ masked ⊆ requested` holds in every
state in which, since the last application-record call, `appsettings_set_granted`,
`appsettings_decode` or `appsettings_rethink` has run (followed by any settings calls), and
every settings call keeps `granted ⊆ masked ⊆ requested` once it holds. -/
theorem pair_masking_invariant (uid : Nat) (appname : String) (ops : List pair_op_t) :
    (pair_reach uid appname ops).appinfo.anf_sj_permissions_out ⊆
      (pair_reach uid appname ops).appinfo.anf_sj_permissions_in ∧
    (∀ (op : pair_op_t) (rest : List pair_op_t), op.remasks = true →
      (∀ o ∈ rest, pair_op_t.on_settings o = true) →
      (pair_reach uid appname (ops ++ op :: rest)).I1) ∧
    (∀ op : pair_op_t, op.on_settings = true → (pair_reach uid appname ops).I1 →
      (pair_reach uid appname (ops ++ [op])).I1) := by
  have hreq : ∀ l : List pair_op_t,
      (pair_reach uid appname l).appinfo.anf_sj_permissions_out ⊆
        (pair_reach uid appname l).appinfo.anf_sj_permissions_in := fun l =>
    pair_foldl_masked_subset l _ (by simp [appinfo_create])
  refine ⟨hreq ops, ?_, ?_⟩
  · intro op rest hop hrest
    refine ⟨?_, hreq _⟩
    simp only [pair_reach, List.foldl_append, List.foldl_cons]
    exact pair_foldl_settings_granted_subset rest _ hrest (pair_op_remask _ op hop)
  · intro op hop hI
    refine ⟨?_, hreq _⟩
    simp only [pair_reach, List.foldl_append, List.foldl_cons, List.foldl_nil]
    exact pair_op_settings_granted_subset _ op hop hI.1

/-- C2 (amended), at a concrete input: in scenario S2 the settings mask pass after the mask
pass restores `granted ⊆ masked ⊆ requested`. -/
theorem pair_masking_invariant_witness :
    (pair_reach 1000 "voicecall-ui"
      ([pair_op_t.appinfo_parse_desktop S1_mask S1_desktop,
        pair_op_t.set_allowed true APP_ALLOWED_ALWAYS,
        pair_op_t.appinfo_evaluate_permissions {"Phone", "Camera", "Base"}] ++
       pair_op_t.rethink true :: [pair_op_t.set_agreed true APP_AGREED_YES])).I1 :=
  (pair_masking_invariant 1000 "voicecall-ui"
      [pair_op_t.appinfo_parse_desktop S1_mask S1_desktop,
       pair_op_t.set_allowed true APP_ALLOWED_ALWAYS,
       pair_op_t.appinfo_evaluate_permissions {"Phone", "Camera", "Base"}]).2.1
    (pair_op_t.rethink true) [pair_op_t.set_agreed true APP_AGREED_YES] rfl (by decide)

/-- C2 as stated fails: in scenario S2, after the manifest is parsed, the user allows the
application and `Contacts` leaves the mask, the record is re-evaluated to the masked set Phone
while the user's grant is still Phone, Contacts: `granted ⊆ masked` does not hold in that
state. -/
theorem pair_masking_invariant_counterexample :
    (pair_reach 1000 "voicecall-ui"
      [pair_op_t.appinfo_parse_desktop S1_mask S1_desktop,
       pair_op_t.set_allowed true APP_ALLOWED_ALWAYS,
       pair_op_t.appinfo_evaluate_permissions {"Phone", "Camera", "Base"}]
      ).appsettings.ast_granted = {"Phone", "Contacts"} ∧
    (pair_reach 1000 "voicecall-ui"
      [pair_op_t.appinfo_parse_desktop S1_mask S1_desktop,
       pair_op_t.set_allowed true APP_ALLOWED_ALWAYS,
       pair_op_t.appinfo_evaluate_permissions {"Phone", "Camera", "Base"}]
      ).appinfo.anf_sj_permissions_out = {"Phone"} ∧
    ¬ (pair_reach 1000 "voicecall-ui"
      [pair_op_t.appinfo_parse_desktop S1_mask S1_desktop,
       pair_op_t.set_allowed true APP_ALLOWED_ALWAYS,
       pair_op_t.appinfo_evaluate_permissions {"Phone", "Camera", "Base"}]).I1 := by
  decide

/-- C9 (settings mask pass): `appsettings_rethink` replaces `granted` by
`granted ∩ masked(app)` when `allowed` is ALWAYS and the application is VALID and by the empty
set otherwise, and changes nothing else; when this changed `granted` the record makes exactly
one `appsettings_notify_change` (on an initialised store: one `control_on_settings_change` for
the application and one `settings_save_later` for the uid), and it makes no call when
`granted` did not change. After `settings_rethink` every record of the store has
`granted ⊆ masked`, and a record that loses a granted item to a shrunken mask makes exactly
one notification. -/
theorem appsettings_rethink_post (i : Bool) (a : Option appinfo_t) (self : appsettings_t) :
    (appsettings_rethink i a self).1 =
      { self with ast_granted :=
          match a with
          | some app =>
            if self.ast_allowed = APP_ALLOWED_ALWAYS ∧ appinfo_valid (some app) = true then
              self.ast_granted ∩ appinfo_get_permissions app
            else ∅
          | none => ∅ } ∧
    (appsettings_rethink i a self).2 =
      (if (appsettings_rethink i a self).1.ast_granted = self.ast_granted then []
       else
        (if i then [effect_t.control_on_settings_change self.ast_appname] else []) ++
          [effect_t.settings_save_later self.ast_uid]) ∧
    (appsettings_rethink true a self).2 =
      (if (appsettings_rethink true a self).1.ast_granted = self.ast_granted then []
       else
        [effect_t.control_on_settings_change self.ast_appname,
         effect_t.settings_save_later self.ast_uid]) ∧
    (∀ (control_appinfo : String → Option appinfo_t) (settings : settings_t) (uid : Nat)
        (usersettings : usersettings_t) (key : String) (r : appsettings_t),
      (uid, usersettings) ∈ (settings_rethink control_appinfo settings).stt_users →
      (key, r) ∈ usersettings.ust_apps →
      r.ast_granted ⊆ masked_of (control_appinfo r.ast_appname)) ∧
    (∀ (app : appinfo_t) (x : String), a = some app → appinfo_valid (some app) = true →
      self.ast_allowed = APP_ALLOWED_ALWAYS → x ∈ self.ast_granted →
      x ∉ appinfo_get_permissions app →
      x ∉ (appsettings_rethink true a self).1.ast_granted ∧
      (appsettings_rethink true a self).2 =
        [effect_t.control_on_settings_change self.ast_appname,
         effect_t.settings_save_later self.ast_uid]) := by
  have hfst : ∀ j : Bool, (appsettings_rethink j a self).1 =
      { self with ast_granted := set_granted_value a self (some self.ast_granted) } :=
    fun j => set_granted_fst j a self _
  have hsnd : ∀ j : Bool, (appsettings_rethink j a self).2 =
      (if (appsettings_rethink j a self).1.ast_granted = self.ast_granted then []
       else
        (if j then [effect_t.control_on_settings_change self.ast_appname] else []) ++
          [effect_t.settings_save_later self.ast_uid]) := by
    intro j
    rw [hfst j]
    exact set_granted_snd j a self _
  refine ⟨?_, hsnd i, ?_, ?_, ?_⟩
  · rw [hfst i]
    cases a with
    | none => rfl
    | some app => simp [set_granted_value, appinfo_valid_some, appinfo_get_permissions]
  · rw [hsnd true]; rfl
  · intro ca st uid us key r hu hr
    unfold settings_rethink at hu
    simp only [foldl_settings_perform_users] at hu
    exact settings_rethink_users_subset _ ca st.stt_users uid us key r hu hr
  · intro app x ha hv hal hx hnx
    have hsub : (appsettings_rethink true a self).1.ast_granted ⊆ masked_of a := by
      rw [hfst true]
      exact set_granted_value_subset a self _
    have hnot : x ∉ (appsettings_rethink true a self).1.ast_granted := by
      intro hmem
      have := hsub hmem
      rw [ha] at this
      exact hnx this
    refine ⟨hnot, ?_⟩
    rw [hsnd true, if_neg]
    · rfl
    · intro heq
      rw [heq] at hnot
      exact hnot hx

/-- C9, at a concrete input (scenario S2 and boundary case B3): when `Contacts` has left the
mask, rethinking the record of user 1000 leaves Phone granted and makes one change
notification and one save request; on the store, `settings_rethink` forwards one change to
Control, marks uid 1000 dirty and arms the one 1000 ms timer. -/
theorem appsettings_rethink_post_witness :
    ("Contacts" ∉ (appsettings_rethink true (some S2_appinfo)
        (appsettings_set_allowed true (some S1_appinfo)
          (appsettings_create 1000 "voicecall-ui") APP_ALLOWED_ALWAYS).1).1.ast_granted ∧
      (appsettings_rethink true (some S2_appinfo)
        (appsettings_set_allowed true (some S1_appinfo)
          (appsettings_create 1000 "voicecall-ui") APP_ALLOWED_ALWAYS).1).2 =
        [effect_t.control_on_settings_change "voicecall-ui",
         effect_t.settings_save_later 1000]) ∧
    settings_rethink S2_control_appinfo S2_settings =
      { stt_initialized := true
        stt_save_id := 1
        stt_users :=
          [(1000,
            { ust_uid := 1000
              ust_apps :=
                [("voicecall-ui",
                  { ast_uid := 1000
                    ast_appname := "voicecall-ui"
                    ast_allowed := APP_ALLOWED_ALWAYS
                    ast_agreed := APP_AGREED_UNSET
                    ast_granted := {"Phone"} })] })]
        stt_user_changes := [1000]
        loop := { last_id := 1, sources := [(1, 1000)] }
        control_changes := ["voicecall-ui"] } :=
  ⟨(appsettings_rethink_post true (some S2_appinfo)
      (appsettings_set_allowed true (some S1_appinfo)
        (appsettings_create 1000 "voicecall-ui") APP_ALLOWED_ALWAYS).1).2.2.2.2
      S2_appinfo "Contacts" rfl (by decide) (by decide) (by decide) (by decide),
   by decide⟩

/-- C11 (load masks persisted grants): `appsettings_decode` makes `allowed` and `agreed` the
`Allowed` and `Agreed` integers of the record's group (UNSET when the key is missing) and
`granted` the `Granted` list of the group intersected with the application's masked set when
`Allowed` is ALWAYS and the application is VALID, the empty set otherwise; an
`appsettings_encode` of the decoded record writes these three values, so the `Granted` it
writes is the masked set. -/
theorem appsettings_decode_post (i : Bool) (a : Option appinfo_t) (self : appsettings_t)
    (file out : GKeyFile) :
    (appsettings_decode i a self file).1.ast_allowed =
      keyfile_get_integer file self.ast_appname "Allowed" APP_ALLOWED_UNSET ∧
    (appsettings_decode i a self file).1.ast_agreed =
      keyfile_get_integer file self.ast_appname "Agreed" APP_AGREED_UNSET ∧
    (file.value self.ast_appname "Allowed" = none →
      (appsettings_decode i a self file).1.ast_allowed = APP_ALLOWED_UNSET) ∧
    (file.value self.ast_appname "Agreed" = none →
      (appsettings_decode i a self file).1.ast_agreed = APP_AGREED_UNSET) ∧
    (appsettings_decode i a self file).1.ast_granted =
      (match a with
       | some app =>
         if keyfile_get_integer file self.ast_appname "Allowed" APP_ALLOWED_UNSET =
              APP_ALLOWED_ALWAYS ∧ appinfo_valid (some app) = true then
           keyfile_get_stringset file self.ast_appname "Granted" ∩ appinfo_get_permissions app
         else ∅
       | none => ∅) ∧
    keyfile_get_integer (appsettings_encode (appsettings_decode i a self file).1 out)
        self.ast_appname "Allowed" APP_ALLOWED_UNSET =
      (appsettings_decode i a self file).1.ast_allowed ∧
    keyfile_get_integer (appsettings_encode (appsettings_decode i a self file).1 out)
        self.ast_appname "Agreed" APP_AGREED_UNSET =
      (appsettings_decode i a self file).1.ast_agreed ∧
    keyfile_get_stringset (appsettings_encode (appsettings_decode i a self file).1 out)
        self.ast_appname "Granted" =
      (appsettings_decode i a self file).1.ast_granted := by
  have hname : (appsettings_decode i a self file).1.ast_appname = self.ast_appname := by
    simp [appsettings_decode, set_granted_fst]
  have henc := appsettings_encode_values (appsettings_decode i a self file).1 out
  rw [hname] at henc
  refine ⟨?_, ?_, ?_, ?_, ?_, ?_, ?_, ?_⟩
  · simp [appsettings_decode, set_granted_fst, appsettings_appname]
  · simp [appsettings_decode, set_granted_fst, appsettings_appname]
  · intro h
    simp [appsettings_decode, set_granted_fst, appsettings_appname, keyfile_get_integer, h]
  · intro h
    simp [appsettings_decode, set_granted_fst, appsettings_appname, keyfile_get_integer, h]
  · simp only [appsettings_decode, set_granted_fst, appsettings_appname]
    cases a with
    | none => rfl
    | some app => simp [set_granted_value, appinfo_valid_some, appinfo_get_permissions]
  · simp only [keyfile_get_integer, henc.1]
  · simp only [keyfile_get_integer, henc.2.1]
  · simp only [keyfile_get_stringset, henc.2.2, stringset_items_toFinset]

/-- C11, at the input of scenario S4: with `Allowed=1`, `Granted=Phone;Camera;` in the file
and the masked set Phone, the decoded record grants Phone and the next encode writes
`Granted=Phone;`. -/
theorem appsettings_decode_post_witness :
    (appsettings_decode false (some S2_appinfo) (appsettings_create 1000 "voicecall-ui")
      S4_settings_file).1 =
      { ast_uid := 1000
        ast_appname := "voicecall-ui"
        ast_allowed := APP_ALLOWED_ALWAYS
        ast_agreed := APP_AGREED_YES
        ast_granted := {"Phone"} } ∧
    appsettings_encode
      (appsettings_decode false (some S2_appinfo) (appsettings_create 1000 "voicecall-ui")
        S4_settings_file).1 g_key_file_new =
      { groups :=
          [("voicecall-ui",
            [("Allowed", .int 1), ("Agreed", .int 1), ("Granted", .list ["Phone"])])] } ∧
    keyfile_get_stringset
      (appsettings_encode
        (appsettings_decode false (some S2_appinfo) (appsettings_create 1000 "voicecall-ui")
          S4_settings_file).1 g_key_file_new) "voicecall-ui" "Granted" = {"Phone"} :=
  ⟨by decide, by decide,
   (appsettings_decode_post false (some S2_appinfo) (appsettings_create 1000 "voicecall-ui")
      S4_settings_file g_key_file_new).2.2.2.2.2.2.2.trans (by decide)⟩

/-- C14 (amended): in every state reached from `appsettings_create` through the setters,
`appsettings_decode` and `appsettings_rethink`, the set `appsettings_get_granted` reports is
empty whenever `allowed` is not ALWAYS; `agreed` has no part in it: `appsettings_set_agreed`
leaves the reported set as it is, whatever value is set. -/
theorem appsettings_get_granted_gate (uid : Nat) (appname : String)
    (ops : List settings_op_t) :
    (appsettings_get_allowed (appsettings_reach uid appname ops) ≠ APP_ALLOWED_ALWAYS →
      appsettings_get_granted (appsettings_reach uid appname ops) = ∅) ∧
    (∀ (i : Bool) (agreed : Int),
      appsettings_get_granted
          (appsettings_set_agreed i (appsettings_reach uid appname ops) agreed).1 =
        appsettings_get_granted (appsettings_reach uid appname ops)) := by
  refine ⟨reach_I2 uid appname ops, ?_⟩
  intro i agreed
  rw [set_agreed_fst]
  rfl

/-- C14, at a concrete input: a record allowed ALWAYS and then NEVER reports no grant. -/
theorem appsettings_get_granted_gate_witness :
    appsettings_get_granted
      (appsettings_reach 1000 "voicecall-ui"
        [settings_op_t.set_allowed true (some S1_appinfo) APP_ALLOWED_ALWAYS,
         settings_op_t.set_agreed true APP_AGREED_YES,
         settings_op_t.set_allowed true (some S1_appinfo) APP_ALLOWED_NEVER]) = ∅ :=
  (appsettings_get_granted_gate 1000 "voicecall-ui"
      [settings_op_t.set_allowed true (some S1_appinfo) APP_ALLOWED_ALWAYS,
       settings_op_t.set_agreed true APP_AGREED_YES,
       settings_op_t.set_allowed true (some S1_appinfo) APP_ALLOWED_NEVER]).1 (by decide)

/-- C14 as stated fails: after `set_allowed(ALWAYS)` alone the record of scenario S1 is not
agreed (`agreed` is UNSET), and after `set_agreed(NO)` it is refused, yet in both states the
reported grant is Phone, Contacts. -/
theorem appsettings_get_granted_gate_counterexample :
    appsettings_get_agreed
      (appsettings_reach 1000 "voicecall-ui"
        [settings_op_t.set_allowed true (some S1_appinfo) APP_ALLOWED_ALWAYS]) ≠
      APP_AGREED_YES ∧
    appsettings_get_granted
      (appsettings_reach 1000 "voicecall-ui"
        [settings_op_t.set_allowed true (some S1_appinfo) APP_ALLOWED_ALWAYS]) =
      {"Phone", "Contacts"} ∧
    appsettings_get_agreed
      (appsettings_reach 1000 "voicecall-ui"
        [settings_op_t.set_allowed true (some S1_appinfo) APP_ALLOWED_ALWAYS,
         settings_op_t.set_agreed true APP_AGREED_NO]) = APP_AGREED_NO ∧
    appsettings_get_granted
      (appsettings_reach 1000 "voicecall-ui"
        [settings_op_t.set_allowed true (some S1_appinfo) APP_ALLOWED_ALWAYS,
         settings_op_t.set_agreed true APP_AGREED_NO]) ≠ ∅ := by
  decide

/-- C15 (amended): `appinfo_parse_desktop` never changes a state into UNSET, and it keeps a
DELETED record DELETED exactly when stat fails with ENOENT again or stat succeeds with the
cached ctime. From every state, DELETED included, a stat failure other than ENOENT gives
INVALID and a manifest that loads with a new ctime gives VALID or INVALID by its `Name`,
`Type` and `Exec`. So the state changes parse makes are UNSET→{VALID, INVALID, DELETED},
VALID↔INVALID, {VALID, INVALID}→DELETED and DELETED→{VALID, INVALID}. -/
theorem appinfo_parse_desktop_transitions (mask : stringset_t) (fs : desktop_file_t)
    (self : appinfo_t) :
    ((appinfo_parse_desktop mask fs self).2.anf_state = APPINFO_STATE_UNSET →
      self.anf_state = APPINFO_STATE_UNSET ∧ fs.stat = stat_result_t.ok self.anf_dt_ctime) ∧
    (self.anf_state = APPINFO_STATE_DELETED →
      ((appinfo_parse_desktop mask fs self).2.anf_state = APPINFO_STATE_DELETED ↔
        fs.stat = stat_result_t.failed ENOENT ∨
        fs.stat = stat_result_t.ok self.anf_dt_ctime)) ∧
    (∀ errno : Nat, errno ≠ ENOENT → fs.stat = stat_result_t.failed errno →
      (appinfo_parse_desktop mask fs self).2.anf_state = APPINFO_STATE_INVALID) ∧
    (∀ (c : Int) (ini : GKeyFile), fs.stat = stat_result_t.ok c → self.anf_dt_ctime ≠ c →
      fs.access_r_ok = true → fs.keyfile = some ini →
      (appinfo_parse_desktop mask fs self).2.anf_state =
        (if keyfile_get_string ini DESKTOP_SECTION DESKTOP_KEY_NAME none ≠ none ∧
            keyfile_get_string ini DESKTOP_SECTION DESKTOP_KEY_TYPE none ≠ none ∧
            keyfile_get_string ini DESKTOP_SECTION DESKTOP_KEY_EXEC none ≠ none then
          APPINFO_STATE_VALID
        else APPINFO_STATE_INVALID)) := by
  have hds : ∀ ini : GKeyFile, desktop_state ini ≠ APPINFO_STATE_UNSET ∧
      desktop_state ini ≠ APPINFO_STATE_DELETED := by
    intro ini
    unfold desktop_state
    split <;> simp
  rw [appinfo_parse_desktop_state]
  refine ⟨?_, ?_, ?_, ?_⟩
  · cases hs : fs.stat with
    | failed errno => by_cases he : errno = ENOENT <;> simp [he]
    | ok c =>
      by_cases hc : self.anf_dt_ctime = c
      · subst hc
        simp
      · cases hacc : fs.access_r_ok
        · simp [hc]
        · cases hk : fs.keyfile with
          | none => simp [hc]
          | some ini => simp [hc, (hds ini).1]
  · intro hdel
    cases hs : fs.stat with
    | failed errno => by_cases he : errno = ENOENT <;> simp [he]
    | ok c =>
      by_cases hc : self.anf_dt_ctime = c
      · simp [hc, hdel]
      · have hc2 : ¬ c = self.anf_dt_ctime := fun e => hc e.symm
        cases hacc : fs.access_r_ok
        · simp [hc, hc2]
        · cases hk : fs.keyfile with
          | none => simp [hc, hc2]
          | some ini => simp [hc, hc2, (hds ini).2]
  · intro errno hne hs
    simp [hs, hne]
  · intro c ini hs hc hacc hk
    simp only [hs, hc, hacc, hk, if_false, desktop_state, Option.isSome_iff_ne_none]
    simp

/-- C15, at a concrete input: the DELETED record of scenario S5 stays DELETED while its
manifest is still missing, and becomes INVALID when stat fails with EACCES (13). -/
theorem appinfo_parse_desktop_transitions_witness :
    (appinfo_parse_desktop S1_mask
        { stat := stat_result_t.failed ENOENT, access_r_ok := false, keyfile := none }
        S5_appinfo).2.anf_state = APPINFO_STATE_DELETED ∧
    (appinfo_parse_desktop S1_mask
        { stat := stat_result_t.failed 13, access_r_ok := false, keyfile := none }
        S5_appinfo).2.anf_state = APPINFO_STATE_INVALID :=
  ⟨((appinfo_parse_desktop_transitions S1_mask
        { stat := stat_result_t.failed ENOENT, access_r_ok := false, keyfile := none }
        S5_appinfo).2.1 (by decide)).mpr (Or.inl rfl),
   (appinfo_parse_desktop_transitions S1_mask
        { stat := stat_result_t.failed 13, access_r_ok := false, keyfile := none }
        S5_appinfo).2.2.1 13 (by decide) rfl⟩

/-- C15 as stated fails: the record of scenario S5 is DELETED, and when its manifest is back
with a new ctime the next `appinfo_parse_desktop` makes it VALID again. -/
theorem appinfo_parse_desktop_deleted_counterexample :
    S5_appinfo.anf_state = APPINFO_STATE_DELETED ∧
    (appinfo_parse_desktop S1_mask
        { stat := stat_result_t.ok 1600000500, access_r_ok := true, keyfile := some S1_keyfile }
        S5_appinfo).2.anf_state = APPINFO_STATE_VALID ∧
    (appinfo_parse_desktop S1_mask
        { stat := stat_result_t.ok 1600000500, access_r_ok := true, keyfile := some S1_keyfile }
        S5_appinfo).2.anf_state ≠ APPINFO_STATE_DELETED := by
  decide

/-- C16 (sandbox section selection): when `appinfo_parse_desktop` loads a manifest, it takes
`OrganizationName`, `ApplicationName` and `Permissions` from the `X-Sailjail` section
whenever the manifest has that section, and from the `Sailjail` section only when it has no
`X-Sailjail` section; a key missing from an existing `X-Sailjail` section leaves the field
unset (the requested set empty), whatever the `Sailjail` section holds. -/
theorem appinfo_parse_desktop_sailjail_section (mask : stringset_t) (fs : desktop_file_t)
    (self : appinfo_t) (c : Int) (ini : GKeyFile) (hstat : fs.stat = stat_result_t.ok c)
    (hctime : self.anf_dt_ctime ≠ c) (haccess : fs.access_r_ok = true)
    (hload : fs.keyfile = some ini) :
    (g_key_file_has_group ini SAILJAIL_SECTION_PRIMARY = true →
      (appinfo_parse_desktop mask fs self).2.anf_sj_organization_name =
        keyfile_get_string ini SAILJAIL_SECTION_PRIMARY SAILJAIL_KEY_ORGANIZATION_NAME none ∧
      (appinfo_parse_desktop mask fs self).2.anf_sj_application_name =
        keyfile_get_string ini SAILJAIL_SECTION_PRIMARY SAILJAIL_KEY_APPLICATION_NAME none ∧
      (appinfo_parse_desktop mask fs self).2.anf_sj_permissions_in =
        keyfile_get_stringset ini SAILJAIL_SECTION_PRIMARY SAILJAIL_KEY_PERMISSIONS) ∧
    (g_key_file_has_group ini SAILJAIL_SECTION_PRIMARY = false →
      (appinfo_parse_desktop mask fs self).2.anf_sj_organization_name =
        keyfile_get_string ini SAILJAIL_SECTION_SECONDARY SAILJAIL_KEY_ORGANIZATION_NAME none ∧
      (appinfo_parse_desktop mask fs self).2.anf_sj_application_name =
        keyfile_get_string ini SAILJAIL_SECTION_SECONDARY SAILJAIL_KEY_APPLICATION_NAME none ∧
      (appinfo_parse_desktop mask fs self).2.anf_sj_permissions_in =
        keyfile_get_stringset ini SAILJAIL_SECTION_SECONDARY SAILJAIL_KEY_PERMISSIONS) ∧
    (g_key_file_has_group ini SAILJAIL_SECTION_PRIMARY = true →
      (ini.value SAILJAIL_SECTION_PRIMARY SAILJAIL_KEY_ORGANIZATION_NAME = none →
        (appinfo_parse_desktop mask fs self).2.anf_sj_organization_name = none) ∧
      (ini.value SAILJAIL_SECTION_PRIMARY SAILJAIL_KEY_APPLICATION_NAME = none →
        (appinfo_parse_desktop mask fs self).2.anf_sj_application_name = none) ∧
      (ini.value SAILJAIL_SECTION_PRIMARY SAILJAIL_KEY_PERMISSIONS = none →
        (appinfo_parse_desktop mask fs self).2.anf_sj_permissions_in = ∅)) := by
  rw [appinfo_parse_desktop_loaded mask fs self c ini hstat hctime haccess hload,
    appinfo_parse_keyfile_eq]
  simp only [appinfo_clear_dirty, sailjail_group]
  refine ⟨?_, ?_, ?_⟩
  · intro h
    simp [h]
  · intro h
    simp [h]
  · intro h
    simp only [h, Bool.not_true, Bool.false_eq_true, if_false]
    refine ⟨?_, ?_, ?_⟩
    · intro hv
      simp [keyfile_get_string, hv]
    · intro hv
      simp [keyfile_get_string, hv]
    · intro hv
      simp [keyfile_get_stringset, hv, stringset_create]

/-- C16, at a concrete input: a manifest whose `X-Sailjail` section holds only
`Permissions=Phone` and whose `Sailjail` section holds all three keys gives a record that
requests Phone and has no organization name and no application name. -/
theorem appinfo_parse_desktop_sailjail_section_witness :
    (appinfo_parse_desktop S1_mask both_sections_desktop
        (appinfo_create "voicecall-ui")).2.anf_sj_permissions_in = {"Phone"} ∧
    (appinfo_parse_desktop S1_mask both_sections_desktop
        (appinfo_create "voicecall-ui")).2.anf_sj_organization_name = none ∧
    (appinfo_parse_desktop S1_mask both_sections_desktop
        (appinfo_create "voicecall-ui")).2.anf_sj_application_name = none :=
  ⟨((appinfo_parse_desktop_sailjail_section S1_mask both_sections_desktop
        (appinfo_create "voicecall-ui") 1600000000 both_sections_keyfile rfl (by decide)
        rfl rfl).1 (by decide)).2.2.trans (by decide),
   ((appinfo_parse_desktop_sailjail_section S1_mask both_sections_desktop
        (appinfo_create "voicecall-ui") 1600000000 both_sections_keyfile rfl (by decide)
        rfl rfl).2.2 (by decide)).1 (by decide),
   ((appinfo_parse_desktop_sailjail_section S1_mask both_sections_desktop
        (appinfo_create "voicecall-ui") 1600000000 both_sections_keyfile rfl (by decide)
        rfl rfl).2.2 (by decide)).2.1 (by decide)⟩

/-- C13 (guarded access): `settings_appsettings(uid, app)` returns a record if and only if
`control_valid_user(uid)` and `control_valid_application(app)` both hold; when either fails it
returns `NULL` and leaves the store as it is, so no bucket is created for an invalid uid, such
as one below `min_uid`, and `settings_load_user` leaves the store as it is for an invalid uid
too. The record returned is the one the store then holds for (uid, app), and when the store
held none before it has `allowed` UNSET, `agreed` UNSET and an empty `granted`. -/
theorem settings_appsettings_guard (control : control_t) (self : settings_t) (disk : disk_t)
    (uid : Nat) (app : String) :
    ((settings_appsettings control self uid app).1.isSome = true ↔
      control_valid_user control uid = true ∧ control_valid_application control app = true) ∧
    (¬ (control_valid_user control uid = true ∧
        control_valid_application control app = true) →
      settings_appsettings control self uid app = (none, self)) ∧
    (control_valid_user control uid = false →
      settings_load_user control self disk uid = self) ∧
    (uid < control.min_user →
      settings_appsettings control self uid app = (none, self) ∧
      settings_load_user control self disk uid = self) ∧
    (control_valid_user control uid = true → control_valid_application control app = true →
      settings_get_appsettings (settings_appsettings control self uid app).2 uid app =
        (settings_appsettings control self uid app).1) ∧
    (control_valid_user control uid = true → control_valid_application control app = true →
      settings_get_appsettings self uid app = none →
      ∃ r : appsettings_t, (settings_appsettings control self uid app).1 = some r ∧
        r.ast_appname = app ∧ r.ast_allowed = APP_ALLOWED_UNSET ∧
        r.ast_agreed = APP_AGREED_UNSET ∧ r.ast_granted = ∅) := by
  have hinv : ¬ (control_valid_user control uid = true ∧
      control_valid_application control app = true) →
      settings_appsettings control self uid app = (none, self) := by
    intro h
    unfold settings_appsettings
    rw [if_neg]
    simpa using h
  have hload : control_valid_user control uid = false →
      settings_load_user control self disk uid = self := by
    intro h
    unfold settings_load_user
    simp [h]
  have hval : control_valid_user control uid = true →
      control_valid_application control app = true →
      settings_appsettings control self uid app =
        (some (settings_add_appsettings self uid app).1,
         (settings_add_appsettings self uid app).2) := by
    intro h1 h2
    unfold settings_appsettings
    simp [h1, h2]
  refine ⟨?_, hinv, hload, ?_, ?_, ?_⟩
  · constructor
    · intro h
      by_contra hn
      rw [hinv hn] at h
      simp at h
    · intro h
      rw [hval h.1 h.2]
      rfl
  · intro hlt
    have hnv : control_valid_user control uid = false := by
      simp only [control_valid_user, decide_eq_false_iff_not]
      intro h
      omega
    exact ⟨hinv (by simp [hnv]), hload hnv⟩
  · intro h1 h2
    rw [hval h1 h2]
    exact settings_add_appsettings_lookup self uid app
  · intro h1 h2 hnone
    rw [hval h1 h2]
    refine ⟨_, rfl, ?_⟩
    simp only [settings_get_appsettings] at hnone
    simp only [settings_add_appsettings, settings_add_usersettings]
    cases hu : settings_get_usersettings self uid with
    | none =>
      simp [usersettings_add_appsettings, usersettings_get_appsettings, usersettings_create,
        appsettings_create, stringset_create, List.lookup]
    | some us =>
      rw [hu] at hnone
      simp only at hnone
      simp [usersettings_add_appsettings, hnone, appsettings_create, stringset_create]

/-- C13, at the input of scenario S6: uid 1 is below `min_uid` 1000, so the store of scenario
S2 hands out no record for it and keeps its one bucket; the valid uid 1000 gets its record. -/
theorem settings_appsettings_guard_witness :
    settings_appsettings S2_control S2_settings 1 "voicecall-ui" = (none, S2_settings) ∧
    settings_get_usersettings
      (settings_appsettings S2_control S2_settings 1 "voicecall-ui").2 1 = none ∧
    (settings_appsettings S2_control S2_settings 1000 "voicecall-ui").1.isSome = true :=
  ⟨((settings_appsettings_guard S2_control S2_settings disk_empty 1 "voicecall-ui").2.2.2.1
      (by decide)).1,
   by decide,
   (settings_appsettings_guard S2_control S2_settings disk_empty 1000 "voicecall-ui").1.mpr
      ⟨by decide, by decide⟩⟩

/-- C17 (debounced save): in every state reached from a store with nothing dirty and no timer
pending by `settings_save_later` calls and timer dispatches, the dirty uids are distinct, a
save timer is pending if and only if some uid is dirty, and the pending timers are at most the
one 1000 ms source `stt_save_id`; every uid passed to `settings_save_later` since then is
dirty; and the dispatch of the pending timer calls `keyfile_save` once for each dirty uid that
is a valid user with a bucket and for no other, and leaves no uid dirty, no timer pending and
the buckets as they were. -/
theorem settings_debounce (control : control_t) (initialized : Bool)
    (users : List (Nat × usersettings_t)) (last_id : Nat) (disk : disk_t)
    (ops : List save_op_t) :
    (save_reach control (settings_idle initialized users last_id, disk)
      ops).1.stt_user_changes.Nodup ∧
    ((save_reach control (settings_idle initialized users last_id, disk) ops).1.stt_save_id ≠ 0 ↔
      (save_reach control (settings_idle initialized users last_id, disk)
        ops).1.stt_user_changes ≠ []) ∧
    (save_reach control (settings_idle initialized users last_id, disk) ops).1.loop.sources =
      (if (save_reach control (settings_idle initialized users last_id, disk)
            ops).1.stt_save_id ≠ 0 then
        [((save_reach control (settings_idle initialized users last_id, disk)
            ops).1.stt_save_id, 1000)]
       else []) ∧
    (∀ uids : List Nat, ∀ uid ∈ uids,
      uid ∈ (save_reach control (settings_idle initialized users last_id, disk)
        (ops ++ uids.map save_op_t.save_later)).1.stt_user_changes) ∧
    ((save_reach control (settings_idle initialized users last_id, disk) ops).1.stt_save_id ≠ 0 →
      (save_reach control (settings_idle initialized users last_id, disk)
          (ops ++ [save_op_t.timeout
            (save_reach control (settings_idle initialized users last_id, disk)
              ops).1.stt_save_id])).1 =
        { (save_reach control (settings_idle initialized users last_id, disk) ops).1 with
          stt_save_id := 0
          stt_user_changes := []
          loop :=
            { (save_reach control (settings_idle initialized users last_id, disk)
                ops).1.loop with sources := [] } } ∧
      (save_reach control (settings_idle initialized users last_id, disk)
          (ops ++ [save_op_t.timeout
            (save_reach control (settings_idle initialized users last_id, disk)
              ops).1.stt_save_id])).2.writes =
        (save_reach control (settings_idle initialized users last_id, disk) ops).2.writes ++
          (save_reach control (settings_idle initialized users last_id, disk)
            ops).1.stt_user_changes.filter (fun uid =>
              control_valid_user control uid &&
                (settings_get_usersettings
                  (save_reach control (settings_idle initialized users last_id, disk) ops).1
                  uid).isSome)) := by
  have hinv := save_reach_inv control ops (settings_idle initialized users last_id, disk)
    (settings_idle_inv initialized users last_id)
  have happ : ∀ more : List save_op_t,
      save_reach control (settings_idle initialized users last_id, disk) (ops ++ more) =
        save_reach control
          (save_reach control (settings_idle initialized users last_id, disk) ops) more := by
    intro more
    simp [save_reach, List.foldl_append]
  generalize save_reach control (settings_idle initialized users last_id, disk) ops = s
    at hinv happ ⊢
  refine ⟨hinv.1, ?_, ?_, ?_, ?_⟩
  · constructor
    · intro h
      exact (hinv.2.2 h).1
    · intro h hz
      exact h (hinv.2.1 hz).1
  · by_cases hz : s.1.stt_save_id = 0
    · simp [hz, (hinv.2.1 hz).2]
    · simp [hz, (hinv.2.2 hz).2]
  · intro uids uid huid
    rw [happ]
    exact (save_later_all_mem control uids s).2 uid huid
  · intro hid
    rw [happ]
    simp only [save_reach, List.foldl_cons, List.foldl_nil, save_op_t.run]
    exact settings_timeout_pending control s.1 s.2 hinv hid

/-- C17, at a concrete input: after three `settings_save_later` calls for the uids 1000, 1001
and 1000 on the store of scenario S2 one timer is pending and both uids are dirty; its
dispatch writes the file of uid 1000 once (uid 1001 is no valid user) and leaves nothing
dirty and no timer pending. -/
theorem settings_debounce_witness :
    (save_reach S2_control (settings_idle true S2_settings.stt_users 0, disk_empty)
      [save_op_t.save_later 1000, save_op_t.save_later 1001,
       save_op_t.save_later 1000]).1.loop.sources = [(1, 1000)] ∧
    (save_reach S2_control (settings_idle true S2_settings.stt_users 0, disk_empty)
      [save_op_t.save_later 1000, save_op_t.save_later 1001,
       save_op_t.save_later 1000]).1.stt_user_changes = [1000, 1001] ∧
    (save_reach S2_control (settings_idle true S2_settings.stt_users 0, disk_empty)
      ([save_op_t.save_later 1000, save_op_t.save_later 1001, save_op_t.save_later 1000] ++
        [save_op_t.timeout
          (save_reach S2_control (settings_idle true S2_settings.stt_users 0, disk_empty)
            [save_op_t.save_later 1000, save_op_t.save_later 1001,
             save_op_t.save_later 1000]).1.stt_save_id])).2.writes = [1000] :=
  ⟨by decide, by decide,
   ((settings_debounce S2_control true S2_settings.stt_users 0 disk_empty
      [save_op_t.save_later 1000, save_op_t.save_later 1001,
       save_op_t.save_later 1000]).2.2.2.2 (by decide)).2.trans (by decide)⟩

/-- C18, evaluated on the code: on the store of scenario S2 with uid 1000 dirty and the save
timer pending, `settings_delete` releases the tables and nothing else: the timer source is
still pending in the main loop and no settings file was written, whereas
`settings_save_now` on the same store cancels the timer and writes the file of uid 1000. -/
theorem settings_delete_no_flush :
    S2_settings_dirty.stt_user_changes = [1000] ∧
    S2_settings_dirty.loop.sources = [(1, 1000)] ∧
    (settings_delete S2_settings_dirty disk_empty).1.loop.sources = [(1, 1000)] ∧
    (settings_delete S2_settings_dirty disk_empty).2.writes = [] ∧
    (settings_delete S2_settings_dirty disk_empty).2.files = [] ∧
    (settings_save_now S2_control S2_settings_dirty disk_empty).1.loop.sources = [] ∧
    (settings_save_now S2_control S2_settings_dirty disk_empty).2.writes = [1000] := by
  decide

/-- C19 (amended): a flush never retries. Whatever `keyfile_save` returns for each file,
`settings_save_now` leaves no uid dirty and no save timer set, arms no new timer (the main
loop keeps only sources that were pending before, other than the cancelled save timer), and
keeps the buckets in memory; a file that cannot be written keeps its old content. The uid is
written again only after a later change marks it dirty. -/
theorem settings_save_now_no_retry (control : control_t) (self : settings_t) (disk : disk_t) :
    (settings_save_now control self disk).1.stt_user_changes = [] ∧
    (settings_save_now control self disk).1.stt_save_id = 0 ∧
    (settings_save_now control self disk).1.loop.last_id = self.loop.last_id ∧
    (∀ src ∈ (settings_save_now control self disk).1.loop.sources,
      src ∈ self.loop.sources ∧ (self.stt_save_id ≠ 0 → src.1 ≠ self.stt_save_id)) ∧
    (settings_save_now control self disk).1.stt_users = self.stt_users ∧
    (∀ uid ∈ disk.unwritable,
      keyfile_load (settings_save_now control self disk).2 uid = keyfile_load disk uid) := by
  rw [settings_save_now_store]
  refine ⟨rfl, ?_, ?_, ?_, ?_, ?_⟩
  · rcases settings_cancel_save_eq self with h | ⟨h0, h⟩
    · rw [h]
    · rw [h]; exact h0
  · rcases settings_cancel_save_eq self with h | ⟨h0, h⟩
    · rw [h]; rfl
    · rw [h]
  · intro src hsrc
    rcases settings_cancel_save_eq self with h | ⟨h0, h⟩
    · rw [h] at hsrc
      simp only [g_source_remove, List.mem_filter, decide_eq_true_eq] at hsrc
      exact ⟨hsrc.1, fun _ => hsrc.2⟩
    · rw [h] at hsrc
      exact ⟨hsrc, fun hne => absurd h0 hne⟩
  · rcases settings_cancel_save_eq self with h | ⟨h0, h⟩
    · rw [h]
    · rw [h]
  · intro uid huid
    exact settings_save_users_unwritable control _ _ disk uid huid

/-- C19 (amended), at a concrete input: flushing the store of scenario S2 while the file of
the dirty uid 1000 cannot be written leaves that file as it was (absent) and nothing dirty. -/
theorem settings_save_now_no_retry_witness :
    keyfile_load (settings_save_now S2_control S2_settings_dirty disk_failing).2 1000 = none ∧
    (settings_save_now S2_control S2_settings_dirty disk_failing).1.stt_user_changes = [] :=
  ⟨(settings_save_now_no_retry S2_control S2_settings_dirty disk_failing).2.2.2.2.2 1000
      (by decide),
   (settings_save_now_no_retry S2_control S2_settings_dirty disk_failing).1⟩

/-- C19 as stated fails: on the store of scenario S2 with uid 1000 dirty, when the file of
uid 1000 cannot be written the dispatch of the save timer still leaves no uid dirty and no
timer pending, and no file written: the uid is not kept dirty and no timer is re-armed. -/
theorem settings_save_retry_counterexample :
    S2_settings_dirty.stt_user_changes = [1000] ∧
    (keyfile_save disk_failing g_key_file_new (settings_userdata_path 1000)).1 = false ∧
    (settings_timeout S2_control 1 S2_settings_dirty disk_failing).2.writes = [1000] ∧
    (settings_timeout S2_control 1 S2_settings_dirty disk_failing).2.files = [] ∧
    (settings_timeout S2_control 1 S2_settings_dirty disk_failing).1.stt_user_changes = [] ∧
    (settings_timeout S2_control 1 S2_settings_dirty disk_failing).1.stt_save_id = 0 ∧
    (settings_timeout S2_control 1 S2_settings_dirty disk_failing).1.loop.sources = [] := by
  decide

/-- C20 (only currently valid applications are loaded or persisted): after `usersettings_load`
the bucket holds a record for a name if and only if it held one before or the name is a group
of the file for which `control_valid_application` holds, and the records of names that are not
valid applications are untouched; the file `usersettings_save` writes has a group for a name if
and only if the bucket has a record of that name stored under a key for which
`control_valid_application` holds; so, in a bucket whose records carry their keys as names, a
name that is not a valid application is not a group of the next save, whatever the loaded file
held for it. -/
theorem usersettings_valid_applications_only (control : control_t) (i : Bool)
    (self : usersettings_t) (disk : disk_t) (path : Nat) :
    (∀ g : String,
      (usersettings_get_appsettings (usersettings_load control i self disk path).1 g).isSome =
          true ↔
        (usersettings_get_appsettings self g).isSome = true ∨
        (g ∈ g_key_file_get_groups ((keyfile_load disk path).getD g_key_file_new) ∧
          control_valid_application control g = true)) ∧
    (∀ g : String, control_valid_application control g = false →
      usersettings_get_appsettings (usersettings_load control i self disk path).1 g =
        usersettings_get_appsettings self g) ∧
    (path ∉ disk.unwritable →
      ∃ file : GKeyFile,
        keyfile_load (usersettings_save control self disk path) path = some file ∧
        ∀ g : String, g ∈ g_key_file_get_groups file ↔
          ∃ e ∈ self.ust_apps,
            control_valid_application control e.1 = true ∧ e.2.ast_appname = g) ∧
    (path ∉ disk.unwritable → (∀ e ∈ self.ust_apps, e.2.ast_appname = e.1) →
      ∃ file : GKeyFile,
        keyfile_load
          (usersettings_save control (usersettings_load control i self disk path).1 disk path)
          path = some file ∧
        ∀ g : String, control_valid_application control g = false →
          g ∉ g_key_file_get_groups file) := by
  have hsave : ∀ b : usersettings_t, path ∉ disk.unwritable →
      keyfile_load (usersettings_save control b disk path) path =
        some (usersettings_save_apps control b.ust_apps g_key_file_new) := by
    intro b hw
    exact keyfile_load_save disk _ path hw
  have hgroups : ∀ (b : usersettings_t) (g : String),
      g ∈ g_key_file_get_groups (usersettings_save_apps control b.ust_apps g_key_file_new) ↔
        ∃ e ∈ b.ust_apps,
          control_valid_application control e.1 = true ∧ e.2.ast_appname = g := by
    intro b g
    rw [usersettings_save_apps_names]
    simp [g_key_file_get_groups, g_key_file_new]
  refine ⟨?_, ?_, ?_, ?_⟩
  · intro g
    exact usersettings_load_groups_keys control i _ _ self g
  · intro g hg
    exact usersettings_load_groups_other control i _ _ self g hg
  · intro hw
    exact ⟨_, hsave self hw, hgroups self⟩
  · intro hw hnames
    refine ⟨_, hsave _ hw, ?_⟩
    intro g hg hmem
    obtain ⟨e, he, hv, hname⟩ := (hgroups _ g).mp hmem
    have hkey := usersettings_load_groups_names control i _ _ self hnames e he
    rw [← hname, hkey, hv] at hg
    exact Bool.noConfusion hg

/-- C20, at a concrete input: loading the file of uid 1000, which has a group for the
installed application of scenario S2 and one for an application that is not installed, into a
new bucket gives a record for the first only, and the file saved next has that one group. -/
theorem usersettings_valid_applications_only_witness :
    (usersettings_get_appsettings
      (usersettings_load S2_control false (usersettings_create 1000) S4_disk 1000).1
      "removed-app") = none ∧
    (usersettings_get_appsettings
      (usersettings_load S2_control false (usersettings_create 1000) S4_disk 1000).1
      "voicecall-ui").isSome = true ∧
    (keyfile_load
      (usersettings_save S2_control
        (usersettings_load S2_control false (usersettings_create 1000) S4_disk 1000).1
        S4_disk 1000) 1000).map g_key_file_get_groups = some ["voicecall-ui"] :=
  ⟨(usersettings_valid_applications_only S2_control false (usersettings_create 1000) S4_disk
      1000).2.1 "removed-app" (by decide),
   ((usersettings_valid_applications_only S2_control false (usersettings_create 1000) S4_disk
      1000).1 "voicecall-ui").mpr (Or.inr ⟨by decide, by decide⟩),
   by decide⟩

/-- C12 (amended): for a bucket as the store builds it (distinct keys, each record named by
its key and carrying the bucket's uid) and a file that can be written, `usersettings_save`
followed by `usersettings_load` of the written file into a new bucket of the same uid, under
the same Control, yields the records of the original bucket whose key is a valid application,
in the same order, each as `appsettings_rethink` leaves it (`allowed` and `agreed` kept,
`granted` re-masked); records of other applications are absent. When every key is a valid
application and every record is already re-masked, the loaded bucket equals the original. -/
theorem usersettings_save_load (control : control_t) (i : Bool) (b : usersettings_t)
    (disk : disk_t) (path : Nat) (hwf : b.wf) (hw : path ∉ disk.unwritable) :
    (usersettings_load control i (usersettings_create b.ust_uid)
        (usersettings_save control b disk path) path).1 =
      { ust_uid := b.ust_uid
        ust_apps :=
          (b.ust_apps.filter (fun e => control_valid_application control e.1)).map
            (fun e => (e.1, (appsettings_rethink i (control_appinfo control e.1) e.2).1)) } ∧
    ((∀ e ∈ b.ust_apps, control_valid_application control e.1 = true ∧
        (appsettings_rethink i (control_appinfo control e.1) e.2).1 = e.2) →
      (usersettings_load control i (usersettings_create b.ust_uid)
        (usersettings_save control b disk path) path).1 = b) := by
  obtain ⟨hnodup, hrec⟩ := hwf
  have hnames : ∀ e ∈ b.ust_apps, e.2.ast_appname = e.1 := fun e he => (hrec e he).1
  have hgroups := usersettings_save_apps_groups control b.ust_apps g_key_file_new hnodup hnames
    (by simp [g_key_file_get_groups, g_key_file_new])
  simp only [g_key_file_new, List.nil_append] at hgroups
  have hsub : ∀ e ∈ b.ust_apps.filter (fun e => control_valid_application control e.1),
      e ∈ b.ust_apps ∧ control_valid_application control e.1 = true := by
    intro e he
    exact List.mem_filter.mp he
  have hnodup2 : ((b.ust_apps.filter
      (fun e => control_valid_application control e.1)).map Prod.fst).Nodup :=
    hnodup.sublist ((List.filter_sublist _).map Prod.fst)
  have hget : g_key_file_get_groups
      (usersettings_save_apps control b.ust_apps { groups := [] }) =
      (b.ust_apps.filter (fun e => control_valid_application control e.1)).map Prod.fst := by
    simp only [g_key_file_get_groups, hgroups, List.map_map]
    apply List.map_congr_left
    intro e he
    exact hnames e (hsub e he).1
  have hmain : (usersettings_load control i (usersettings_create b.ust_uid)
        (usersettings_save control b disk path) path).1 =
      { ust_uid := b.ust_uid
        ust_apps :=
          (b.ust_apps.filter (fun e => control_valid_application control e.1)).map
            (fun e => (e.1, (appsettings_rethink i (control_appinfo control e.1) e.2).1)) } := by
    simp only [usersettings_load, usersettings_save, keyfile_load_save disk _ path hw,
      Option.getD_some, g_key_file_new, hget, usersettings_create]
    rw [usersettings_load_groups_fresh control i _ b.ust_uid _ []
      (fun e he => (hsub e he).2) hnodup2 (fun _ _ => rfl)
      (fun e he => hrec e (hsub e he).1)]
    · simp
    · intro e he
      rw [hgroups]
      exact lookup_settings_group _ (fun e he => hnames e (hsub e he).1) hnodup2 e.1 e.2 he
  refine ⟨hmain, ?_⟩
  intro hall
  rw [hmain]
  have hfilter : b.ust_apps.filter (fun e => control_valid_application control e.1) =
      b.ust_apps := List.filter_eq_self.mpr (fun e he => (hall e he).1)
  rw [hfilter]
  have hmap : b.ust_apps.map
      (fun e => (e.1, (appsettings_rethink i (control_appinfo control e.1) e.2).1)) =
      b.ust_apps.map id := by
    apply List.map_congr_left
    intro e he
    simp only [id, (hall e he).2]
  rw [hmap, List.map_id]

/-- C12, at a concrete input: in scenario S2, after the settings mask pass, saving the bucket
of uid 1000 and loading the written file into a new bucket gives the bucket back. -/
theorem usersettings_save_load_witness :
    (usersettings_load S2_control true (usersettings_create 1000)
      (usersettings_save S2_control S2_bucket_rethought disk_empty 1000) 1000).1 =
      S2_bucket_rethought :=
  (usersettings_save_load S2_control true S2_bucket_rethought disk_empty 1000 (by decide)
    (by decide)).2 (by decide)

/-- C12 as stated fails: the bucket of uid 1000 of scenario S2 holds a record for the
application; once the application is uninstalled (S5), saving the bucket and loading the
written file gives an empty bucket, and while the record still holds the grant of S1 (before
the settings mask pass) the loaded record grants only Phone. -/
theorem usersettings_save_load_counterexample :
    S2_bucket.wf ∧
    (usersettings_load S5_control true (usersettings_create 1000)
      (usersettings_save S5_control S2_bucket disk_empty 1000) 1000).1.ust_apps = [] ∧
    (usersettings_load S5_control true (usersettings_create 1000)
      (usersettings_save S5_control S2_bucket disk_empty 1000) 1000).1 ≠ S2_bucket ∧
    (usersettings_get_appsettings S2_bucket "voicecall-ui").map appsettings_get_granted =
      some {"Phone", "Contacts"} ∧
    (usersettings_get_appsettings
      (usersettings_load S2_control true (usersettings_create 1000)
        (usersettings_save S2_control S2_bucket disk_empty 1000) 1000).1
      "voicecall-ui").map appsettings_get_granted = some {"Phone"} := by
  decide

/-- C21, evaluated on the code: the setters store the normalised value, which for every C
`int` argument is one of 0, 1, 2 (out-of-range arguments become UNSET), but
`appsettings_decode` stores the integers of the file as they are: from a settings file with
`Allowed=7` and `Agreed=-1` the record gets `allowed` 7 and `agreed` -1, neither of which is
one of 0, 1, 2. -/
theorem appsettings_decode_out_of_range (i : Bool) (a : Option appinfo_t)
    (self : appsettings_t) (v : Int) :
    (is_int v →
      ((appsettings_set_allowed i a self v).1.ast_allowed = APP_ALLOWED_UNSET ∨
        (appsettings_set_allowed i a self v).1.ast_allowed = APP_ALLOWED_ALWAYS ∨
        (appsettings_set_allowed i a self v).1.ast_allowed = APP_ALLOWED_NEVER) ∧
      ((appsettings_set_agreed i self v).1.ast_agreed = APP_AGREED_UNSET ∨
        (appsettings_set_agreed i self v).1.ast_agreed = APP_AGREED_YES ∨
        (appsettings_set_agreed i self v).1.ast_agreed = APP_AGREED_NO) ∧
      (¬ (v = 0 ∨ v = 1 ∨ v = 2) →
        (appsettings_set_allowed i a self v).1.ast_allowed = APP_ALLOWED_UNSET ∧
        (appsettings_set_agreed i self v).1.ast_agreed = APP_AGREED_UNSET)) ∧
    (appsettings_decode false (some S2_appinfo) (appsettings_create 1000 "voicecall-ui")
      out_of_range_settings_file).1.ast_allowed = 7 ∧
    (appsettings_decode false (some S2_appinfo) (appsettings_create 1000 "voicecall-ui")
      out_of_range_settings_file).1.ast_agreed = -1 ∧
    ¬ ((appsettings_decode false (some S2_appinfo) (appsettings_create 1000 "voicecall-ui")
          out_of_range_settings_file).1.ast_allowed = APP_ALLOWED_UNSET ∨
        (appsettings_decode false (some S2_appinfo) (appsettings_create 1000 "voicecall-ui")
          out_of_range_settings_file).1.ast_allowed = APP_ALLOWED_ALWAYS ∨
        (appsettings_decode false (some S2_appinfo) (appsettings_create 1000 "voicecall-ui")
          out_of_range_settings_file).1.ast_allowed = APP_ALLOWED_NEVER) ∧
    ¬ ((appsettings_decode false (some S2_appinfo) (appsettings_create 1000 "voicecall-ui")
          out_of_range_settings_file).1.ast_agreed = APP_AGREED_UNSET ∨
        (appsettings_decode false (some S2_appinfo) (appsettings_create 1000 "voicecall-ui")
          out_of_range_settings_file).1.ast_agreed = APP_AGREED_YES ∨
        (appsettings_decode false (some S2_appinfo) (appsettings_create 1000 "voicecall-ui")
          out_of_range_settings_file).1.ast_agreed = APP_AGREED_NO) := by
  refine ⟨?_, by decide, by decide, by decide, by decide⟩
  intro hv
  have h3 := to_unsigned_ge_three v hv
  rw [set_allowed_allowed, set_agreed_fst]
  simp only [APP_ALLOWED_COUNT, APP_AGREED_COUNT, APP_ALLOWED_UNSET, APP_ALLOWED_ALWAYS,
    APP_ALLOWED_NEVER, APP_AGREED_UNSET, APP_AGREED_YES, APP_AGREED_NO]
  by_cases hd : v = 0 ∨ v = 1 ∨ v = 2
  · have hlt : ¬ to_unsigned v ≥ 3 := fun h => (h3.mp h) hd
    simp only [hlt, if_false]
    exact ⟨hd, hd, fun hn => absurd hd hn⟩
  · have hge : to_unsigned v ≥ 3 := h3.mpr hd
    rw [if_pos hge]
    exact ⟨Or.inl rfl, Or.inl rfl, fun _ => ⟨rfl, rfl⟩⟩

/-- C23 (change-time skip, no spurious change): when stat succeeds with the cached ctime,
`appinfo_parse_desktop` returns the dirty flag it found and changes nothing of the record but
that flag, which it clears; so with a clear flag it returns false and leaves the record as it
is. A second parse against the same file system and mask returns false and leaves the record
exactly as the first parse left it, also when the manifest is missing, where the state stays
DELETED. -/
theorem appinfo_parse_desktop_skip (mask : stringset_t) (fs : desktop_file_t)
    (self : appinfo_t) :
    (fs.stat = stat_result_t.ok self.anf_dt_ctime →
      appinfo_parse_desktop mask fs self = (self.anf_dirty, { self with anf_dirty := false })) ∧
    (fs.stat = stat_result_t.ok self.anf_dt_ctime → self.anf_dirty = false →
      appinfo_parse_desktop mask fs self = (false, self)) ∧
    appinfo_parse_desktop mask fs (appinfo_parse_desktop mask fs self).2 =
      (false, (appinfo_parse_desktop mask fs self).2) ∧
    (fs.stat = stat_result_t.failed ENOENT →
      (appinfo_parse_desktop mask fs self).2.anf_state = APPINFO_STATE_DELETED ∧
      (appinfo_parse_desktop mask fs
        (appinfo_parse_desktop mask fs self).2).2.anf_state = APPINFO_STATE_DELETED ∧
      (appinfo_parse_desktop mask fs (appinfo_parse_desktop mask fs self).2).1 = false) := by
  have hskip : fs.stat = stat_result_t.ok self.anf_dt_ctime →
      appinfo_parse_desktop mask fs self =
        (self.anf_dirty, { self with anf_dirty := false }) := by
    intro h
    rw [appinfo_parse_desktop_eq, h]
    simp [appinfo_clear_dirty]
  have hagain : appinfo_parse_desktop mask fs (appinfo_parse_desktop mask fs self).2 =
      (false, (appinfo_parse_desktop mask fs self).2) := by
    obtain ⟨hd, hf, hc⟩ := appinfo_parse_desktop_after mask fs self
    generalize (appinfo_parse_desktop mask fs self).2 = r at hd hf hc
    rw [appinfo_parse_desktop_eq]
    cases hs : fs.stat with
    | failed errno =>
      have hst := hf errno hs
      simp only [appinfo_clear_dirty, hd, hst]
      cases r
      simp_all
    | ok c =>
      have hct := hc c hs
      simp only [hct, if_true, appinfo_clear_dirty, hd]
      cases r
      simp_all
  refine ⟨hskip, ?_, hagain, ?_⟩
  · intro h hd
    rw [hskip h, hd]
    cases self
    simp_all
  · intro h
    have hst := (appinfo_parse_desktop_after mask fs self).2.1 ENOENT h
    rw [hagain]
    simp [hst]

/-- C23, at a concrete input: parsing the manifest of scenario S1 a second time, unchanged,
reports no change and leaves the record of the first parse. -/
theorem appinfo_parse_desktop_skip_witness :
    appinfo_parse_desktop S1_mask S1_desktop S1_appinfo = (false, S1_appinfo) :=
  (appinfo_parse_desktop_skip S1_mask S1_desktop S1_appinfo).2.1 (by decide) (by decide)

/-- C24 (the appinfo dictionary): `appinfo_to_variant` of the `NULL` record is the empty
dictionary; of a record it is a dictionary with exactly the twelve keys `Id`, `Name`, `Type`,
`Icon`, `Exec`, `NoDisplay`, `X-Maemo-Service`, `X-Maemo-Object-Path`, `X-Maemo-Method`,
`OrganizationName`, `ApplicationName`, `Permissions`, whose `Permissions` entry carries the
masked set; after an evaluation against a mask every item of it is in that mask (and was
requested). -/
theorem appinfo_to_variant_entries (mask : stringset_t) (self : appinfo_t) :
    appinfo_to_variant none = [] ∧
    (appinfo_to_variant (some self)).map Prod.fst =
      ["Id", "Name", "Type", "Icon", "Exec", "NoDisplay", "X-Maemo-Service",
       "X-Maemo-Object-Path", "X-Maemo-Method", "OrganizationName", "ApplicationName",
       "Permissions"] ∧
    (appinfo_to_variant (some self)).lookup "Permissions" =
      some (gvariant_t.strings (stringset_items self.anf_sj_permissions_out)) ∧
    (stringset_items self.anf_sj_permissions_out).toFinset = self.anf_sj_permissions_out ∧
    (∀ items : List String,
      (appinfo_to_variant (some (appinfo_evaluate_permissions mask self).2)).lookup
          "Permissions" = some (gvariant_t.strings items) →
      ∀ x ∈ items, x ∈ mask ∧ x ∈ self.anf_sj_permissions_in) := by
  have hlookup : ∀ a : appinfo_t, (appinfo_to_variant (some a)).lookup "Permissions" =
      some (gvariant_t.strings (stringset_items a.anf_sj_permissions_out)) := by
    intro a
    simp [appinfo_to_variant, List.lookup, DESKTOP_KEY_NAME, DESKTOP_KEY_TYPE,
      DESKTOP_KEY_ICON, DESKTOP_KEY_EXEC, DESKTOP_KEY_NO_DISPLAY, MAEMO_KEY_SERVICE,
      MAEMO_KEY_OBJECT, MAEMO_KEY_METHOD, SAILJAIL_KEY_ORGANIZATION_NAME,
      SAILJAIL_KEY_APPLICATION_NAME, SAILJAIL_KEY_PERMISSIONS, stringset_to_variant,
      appinfo_get_permissions]
  refine ⟨rfl, rfl, hlookup self, stringset_items_toFinset _, ?_⟩
  intro items hitems x hx
  rw [hlookup, appinfo_evaluate_permissions_eq] at hitems
  simp only [Option.some.injEq, gvariant_t.strings.injEq] at hitems
  have hmem : x ∈ (stringset_items (self.anf_sj_permissions_in ∩ mask)).toFinset := by
    rw [hitems]
    exact List.mem_toFinset.mpr hx
  rw [stringset_items_toFinset, Finset.mem_inter] at hmem
  exact ⟨hmem.2, hmem.1⟩

/-- C24, at a concrete input: the dictionary of the record of scenario S2 carries the masked
set Phone under `Permissions`, and every item of it is in the mask of S2. -/
theorem appinfo_to_variant_entries_witness :
    (appinfo_to_variant (some S2_appinfo)).lookup "Permissions" =
      some (gvariant_t.strings ["Phone"]) ∧
    ∀ x ∈ ["Phone"], x ∈ ({"Phone", "Camera", "Base"} : stringset_t) ∧
      x ∈ S1_appinfo.anf_sj_permissions_in :=
  ⟨by decide,
   (appinfo_to_variant_entries {"Phone", "Camera", "Base"} S1_appinfo).2.2.2.2 ["Phone"]
     (by decide)⟩

/-- C25 (the `unknown` sentinel): each of the nine string getters returns the static array
`appinfo_unknown`, whose text is `unknown`, exactly when its field is unset (never set, or
cleared by the setter with `NULL`), and the stored string when the field is set; the setter
stores what it is given. Validity is decided by the pointer, that is by whether the field is
set: a manifest that loads with `Name`, `Type` and `Exec` present gives a VALID record
whatever their text, the text `unknown` included. -/
theorem appinfo_unknown_sentinel (mask : stringset_t) (fs : desktop_file_t)
    (self : appinfo_t) :
    (∀ p ∈ appinfo_string_properties,
      (p.get self = gchar_ptr.appinfo_unknown ↔ p.field self = none) ∧
      (∀ s : String, p.field self = some s →
        p.get self = gchar_ptr.owned s ∧ (p.get self).text = s) ∧
      (p.field self = none → (p.get self).text = "unknown") ∧
      (∀ v : Option String, p.field (p.set self v) = v) ∧
      p.get (p.set self none) = gchar_ptr.appinfo_unknown) ∧
    (∀ (c : Int) (ini : GKeyFile) (n t e : String), fs.stat = stat_result_t.ok c →
      self.anf_dt_ctime ≠ c → fs.access_r_ok = true → fs.keyfile = some ini →
      keyfile_get_string ini DESKTOP_SECTION DESKTOP_KEY_NAME none = some n →
      keyfile_get_string ini DESKTOP_SECTION DESKTOP_KEY_TYPE none = some t →
      keyfile_get_string ini DESKTOP_SECTION DESKTOP_KEY_EXEC none = some e →
      (appinfo_parse_desktop mask fs self).2.anf_state = APPINFO_STATE_VALID ∧
      (appinfo_get_name (appinfo_parse_desktop mask fs self).2).text = n ∧
      (appinfo_get_type (appinfo_parse_desktop mask fs self).2).text = t ∧
      (appinfo_get_exec (appinfo_parse_desktop mask fs self).2).text = e) := by
  constructor
  · intro p hp
    simp only [appinfo_string_properties, List.mem_cons, List.mem_singleton,
      List.not_mem_nil, or_false] at hp
    rcases hp with rfl | rfl | rfl | rfl | rfl | rfl | rfl | rfl | rfl
    · simp only [appinfo_get_name, appinfo_set_name_eq]
      cases self.anf_dt_name <;> simp [or_unknown, gchar_ptr.text]
    · simp only [appinfo_get_type, appinfo_set_type_eq]
      cases self.anf_dt_type <;> simp [or_unknown, gchar_ptr.text]
    · simp only [appinfo_get_icon, appinfo_set_icon_eq]
      cases self.anf_dt_icon <;> simp [or_unknown, gchar_ptr.text]
    · simp only [appinfo_get_exec, appinfo_set_exec_eq]
      cases self.anf_dt_exec <;> simp [or_unknown, gchar_ptr.text]
    · simp only [appinfo_get_service, appinfo_set_service_eq]
      cases self.anf_mo_service <;> simp [or_unknown, gchar_ptr.text]
    · simp only [appinfo_get_object, appinfo_set_object_eq]
      cases self.anf_mo_object <;> simp [or_unknown, gchar_ptr.text]
    · simp only [appinfo_get_method, appinfo_set_method_eq]
      cases self.anf_mo_method <;> simp [or_unknown, gchar_ptr.text]
    · simp only [appinfo_get_organization_name, appinfo_set_organization_name_eq]
      cases self.anf_sj_organization_name <;> simp [or_unknown, gchar_ptr.text]
    · simp only [appinfo_get_application_name, appinfo_set_application_name_eq]
      cases self.anf_sj_application_name <;> simp [or_unknown, gchar_ptr.text]
  · intro c ini n t e hstat hctime haccess hload hn ht he
    rw [appinfo_parse_desktop_loaded mask fs self c ini hstat hctime haccess hload,
      appinfo_parse_keyfile_eq]
    simp [appinfo_clear_dirty, desktop_state, hn, ht, he, appinfo_get_name, appinfo_get_type,
      appinfo_get_exec, or_unknown, gchar_ptr.text]

/-- C25, at concrete inputs: a manifest whose `Name`, `Type` and `Exec` are the text
`unknown` gives a VALID record, and the record of boundary case B2 (no `Exec` line) renders
its exec line as `unknown` while being INVALID. -/
theorem appinfo_unknown_sentinel_witness :
    (appinfo_parse_desktop S1_mask unknown_text_desktop
      (appinfo_create "voicecall-ui")).2.anf_state = APPINFO_STATE_VALID ∧
    (appinfo_get_exec (appinfo_parse_desktop S1_mask B2_desktop
      (appinfo_create "voicecall-ui")).2).text = "unknown" ∧
    (appinfo_parse_desktop S1_mask B2_desktop
      (appinfo_create "voicecall-ui")).2.anf_state = APPINFO_STATE_INVALID :=
  ⟨((appinfo_unknown_sentinel S1_mask unknown_text_desktop (appinfo_create "voicecall-ui")).2
      1600000000 unknown_text_keyfile "unknown" "unknown" "unknown" rfl (by decide) rfl rfl
      (by decide) (by decide) (by decide)).1,
   by decide, by decide⟩

/-- C22 (invariant I3, as the code has it): `appinfo_parse_desktop` on a record whose dirty
flag is clear at entry reports a change exactly when one of name, type, icon, exec,
no_display, service, object, method, organization name, application name, the masked
permission set or the state differs between the record before the call and the record after
it. The icon is part of the list, and the permissions count through the masked set, not
through the requested set. -/
theorem appinfo_parse_desktop_change_explained (mask : stringset_t) (fs : desktop_file_t)
    (self : appinfo_t) (hclean : self.anf_dirty = false) :
    (appinfo_parse_desktop mask fs self).1 = true ↔
      (self.anf_dt_name ≠ (appinfo_parse_desktop mask fs self).2.anf_dt_name ∨
       self.anf_dt_type ≠ (appinfo_parse_desktop mask fs self).2.anf_dt_type ∨
       self.anf_dt_icon ≠ (appinfo_parse_desktop mask fs self).2.anf_dt_icon ∨
       self.anf_dt_exec ≠ (appinfo_parse_desktop mask fs self).2.anf_dt_exec ∨
       self.anf_dt_no_display ≠ (appinfo_parse_desktop mask fs self).2.anf_dt_no_display ∨
       self.anf_mo_service ≠ (appinfo_parse_desktop mask fs self).2.anf_mo_service ∨
       self.anf_mo_object ≠ (appinfo_parse_desktop mask fs self).2.anf_mo_object ∨
       self.anf_mo_method ≠ (appinfo_parse_desktop mask fs self).2.anf_mo_method ∨
       self.anf_sj_organization_name ≠
         (appinfo_parse_desktop mask fs self).2.anf_sj_organization_name ∨
       self.anf_sj_application_name ≠
         (appinfo_parse_desktop mask fs self).2.anf_sj_application_name ∨
       self.anf_sj_permissions_out ≠
         (appinfo_parse_desktop mask fs self).2.anf_sj_permissions_out ∨
       self.anf_state ≠ (appinfo_parse_desktop mask fs self).2.anf_state) := by
  rw [appinfo_parse_desktop_flag, hclean]
  simp only [Bool.false_or, Bool.or_eq_true, decide_eq_true_eq, or_assoc]

/-- C22, an instance: the record of scenario S1 is clean, the manifest with the `Icon` line
added reports a change, and the icon is what differs. -/
theorem appinfo_parse_desktop_change_explained_witness :
    S1_appinfo.anf_dirty = false ∧
    (appinfo_parse_desktop S1_mask S1_desktop_icon S1_appinfo).1 = true ∧
    S1_appinfo.anf_dt_icon ≠
      (appinfo_parse_desktop S1_mask S1_desktop_icon S1_appinfo).2.anf_dt_icon :=
  ⟨by decide,
   (appinfo_parse_desktop_change_explained S1_mask S1_desktop_icon S1_appinfo
     (by decide)).mpr (by decide),
   by decide⟩

/-- C22 as stated fails: on the clean record of scenario S1 the manifest with an `Icon` line
added makes `appinfo_parse_desktop` return true, while requested permissions, name, type,
exec, no_display, service, object, method, organization name, application name and validity
are all as they were before the call. -/
theorem appinfo_parse_desktop_icon_counterexample :
    S1_appinfo.anf_dirty = false ∧
    (appinfo_parse_desktop S1_mask S1_desktop_icon S1_appinfo).1 = true ∧
    (appinfo_parse_desktop S1_mask S1_desktop_icon S1_appinfo).2.anf_sj_permissions_in =
      S1_appinfo.anf_sj_permissions_in ∧
    (appinfo_parse_desktop S1_mask S1_desktop_icon S1_appinfo).2.anf_dt_name =
      S1_appinfo.anf_dt_name ∧
    (appinfo_parse_desktop S1_mask S1_desktop_icon S1_appinfo).2.anf_dt_type =
      S1_appinfo.anf_dt_type ∧
    (appinfo_parse_desktop S1_mask S1_desktop_icon S1_appinfo).2.anf_dt_exec =
      S1_appinfo.anf_dt_exec ∧
    (appinfo_parse_desktop S1_mask S1_desktop_icon S1_appinfo).2.anf_dt_no_display =
      S1_appinfo.anf_dt_no_display ∧
    (appinfo_parse_desktop S1_mask S1_desktop_icon S1_appinfo).2.anf_mo_service =
      S1_appinfo.anf_mo_service ∧
    (appinfo_parse_desktop S1_mask S1_desktop_icon S1_appinfo).2.anf_mo_object =
      S1_appinfo.anf_mo_object ∧
    (appinfo_parse_desktop S1_mask S1_desktop_icon S1_appinfo).2.anf_mo_method =
      S1_appinfo.anf_mo_method ∧
    (appinfo_parse_desktop S1_mask S1_desktop_icon S1_appinfo).2.anf_sj_organization_name =
      S1_appinfo.anf_sj_organization_name ∧
    (appinfo_parse_desktop S1_mask S1_desktop_icon S1_appinfo).2.anf_sj_application_name =
      S1_appinfo.anf_sj_application_name ∧
    appinfo_valid (some (appinfo_parse_desktop S1_mask S1_desktop_icon S1_appinfo).2) =
      appinfo_valid (some S1_appinfo) ∧
    (appinfo_parse_desktop S1_mask S1_desktop_icon S1_appinfo).2.anf_state =
      S1_appinfo.anf_state := by
  decide

/-- C26 (postcondition and frame of `appsettings_set_agreed`): for every record and every C
`int` v, with v' = v when v is one of UNSET, YES, NO and v' = UNSET otherwise, the call sets
`agreed` to v' and leaves every other field as it was; when v' differs from the previous
`agreed` it calls `appsettings_notify_change` once, which is one `settings_save_later` and,
the store being initialized, one `control_on_settings_change` before it; when v' equals the
previous `agreed` it returns the record as it was and calls nothing. `appsettings_set_allowed`
likewise returns the record as it was and calls nothing when the normalised value equals the
current `allowed`. -/
theorem appsettings_set_agreed_post (i : Bool) (self : appsettings_t) (v : Int)
    (hv : is_int v) :
    (appsettings_set_agreed i self v).1 =
      { self with ast_agreed :=
          if v = APP_AGREED_UNSET ∨ v = APP_AGREED_YES ∨ v = APP_AGREED_NO then v
          else APP_AGREED_UNSET } ∧
    (appsettings_set_agreed i self v).1.ast_allowed = self.ast_allowed ∧
    (appsettings_set_agreed i self v).1.ast_granted = self.ast_granted ∧
    ((appsettings_set_agreed i self v).1.ast_agreed ≠ self.ast_agreed →
      (appsettings_set_agreed i self v).2 =
        appsettings_notify_change i (appsettings_set_agreed i self v).1 ∧
      (appsettings_set_agreed true self v).2 =
        [effect_t.control_on_settings_change self.ast_appname,
         effect_t.settings_save_later self.ast_uid]) ∧
    ((appsettings_set_agreed i self v).1.ast_agreed = self.ast_agreed →
      appsettings_set_agreed i self v = (self, [])) ∧
    (∀ a : Option appinfo_t,
      (if v = APP_ALLOWED_UNSET ∨ v = APP_ALLOWED_ALWAYS ∨ v = APP_ALLOWED_NEVER then v
       else APP_ALLOWED_UNSET) = self.ast_allowed →
      appsettings_set_allowed i a self v = (self, [])) := by
  have h3 := to_unsigned_ge_three v hv
  have hnorm : (if to_unsigned v ≥ 3 then (0 : Int) else v) =
      (if v = 0 ∨ v = 1 ∨ v = 2 then v else 0) := by
    by_cases hd : v = 0 ∨ v = 1 ∨ v = 2
    · rw [if_neg (fun h => (h3.mp h) hd), if_pos hd]
    · rw [if_pos (h3.mpr hd), if_neg hd]
  have hallow : ∀ a : Option appinfo_t,
      (if v = 0 ∨ v = 1 ∨ v = 2 then v else 0) = self.ast_allowed →
      appsettings_set_allowed i a self v = (self, []) := by
    intro a he
    unfold appsettings_set_allowed
    simp only [APP_ALLOWED_COUNT, APP_ALLOWED_UNSET]
    rw [hnorm, if_neg (fun hne => hne he.symm)]
  have hfst := set_agreed_fst i self v
  have hsnd := set_agreed_snd i self v
  have hsndt := set_agreed_snd true self v
  simp only [APP_AGREED_COUNT, APP_AGREED_UNSET, APP_AGREED_YES, APP_AGREED_NO,
    APP_ALLOWED_UNSET, APP_ALLOWED_ALWAYS, APP_ALLOWED_NEVER] at hfst hsnd hsndt ⊢
  rw [hnorm] at hfst hsnd hsndt
  generalize (if v = 0 ∨ v = 1 ∨ v = 2 then v else 0) = w at hfst hsnd hsndt hallow ⊢
  refine ⟨hfst, ?_, ?_, ?_, ?_, hallow⟩
  · rw [hfst]
  · rw [hfst]
  · rw [hfst]
    intro hne
    have hne2 : ¬ self.ast_agreed = w := fun e => hne e.symm
    rw [hsnd, hsndt, if_neg hne2, if_neg hne2]
    exact ⟨rfl, rfl⟩
  · rw [hfst]
    intro he
    have he2 : self.ast_agreed = w := he.symm
    apply Prod.ext
    · rw [hfst, ← he2]
    · rw [hsnd, if_pos he2]

/-- C26, an instance: on the record of scenario S2, agreeing changes `agreed` and makes one
notification and one save request, and agreeing with an out-of-range value when `agreed` is
UNSET does nothing. -/
theorem appsettings_set_agreed_post_witness :
    is_int 7 ∧
    appsettings_set_agreed true (appsettings_create 1000 "voicecall-ui") 7 =
      (appsettings_create 1000 "voicecall-ui", []) ∧
    (appsettings_set_agreed true (appsettings_create 1000 "voicecall-ui") APP_AGREED_YES).2 =
      [effect_t.control_on_settings_change "voicecall-ui", effect_t.settings_save_later 1000] :=
  ⟨by decide,
   (appsettings_set_agreed_post true (appsettings_create 1000 "voicecall-ui") 7
     (by decide)).2.2.2.2.1 (by decide),
   by decide⟩

/-- C28 (re-masking only shrinks): for every settings record and every application record
`control_appinfo` may return, the granted set after `appsettings_rethink` is a subset of the
granted set before it; with the application valid and the record allowed ALWAYS, a rethink
under the masked set M' followed by a rethink under a masked set M that contains M' leaves
granted = original granted ∩ M'; and `settings_rethink` does this to every record of every
bucket of the store. -/
theorem appsettings_rethink_shrinks (i j : Bool) (self : appsettings_t) :
    (∀ a : Option appinfo_t,
      (appsettings_rethink i a self).1.ast_granted ⊆ self.ast_granted) ∧
    (∀ app1 app2 : appinfo_t,
      appinfo_valid (some app1) = true → appinfo_valid (some app2) = true →
      self.ast_allowed = APP_ALLOWED_ALWAYS →
      appinfo_get_permissions app1 ⊆ appinfo_get_permissions app2 →
      (appsettings_rethink j (some app2)
        (appsettings_rethink i (some app1) self).1).1.ast_granted =
        self.ast_granted ∩ appinfo_get_permissions app1) ∧
    (∀ (ca : String → Option appinfo_t) (st : settings_t),
      (settings_rethink ca st).stt_users =
        st.stt_users.map (fun u =>
          (u.1,
           { u.2 with
             ust_apps := u.2.ust_apps.map (fun e =>
               (e.1, (appsettings_rethink st.stt_initialized
                 (ca e.2.ast_appname) e.2).1)) }))) := by
  refine ⟨?_, ?_, ?_⟩
  · intro a
    unfold appsettings_rethink
    rw [set_granted_fst]
    cases a with
    | none => exact Finset.empty_subset _
    | some app =>
      simp only [set_granted_value]
      split
      · exact Finset.inter_subset_left
      · exact Finset.empty_subset _
  · intro app1 app2 h1 h2 ha hsub
    rw [appinfo_valid_some, decide_eq_true_eq] at h1 h2
    unfold appsettings_rethink
    rw [set_granted_fst, set_granted_fst]
    simp only [set_granted_value, ha, h1, h2, and_self, if_true, Option.getD_some,
      appinfo_get_permissions] at hsub ⊢
    exact Finset.inter_eq_left.mpr (subset_trans Finset.inter_subset_right hsub)
  · intro ca st
    unfold settings_rethink
    rw [foldl_settings_perform_users]
    exact settings_rethink_users_map _ ca st.stt_users

/-- C28, an instance: the record of scenario S2 holds Phone and Contacts; the rethink after
the mask lost Contacts leaves Phone, and the rethink after the mask got Contacts back still
leaves Phone only, not the original grant. -/
theorem appsettings_rethink_shrinks_witness :
    (appsettings_set_allowed true (some S1_appinfo)
      (appsettings_create 1000 "voicecall-ui") APP_ALLOWED_ALWAYS).1.ast_granted =
      {"Phone", "Contacts"} ∧
    (appsettings_rethink true (some S1_appinfo)
      (appsettings_rethink true (some S2_appinfo)
        (appsettings_set_allowed true (some S1_appinfo)
          (appsettings_create 1000 "voicecall-ui") APP_ALLOWED_ALWAYS).1).1).1.ast_granted =
      ({"Phone", "Contacts"} : stringset_t) ∩ appinfo_get_permissions S2_appinfo ∧
    ({"Phone", "Contacts"} : stringset_t) ∩ appinfo_get_permissions S2_appinfo = {"Phone"} :=
  ⟨by decide,
   by
    have h := (appsettings_rethink_shrinks true true
      (appsettings_set_allowed true (some S1_appinfo)
        (appsettings_create 1000 "voicecall-ui") APP_ALLOWED_ALWAYS).1).2.1
      S2_appinfo S1_appinfo (by decide) (by decide) (by decide) (by decide)
    rw [h]
    decide,
   by decide⟩

/-- C30 (a manifest load replaces, never merges): whenever `appinfo_parse_desktop` loads the
manifest (stat succeeds with a ctime other than the cached one, the file is readable and
loads), then whatever the record held before, each of name, type, icon, exec, service, object,
method, organization name and application name is the manifest's value for its key,
no_display is the manifest's `NoDisplay`, requested is the manifest's `Permissions` list and
the cached ctime is the new one; a key that is absent reads as unset, false or the empty set;
so a manifest without an `Exec` line leaves exec unset and the record INVALID. -/
theorem appinfo_parse_desktop_replaces (mask : stringset_t) (fs : desktop_file_t)
    (self : appinfo_t) (c : Int) (ini : GKeyFile) (hstat : fs.stat = stat_result_t.ok c)
    (hctime : self.anf_dt_ctime ≠ c) (haccess : fs.access_r_ok = true)
    (hload : fs.keyfile = some ini) :
    (appinfo_parse_desktop mask fs self).2.anf_dt_name =
      keyfile_get_string ini DESKTOP_SECTION DESKTOP_KEY_NAME none ∧
    (appinfo_parse_desktop mask fs self).2.anf_dt_type =
      keyfile_get_string ini DESKTOP_SECTION DESKTOP_KEY_TYPE none ∧
    (appinfo_parse_desktop mask fs self).2.anf_dt_icon =
      keyfile_get_string ini DESKTOP_SECTION DESKTOP_KEY_ICON none ∧
    (appinfo_parse_desktop mask fs self).2.anf_dt_exec =
      keyfile_get_string ini DESKTOP_SECTION DESKTOP_KEY_EXEC none ∧
    (appinfo_parse_desktop mask fs self).2.anf_mo_service =
      keyfile_get_string ini MAEMO_SECTION MAEMO_KEY_SERVICE none ∧
    (appinfo_parse_desktop mask fs self).2.anf_mo_object =
      keyfile_get_string ini MAEMO_SECTION MAEMO_KEY_OBJECT none ∧
    (appinfo_parse_desktop mask fs self).2.anf_mo_method =
      keyfile_get_string ini MAEMO_SECTION MAEMO_KEY_METHOD none ∧
    (appinfo_parse_desktop mask fs self).2.anf_sj_organization_name =
      keyfile_get_string ini (sailjail_group ini) SAILJAIL_KEY_ORGANIZATION_NAME none ∧
    (appinfo_parse_desktop mask fs self).2.anf_sj_application_name =
      keyfile_get_string ini (sailjail_group ini) SAILJAIL_KEY_APPLICATION_NAME none ∧
    (appinfo_parse_desktop mask fs self).2.anf_dt_no_display =
      keyfile_get_boolean ini DESKTOP_SECTION DESKTOP_KEY_NO_DISPLAY false ∧
    (appinfo_parse_desktop mask fs self).2.anf_sj_permissions_in =
      keyfile_get_stringset ini (sailjail_group ini) SAILJAIL_KEY_PERMISSIONS ∧
    (appinfo_parse_desktop mask fs self).2.anf_dt_ctime = c ∧
    (∀ sec key : String, ini.value sec key = none →
      keyfile_get_string ini sec key none = none ∧
      keyfile_get_boolean ini sec key false = false ∧
      keyfile_get_stringset ini sec key = ∅) ∧
    (ini.value DESKTOP_SECTION DESKTOP_KEY_EXEC = none →
      (appinfo_parse_desktop mask fs self).2.anf_dt_exec = none ∧
      (appinfo_parse_desktop mask fs self).2.anf_state = APPINFO_STATE_INVALID) := by
  rw [appinfo_parse_desktop_loaded mask fs self c ini hstat hctime haccess hload,
    appinfo_parse_keyfile_eq]
  have habs : ∀ sec key : String, ini.value sec key = none →
      keyfile_get_string ini sec key none = none ∧
      keyfile_get_boolean ini sec key false = false ∧
      keyfile_get_stringset ini sec key = ∅ := by
    intro sec key h
    simp [keyfile_get_string, keyfile_get_boolean, keyfile_get_stringset, stringset_create, h]
  refine ⟨rfl, rfl, rfl, rfl, rfl, rfl, rfl, rfl, rfl, rfl, rfl, rfl, habs, ?_⟩
  intro h
  have he := (habs _ _ h).1
  refine ⟨he, ?_⟩
  simp only [appinfo_clear_dirty, desktop_state, he]
  simp

/-- C30, an instance: the VALID record of scenario S1 parsed against the manifest of B2, which
has no `Exec` line, under a new ctime turns INVALID, with exec unset and the ctime cached. -/
theorem appinfo_parse_desktop_replaces_witness :
    appinfo_valid (some S1_appinfo) = true ∧
    S1_appinfo.anf_dt_exec ≠ none ∧
    (appinfo_parse_desktop S1_mask
      { stat := .ok 1600000500, access_r_ok := true, keyfile := some B2_keyfile }
      S1_appinfo).2.anf_dt_exec = none ∧
    (appinfo_parse_desktop S1_mask
      { stat := .ok 1600000500, access_r_ok := true, keyfile := some B2_keyfile }
      S1_appinfo).2.anf_state = APPINFO_STATE_INVALID ∧
    (appinfo_parse_desktop S1_mask
      { stat := .ok 1600000500, access_r_ok := true, keyfile := some B2_keyfile }
      S1_appinfo).2.anf_dt_ctime = 1600000500 :=
  ⟨by decide, by decide,
   ((appinfo_parse_desktop_replaces S1_mask
      { stat := .ok 1600000500, access_r_ok := true, keyfile := some B2_keyfile }
      S1_appinfo 1600000500 B2_keyfile rfl (by decide) rfl rfl).2.2.2.2.2.2.2.2.2.2.2.2.2
      (by decide)).1,
   ((appinfo_parse_desktop_replaces S1_mask
      { stat := .ok 1600000500, access_r_ok := true, keyfile := some B2_keyfile }
      S1_appinfo 1600000500 B2_keyfile rfl (by decide) rfl rfl).2.2.2.2.2.2.2.2.2.2.2.2.2
      (by decide)).2,
   (appinfo_parse_desktop_replaces S1_mask
      { stat := .ok 1600000500, access_r_ok := true, keyfile := some B2_keyfile }
      S1_appinfo 1600000500 B2_keyfile rfl (by decide) rfl rfl).2.2.2.2.2.2.2.2.2.2.2.1⟩

/-- C27, evaluated on the code: `settings_load_all` and `settings_save_all` run their body
for the uids the loop `for( uid_t uid = min_uid; uid <= max_uid; ++uid )` visits, in that
order. With `max_uid` below the largest `uid_t` the loop ends after visiting min_uid, ...,
max_uid once each in increasing order (no uid when min_uid > max_uid). With `max_uid` equal to
the largest `uid_t`, 4294967295, the increment wraps to 0, the condition never fails and
neither function returns, whatever the fuel. -/
theorem settings_load_all_uid_loop (fuel : Nat) (control : control_t) (self : settings_t)
    (disk : disk_t) :
    settings_load_all fuel control self disk =
      (uid_loop control.max_user fuel control.min_user).map
        (List.foldl (fun s u => settings_load_user control s disk u) self) ∧
    settings_save_all fuel control self disk =
      (uid_loop control.max_user fuel control.min_user).map
        (List.foldl (fun d u => settings_save_user control self d u) disk) ∧
    (control.max_user < 4294967295 → control.max_user + 1 - control.min_user < fuel →
      uid_loop control.max_user fuel control.min_user =
        some (List.range' control.min_user (control.max_user + 1 - control.min_user))) ∧
    (control.max_user < control.min_user → 0 < fuel →
      settings_load_all fuel control self disk = some self ∧
      settings_save_all fuel control self disk = some disk) ∧
    (control.max_user = 4294967295 → control.min_user ≤ 4294967295 →
      settings_load_all fuel control self disk = none ∧
      settings_save_all fuel control self disk = none) ∧
    settings_load_all fuel max_uid_control self disk = none ∧
    settings_save_all fuel max_uid_control self disk = none ∧
    settings_load_all 4 small_range_control self disk =
      some (settings_load_user small_range_control
        (settings_load_user small_range_control
          (settings_load_user small_range_control self disk 999) disk 1000) disk 1001) := by
  have hload : ∀ c : control_t, settings_load_all fuel c self disk =
      (uid_loop c.max_user fuel c.min_user).map
        (List.foldl (fun s u => settings_load_user c s disk u) self) :=
    fun c => settings_load_all_loop_eq c disk _ fuel _ self
  have hsave : ∀ c : control_t, settings_save_all fuel c self disk =
      (uid_loop c.max_user fuel c.min_user).map
        (List.foldl (fun d u => settings_save_user c self d u) disk) :=
    fun c => settings_save_all_loop_eq c self _ fuel _ disk
  refine ⟨hload control, hsave control, ?_, ?_, ?_, ?_, ?_, rfl⟩
  · intro hmax hfuel
    exact uid_loop_ends _ _ _ hmax hfuel
  · intro hlt hfuel
    rw [hload, hsave]
    obtain ⟨n, rfl⟩ : ∃ n, fuel = n + 1 := ⟨fuel - 1, by omega⟩
    unfold uid_loop
    rw [if_neg (by omega)]
    exact ⟨rfl, rfl⟩
  · intro hmax hmin
    rw [hload, hsave, hmax, uid_loop_never_ends fuel _ hmin]
    exact ⟨rfl, rfl⟩
  · rw [hload]
    have h := uid_loop_never_ends fuel max_uid_control.min_user (by decide)
    have hm : max_uid_control.max_user = 4294967295 := rfl
    rw [hm, h]
    rfl
  · rw [hsave]
    have h := uid_loop_never_ends fuel max_uid_control.min_user (by decide)
    have hm : max_uid_control.max_user = 4294967295 := rfl
    rw [hm, h]
    rfl

/-- C29 (nothing is forwarded to Control during construction): whatever uids the initial
`settings_load_all` of `settings_ctor` visits and whatever the settings directory holds, the
loads make no `control_on_settings_change` call and leave `stt_initialized` false; the store
`settings_ctor` returns has made no such call and is initialized, and `settings_ctor` does
return when `max_uid` is below the largest `uid_t`. In the directory of scenario S4 the decode
changes the granted set of the record to Phone, uid 1000 is dirty and the save timer is
armed, with nothing forwarded. With the store initialized, `appsettings_set_allowed`,
`appsettings_set_agreed` and `appsettings_set_granted` forward one change, followed by one save
request, for each field they change. -/
theorem settings_ctor_quiet (fuel : Nat) (control : control_t) (disk : disk_t)
    (last_id : Nat) :
    (∀ uids : List Nat,
      (List.foldl (fun s u => settings_load_user control s disk u)
        (settings_ctor_begin last_id) uids).control_changes = [] ∧
      (List.foldl (fun s u => settings_load_user control s disk u)
        (settings_ctor_begin last_id) uids).stt_initialized = false) ∧
    (∀ r : settings_t, settings_ctor fuel control disk last_id = some r →
      r.control_changes = [] ∧ r.stt_initialized = true) ∧
    (control.max_user < 4294967295 → control.max_user + 1 - control.min_user < fuel →
      (settings_ctor fuel control disk last_id).isSome = true) ∧
    (settings_ctor 4 small_range_control S4_disk 0).map
      (fun r => r.control_changes) = some [] ∧
    (settings_ctor 4 small_range_control S4_disk 0).map
      (fun r => r.stt_user_changes) = some [1000] ∧
    (settings_ctor 4 small_range_control S4_disk 0).map
      (fun r => r.stt_save_id) = some 1 ∧
    (settings_ctor 4 small_range_control S4_disk 0).map
      (fun r => r.loop.sources) = some [(1, 1000)] ∧
    (settings_ctor 4 small_range_control S4_disk 0).map
      (fun r => (settings_get_appsettings r 1000 "voicecall-ui").map appsettings_get_granted) =
      some (some {"Phone"}) ∧
    (∀ (a : Option appinfo_t) (self : appsettings_t) (v : Int),
      (appsettings_set_allowed true a self v).2 =
        (if self.ast_allowed = (appsettings_set_allowed true a self v).1.ast_allowed then []
         else [effect_t.control_on_settings_change self.ast_appname,
               effect_t.settings_save_later self.ast_uid]) ++
        (if self.ast_granted = (appsettings_set_allowed true a self v).1.ast_granted then []
         else [effect_t.control_on_settings_change self.ast_appname,
               effect_t.settings_save_later self.ast_uid])) ∧
    (∀ (self : appsettings_t) (v : Int),
      (appsettings_set_agreed true self v).2 =
        if self.ast_agreed = (appsettings_set_agreed true self v).1.ast_agreed then []
        else [effect_t.control_on_settings_change self.ast_appname,
              effect_t.settings_save_later self.ast_uid]) ∧
    (∀ (a : Option appinfo_t) (self : appsettings_t) (S : Option stringset_t),
      (appsettings_set_granted true a self S).2 =
        if (appsettings_set_granted true a self S).1.ast_granted = self.ast_granted then []
        else [effect_t.control_on_settings_change self.ast_appname,
              effect_t.settings_save_later self.ast_uid]) := by
  have hfold : ∀ uids : List Nat,
      (List.foldl (fun s u => settings_load_user control s disk u)
        (settings_ctor_begin last_id) uids).control_changes = [] ∧
      (List.foldl (fun s u => settings_load_user control s disk u)
        (settings_ctor_begin last_id) uids).stt_initialized = false := by
    intro uids
    obtain ⟨hi, hc⟩ := foldl_settings_load_user_quiet control disk uids
      (settings_ctor_begin last_id) rfl
    exact ⟨hc, hi⟩
  refine ⟨hfold, ?_, ?_, by decide, by decide, by decide, by decide, by decide, ?_, ?_, ?_⟩
  · intro r hr
    unfold settings_ctor settings_load_all at hr
    rw [settings_load_all_loop_eq] at hr
    cases hu : uid_loop (control_max_user control) fuel (control_min_user control) with
    | none =>
      rw [hu] at hr
      exact absurd hr (by simp)
    | some uids =>
      rw [hu] at hr
      simp only [Option.map_some', Option.some.injEq] at hr
      rw [← hr]
      exact ⟨(hfold uids).1, rfl⟩
  · intro hmax hfuel
    unfold settings_ctor settings_load_all
    rw [settings_load_all_loop_eq]
    have h := uid_loop_ends control.max_user fuel control.min_user hmax hfuel
    simp only [control_max_user, control_min_user, h]
    rfl
  · intro a self v
    exact set_allowed_snd true a self v
  · intro self v
    rw [set_agreed_snd, set_agreed_fst]
    rfl
  · intro a self S
    rw [set_granted_snd, set_granted_fst]
    rfl

/-- C29, an instance: constructing the store over the directory of scenario S4 with the uid
range 999 to 1001 returns a store, initialized, with nothing forwarded to Control. -/
theorem settings_ctor_quiet_witness :
    (settings_ctor 4 small_range_control S4_disk 0).isSome = true ∧
    ∀ r : settings_t, settings_ctor 4 small_range_control S4_disk 0 = some r →
      r.control_changes = [] ∧ r.stt_initialized = true :=
  ⟨(settings_ctor_quiet 4 small_range_control S4_disk 0).2.2.1 (by decide) (by decide),
   (settings_ctor_quiet 4 small_range_control S4_disk 0).2.1⟩

end Sailjail
